import Mathlib

set_option maxRecDepth 1000000

/- `Rat.add`, `Rat.mul`, `Rat.inv` and `Rat.sub` are `irreducible` in Mathlib;
the concrete-scenario evaluations below unfold them with `decide`, so they are
made semireducible for this file. -/
attribute [local semireducible] Rat.add Rat.mul Rat.inv Rat.sub

/-!
# HOS Compliance ELD Log System — verification of the schedule-generation engine

Shallow embedding of `src/backend/hos_app/hos_engine.py` (class `HOSEngine`).

Modelling conventions:
* Python floats are modelled as exact rationals (`ℚ`), following the spec's own
  design note that durations should be tracked in an exact representation.
  `round(x, 2)` is modelled as `round2` (round half up at the second decimal;
  no claim below depends on the tie-breaking direction of `round`).
* `datetime` timestamps are modelled as rational hours since an epoch.
  `datetime.now()` (line 113) is modelled by an explicit `now` parameter;
  `.replace(hour=6, minute=0, ...)` becomes `24 * ⌊now / 24⌋ + 6`.
* The two `while` loops of `_generate_daily_schedule` are modelled by
  fuel-indexed recursion (`driveLoop`, `scheduleLoop`); `none` means the fuel
  was exhausted, so `∀ fuel, ... = none` states that the Python loop never
  terminates.
* The `notes` strings of log entries are modelled by the inductive type `Note`
  (one constructor per distinct string produced by the engine).
-/

namespace HOS

/-- Duty status of a log segment: `'OFF'`, `'SB'`, `'D'`, `'ON'` in the source. -/
inductive Status
  | OFF
  | SB
  | D
  | ON
deriving DecidableEq, Repr, Inhabited

/-- The `notes` field of a log entry; one constructor per distinct string the
engine writes (`'Pickup - Loading'`, `'Dropoff - Unloading'`, `'Fuel stop'`,
`'30-minute break (8-hour rule)'`, `'Driving - .. miles'`,
`'10-hour rest period (daily reset)'`, `'34-hour restart (cycle reset)'`). -/
inductive Note
  | pickup
  | dropoff
  | fuelStop
  | breakRest
  | driving
  | dailyRest
  | restart
deriving DecidableEq, Repr, Inhabited

/-! ## HOS constants (hos_engine.py lines 21-36) -/

def MAX_DRIVING_HOURS : ℚ := 11
def MAX_ON_DUTY_HOURS : ℚ := 14
def REQUIRED_BREAK_AFTER_HOURS : ℚ := 8
def REQUIRED_BREAK_DURATION : ℚ := 1/2
def MAX_CYCLE_HOURS : ℚ := 70
def CYCLE_DAYS : ℕ := 8
def RESET_OFF_DUTY_HOURS : ℚ := 10
def RESTART_OFF_DUTY_HOURS : ℚ := 34
def AVG_SPEED_MPH : ℚ := 60
def FUEL_STOP_MILES : ℚ := 1000
def FUEL_STOP_DURATION : ℚ := 1/2
def PICKUP_DURATION : ℚ := 1
def DROPOFF_DURATION : ℚ := 1

/-- Python's `round(x, 2)`: round to two decimal places. -/
def round2 (q : ℚ) : ℚ := (round (q * 100) : ℤ) / 100

/-- A single log entry, the dict built by `_create_log_entry` (lines 305-322):
`duration` is stored rounded to 2 decimals, while `end_time` is
`start_time + timedelta(hours=duration)` with the unrounded duration. -/
structure LogEntry where
  status : Status
  startTime : ℚ
  endTime : ℚ
  duration : ℚ
  note : Note
deriving DecidableEq, Repr, Inhabited

/-- `HOSEngine._create_log_entry` (lines 305-322). -/
def createLogEntry (status : Status) (startTime : ℚ) (duration : ℚ) (note : Note) :
    LogEntry :=
  { status := status
    startTime := startTime
    endTime := startTime + duration
    duration := round2 duration
    note := note }

/-- A daily log dict as assembled at lines 142-150 / 286-294 (work day) or by
`_create_restart_log` (lines 324-348).  `date` is the calendar-day index of the
start timestamp. -/
structure DayLog where
  dayNumber : ℕ
  date : ℤ
  startTime : ℚ
  endTime : ℚ
  entries : List LogEntry
  totalDrivingHours : ℚ
  totalOnDutyHours : ℚ
  totalOffDutyHours : ℚ
  remainingDriveTime : ℚ
  remainingOnDutyTime : ℚ
  cycleHoursRemaining : ℚ
  isRestart : Bool
deriving DecidableEq, Repr, Inhabited

/-- Sum of `duration` over the `'D'` entries of a day (line 275-276). -/
def sumDriving (es : List LogEntry) : ℚ :=
  (es.map (fun e => if e.status = Status.D then e.duration else 0)).sum

/-- Sum of `duration` over the `'D'`/`'ON'` entries of a day (line 277-278). -/
def sumOnDuty (es : List LogEntry) : ℚ :=
  (es.map (fun e => if e.status = Status.D ∨ e.status = Status.ON then e.duration else 0)).sum

/-- Sum of `duration` over the `'OFF'`/`'SB'` entries of a day (line 279-280). -/
def sumOffDuty (es : List LogEntry) : ℚ :=
  (es.map (fun e => if e.status = Status.OFF ∨ e.status = Status.SB then e.duration else 0)).sum

/-- Number of entries carrying a given note. -/
def countNote (n : Note) (es : List LogEntry) : ℕ :=
  es.countP (fun e => e.note == n)

/-- `HOSEngine._create_restart_log` (lines 324-348). -/
def createRestartLog (dayNumber : ℕ) (startTime : ℚ) : DayLog :=
  { dayNumber := dayNumber
    date := ⌊startTime / 24⌋
    startTime := startTime
    endTime := startTime + RESTART_OFF_DUTY_HOURS
    entries := [{ status := Status.OFF
                  startTime := startTime
                  endTime := startTime + RESTART_OFF_DUTY_HOURS
                  duration := RESTART_OFF_DUTY_HOURS
                  note := Note.restart }]
    totalDrivingHours := 0
    totalOnDutyHours := 0
    totalOffDutyHours := RESTART_OFF_DUTY_HOURS
    remainingDriveTime := MAX_DRIVING_HOURS
    remainingOnDutyTime := MAX_ON_DUTY_HOURS
    cycleHoursRemaining := MAX_CYCLE_HOURS
    isRestart := true }

/-- The per-day mutable variables of `_generate_daily_schedule`
(`day_log['log_entries']`, `current_time`, `hours_driven_today`,
`hours_on_duty_today`, `hours_since_break` plus the trip-level carry-overs
`remaining_driving_hours`, `remaining_miles`, `miles_since_fuel`,
`dropoff_done` which the inner loop also mutates). -/
structure DayState where
  entries : List LogEntry
  time : ℚ
  hoursDriven : ℚ
  hoursOnDuty : ℚ
  hoursSinceBreak : ℚ
  remainingDrivingHours : ℚ
  remainingMiles : ℚ
  milesSinceFuel : ℚ
  dropoffDone : Bool
deriving DecidableEq, Repr, Inhabited

/-- The inner `while` loop of `_generate_daily_schedule` (lines 182-260):
drive and manage breaks / fuel stops, with the dropoff appended as soon as the
remaining driving hours hit zero.  Fuel-indexed; `none` = fuel exhausted. -/
def driveLoop (maxDriveHours maxOnDutyHours : ℚ) : ℕ → DayState → Option DayState
  | 0, _ => none
  | fuel + 1, s =>
    if s.hoursDriven < maxDriveHours ∧ s.hoursOnDuty < maxOnDutyHours ∧
        0 < s.remainingDrivingHours then
      if s.hoursSinceBreak ≥ REQUIRED_BREAK_AFTER_HOURS then
        -- 30-minute break (lines 187-197)
        let e := createLogEntry Status.OFF s.time REQUIRED_BREAK_DURATION Note.breakRest
        driveLoop maxDriveHours maxOnDutyHours fuel
          { s with entries := s.entries ++ [e], time := e.endTime, hoursSinceBreak := 0 }
      else if s.milesSinceFuel ≥ FUEL_STOP_MILES ∧ 0 < s.remainingMiles then
        -- fuel stop (lines 199-211)
        let e := createLogEntry Status.ON s.time FUEL_STOP_DURATION Note.fuelStop
        driveLoop maxDriveHours maxOnDutyHours fuel
          { s with entries := s.entries ++ [e], time := e.endTime,
                   hoursOnDuty := s.hoursOnDuty + FUEL_STOP_DURATION, milesSinceFuel := 0 }
      else
        -- driving segment (lines 213-245)
        let driveDuration :=
          min (min (min (min (REQUIRED_BREAK_AFTER_HOURS - s.hoursSinceBreak)
            (maxDriveHours - s.hoursDriven)) (maxOnDutyHours - s.hoursOnDuty))
            s.remainingDrivingHours) 2
        if driveDuration < 1/10 then some s
        else
          let milesDriven := driveDuration * AVG_SPEED_MPH
          let e := createLogEntry Status.D s.time driveDuration Note.driving
          let s' : DayState :=
            { s with entries := s.entries ++ [e], time := e.endTime,
                     hoursDriven := s.hoursDriven + driveDuration,
                     hoursOnDuty := s.hoursOnDuty + driveDuration,
                     hoursSinceBreak := s.hoursSinceBreak + driveDuration,
                     remainingDrivingHours := s.remainingDrivingHours - driveDuration,
                     remainingMiles := s.remainingMiles - milesDriven,
                     milesSinceFuel := s.milesSinceFuel + milesDriven }
          if s'.remainingDrivingHours ≤ 0 ∧ s.dropoffDone = false then
            -- dropoff (lines 248-260)
            let e2 := createLogEntry Status.ON s'.time DROPOFF_DURATION Note.dropoff
            some { s' with entries := s'.entries ++ [e2], time := e2.endTime,
                           hoursOnDuty := s'.hoursOnDuty + DROPOFF_DURATION,
                           dropoffDone := true }
          else driveLoop maxDriveHours maxOnDutyHours fuel s'
    else some s

/-- The trip-level mutable variables of `_generate_daily_schedule`
(lines 106-117): `daily_logs`, `remaining_driving_hours`, `remaining_miles`,
`miles_since_fuel`, `current_cycle`, `day_number`, `current_time`,
`pickup_done`, `dropoff_done`. -/
structure TripState where
  dailyLogs : List DayLog
  remainingDrivingHours : ℚ
  remainingMiles : ℚ
  milesSinceFuel : ℚ
  currentCycle : ℚ
  dayNumber : ℕ
  time : ℚ
  pickupDone : Bool
  dropoffDone : Bool
deriving DecidableEq, Repr, Inhabited

/-- `max_drive_hours` of a day (lines 153-157). -/
def maxDriveOf (ts : TripState) : ℚ :=
  min (min MAX_DRIVING_HOURS ts.remainingDrivingHours) (MAX_CYCLE_HOURS - ts.currentCycle)

/-- `max_on_duty_hours` of a day (lines 158-161). -/
def maxOnDutyOf (ts : TripState) : ℚ :=
  min MAX_ON_DUTY_HOURS (MAX_CYCLE_HOURS - ts.currentCycle)

/-- The per-day variables as initialised at lines 142-166 (empty entry list,
zero daily counters, carry-overs taken from the trip state). -/
def dayStartState (ts : TripState) : DayState :=
  { entries := []
    time := ts.time
    hoursDriven := 0
    hoursOnDuty := 0
    hoursSinceBreak := 0
    remainingDrivingHours := ts.remainingDrivingHours
    remainingMiles := ts.remainingMiles
    milesSinceFuel := ts.milesSinceFuel
    dropoffDone := ts.dropoffDone }

/-- Pickup on the first day (lines 169-179). -/
def pickupAdjusted (ts : TripState) : DayState :=
  let s0 := dayStartState ts
  if ts.pickupDone then s0
  else
    let e := createLogEntry Status.ON s0.time PICKUP_DURATION Note.pickup
    { s0 with entries := s0.entries ++ [e], time := e.endTime,
              hoursOnDuty := s0.hoursOnDuty + PICKUP_DURATION }

/-- End-of-day 10-hour rest (lines 262-271). -/
def restAdjusted (totalDrivingHours : ℚ) (dayNumber : ℕ) (s2 : DayState) : DayState :=
  if s2.dropoffDone = false ∨
      (dayNumber : ℤ) < ⌈totalDrivingHours / MAX_DRIVING_HOURS⌉ then
    let e := createLogEntry Status.SB s2.time RESET_OFF_DUTY_HOURS Note.dailyRest
    { s2 with entries := s2.entries ++ [e], time := e.endTime }
  else s2

/-- The work-day log dict with its totals (lines 142-150 and 273-294); the
`current_cycle` update (line 283) uses the unrounded on-duty total. -/
def mkWorkDayLog (ts : TripState) (s3 : DayState) : DayLog :=
  { dayNumber := ts.dayNumber
    date := ⌊ts.time / 24⌋
    startTime := ts.time
    endTime := s3.time
    entries := s3.entries
    totalDrivingHours := round2 (sumDriving s3.entries)
    totalOnDutyHours := round2 (sumOnDuty s3.entries)
    totalOffDutyHours := round2 (sumOffDuty s3.entries)
    remainingDriveTime := round2 (MAX_DRIVING_HOURS - sumDriving s3.entries)
    remainingOnDutyTime := round2 (MAX_ON_DUTY_HOURS - sumOnDuty s3.entries)
    cycleHoursRemaining := round2 (MAX_CYCLE_HOURS - (ts.currentCycle + sumOnDuty s3.entries))
    isRestart := false }

/-- Close a work day: append the rest period and the day log, update the
cycle and the carry-over state (lines 262-297). -/
def finishDay (totalDrivingHours : ℚ) (ts : TripState) (s2 : DayState) : TripState :=
  let s3 := restAdjusted totalDrivingHours ts.dayNumber s2
  { ts with
    dailyLogs := ts.dailyLogs ++ [mkWorkDayLog ts s3]
    remainingDrivingHours := s3.remainingDrivingHours
    remainingMiles := s3.remainingMiles
    milesSinceFuel := s3.milesSinceFuel
    currentCycle := ts.currentCycle + sumOnDuty s3.entries
    dayNumber := ts.dayNumber + 1
    time := s3.time
    pickupDone := true
    dropoffDone := s3.dropoffDone }

/-- One work-day iteration of the outer loop (lines 141-297): optional pickup,
the drive/break/fuel inner loop, the optional end-of-day 10-hour rest, the day
totals, the cycle update and the day-log append. -/
def buildWorkDay (totalDrivingHours : ℚ) (innerFuel : ℕ) (ts : TripState) :
    Option TripState :=
  match driveLoop (maxDriveOf ts) (maxOnDutyOf ts) innerFuel (pickupAdjusted ts) with
  | none => none
  | some s2 => some (finishDay totalDrivingHours ts s2)

/-- The state reached after emitting a restart day (lines 121-139). -/
def applyRestart (ts : TripState) : TripState :=
  let r := createRestartLog ts.dayNumber ts.time
  { ts with dailyLogs := ts.dailyLogs ++ [r], currentCycle := 0,
            time := r.endTime, dayNumber := ts.dayNumber + 1 }

/-- The outer `while remaining_driving_hours > 0 or not dropoff_done` loop of
`_generate_daily_schedule` (lines 119-301).  Fuel-indexed; `none` = fuel
exhausted, so `∀ fuel, scheduleLoop .. fuel ts = none` says the Python loop
does not terminate from `ts`. -/
def scheduleLoop (totalDrivingHours : ℚ) (innerFuel : ℕ) :
    ℕ → TripState → Option TripState
  | 0, _ => none
  | fuel + 1, ts =>
    if 0 < ts.remainingDrivingHours ∨ ts.dropoffDone = false then
      if ts.currentCycle ≥ MAX_CYCLE_HOURS then
        scheduleLoop totalDrivingHours innerFuel fuel (applyRestart ts)
      else if MAX_CYCLE_HOURS - ts.currentCycle < 1 then
        scheduleLoop totalDrivingHours innerFuel fuel (applyRestart ts)
      else
        match buildWorkDay totalDrivingHours innerFuel ts with
        | none => none
        | some ts' =>
          if ts'.dropoffDone = true ∧ ts'.remainingDrivingHours ≤ 0 then some ts'
          else scheduleLoop totalDrivingHours innerFuel fuel ts'
    else some ts

/-- The initial trip state (lines 106-117); `current_time` starts at 6 AM of
the wall-clock day `now`. -/
def initialTripState (currentCycleUsed totalMiles totalDrivingHours now : ℚ) :
    TripState :=
  { dailyLogs := []
    remainingDrivingHours := totalDrivingHours
    remainingMiles := totalMiles
    milesSinceFuel := 0
    currentCycle := currentCycleUsed
    dayNumber := 1
    time := 24 * ⌊now / 24⌋ + 6
    pickupDone := false
    dropoffDone := false }

/-- `HOSEngine._generate_daily_schedule` (lines 94-303); returns the final
trip state (whose `dailyLogs` field is the returned list of daily logs). -/
def generateDailySchedule (currentCycleUsed totalMiles totalDrivingHours now : ℚ)
    (innerFuel outerFuel : ℕ) : Option TripState :=
  scheduleLoop totalDrivingHours innerFuel outerFuel
    (initialTripState currentCycleUsed totalMiles totalDrivingHours now)

/-- `HOSEngine._calculate_final_cycle_usage` without the final rounding:
the running total re-derived from the day logs (restart resets to 0,
other days add their stored on-duty total). -/
def foldCycleUsage (start : ℚ) (logs : List DayLog) : ℚ :=
  logs.foldl (fun t l => if l.isRestart then 0 else t + l.totalOnDutyHours) start

/-- `HOSEngine._calculate_final_cycle_usage` (lines 350-362). -/
def calculateFinalCycleUsage (currentCycleUsed : ℚ) (logs : List DayLog) : ℚ :=
  round2 (foldCycleUsage currentCycleUsed logs)

/-- `HOSEngine._check_restart_needed` (lines 364-366). -/
def checkRestartNeeded (logs : List DayLog) : Bool :=
  logs.any (fun l => l.isRestart)

/-- The dict returned by `calculate_trip` (lines 82-92). -/
structure TripPlan where
  totalMiles : ℚ
  totalDrivingHours : ℚ
  estimatedDays : ℤ
  actualDays : ℕ
  numFuelStops : ℤ
  dailyLogs : List DayLog
  cycleUsedBefore : ℚ
  cycleUsedAfter : ℚ
  restartNeeded : Bool
deriving DecidableEq, Repr, Inhabited

/-- `HOSEngine.calculate_trip` (lines 48-92). -/
def calculateTrip (currentCycleUsed totalMiles now : ℚ) (innerFuel outerFuel : ℕ) :
    Option TripPlan :=
  let totalDrivingHours := totalMiles / AVG_SPEED_MPH
  let numFuelStops := ⌊totalMiles / FUEL_STOP_MILES⌋
  match generateDailySchedule currentCycleUsed totalMiles totalDrivingHours now
      innerFuel outerFuel with
  | none => none
  | some ts =>
    some { totalMiles := totalMiles
           totalDrivingHours := round2 totalDrivingHours
           estimatedDays := ⌈totalDrivingHours / MAX_DRIVING_HOURS⌉
           actualDays := ts.dailyLogs.length
           numFuelStops := numFuelStops
           dailyLogs := ts.dailyLogs
           cycleUsedBefore := currentCycleUsed
           cycleUsedAfter := calculateFinalCycleUsage currentCycleUsed ts.dailyLogs
           restartNeeded := checkRestartNeeded ts.dailyLogs }

/-- All entries of a plan, in order. -/
def flatEntries (logs : List DayLog) : List LogEntry :=
  (logs.map (fun l => l.entries)).flatten

/-- Total number of fuel-stop segments across all daily logs. -/
def totalFuelStops (logs : List DayLog) : ℕ :=
  (logs.map (fun l => countNote Note.fuelStop l.entries)).sum

end HOS

namespace HOS

/-! ## Arithmetic facts about `round2` -/

theorem round2_le_add (q : ℚ) : round2 q ≤ q + 1/200 := by
  have h := round_le_add_half (q * 100)
  rw [round2]
  rw [div_le_iff (by norm_num : (0:ℚ) < 100)]
  calc ((round (q * 100) : ℤ) : ℚ) ≤ q * 100 + 1/2 := h
    _ = (q + 1/200) * 100 := by ring

theorem sub_lt_round2 (q : ℚ) : q - 1/200 < round2 q := by
  have h := sub_half_lt_round (q * 100)
  rw [round2]
  rw [lt_div_iff (by norm_num : (0:ℚ) < 100)]
  calc (q - 1/200) * 100 = q * 100 - 1/2 := by ring
    _ < ((round (q * 100) : ℤ) : ℚ) := h

theorem round2_mono {x y : ℚ} (h : x ≤ y) : round2 x ≤ round2 y := by
  rw [round2, round2]
  have h1 : round (x * 100) ≤ round (y * 100) := by
    rw [round_eq, round_eq]
    exact Int.floor_le_floor (by linarith)
  have h2 : ((round (x * 100) : ℤ) : ℚ) ≤ ((round (y * 100) : ℤ) : ℚ) := by
    exact_mod_cast h1
  linarith

theorem round2_nonneg {q : ℚ} (h : 0 ≤ q) : 0 ≤ round2 q := by
  have h0 : round2 0 = 0 := by
    rw [round2]
    norm_num
  calc (0:ℚ) = round2 0 := h0.symm
    _ ≤ round2 q := round2_mono h

/-- A rational is exactly representable at two decimal places. -/
def exact2 (q : ℚ) : Prop := round2 q = q

theorem exact2_iff (q : ℚ) : exact2 q ↔ ∃ k : ℤ, q = (k : ℚ) / 100 := by
  constructor
  · intro h
    exact ⟨round (q * 100), h.symm⟩
  · rintro ⟨k, rfl⟩
    rw [exact2, round2]
    have : (k : ℚ) / 100 * 100 = (k : ℚ) := by field_simp
    rw [this, round_intCast]

theorem exact2_round2 (q : ℚ) : exact2 (round2 q) := by
  rw [exact2_iff]
  exact ⟨round (q * 100), rfl⟩

theorem exact2_add {x y : ℚ} (hx : exact2 x) (hy : exact2 y) : exact2 (x + y) := by
  rw [exact2_iff] at hx hy ⊢
  obtain ⟨k, rfl⟩ := hx
  obtain ⟨m, rfl⟩ := hy
  exact ⟨k + m, by push_cast; ring⟩

theorem exact2_sub {x y : ℚ} (hx : exact2 x) (hy : exact2 y) : exact2 (x - y) := by
  rw [exact2_iff] at hx hy ⊢
  obtain ⟨k, rfl⟩ := hx
  obtain ⟨m, rfl⟩ := hy
  exact ⟨k - m, by push_cast; ring⟩

theorem exact2_zero : exact2 0 := by
  rw [exact2_iff]
  exact ⟨0, by norm_num⟩

theorem exact2_num (k : ℤ) : exact2 (k : ℚ) := by
  rw [exact2_iff]
  exact ⟨k * 100, by push_cast; ring⟩

theorem exact2_half : exact2 (1/2 : ℚ) := by
  rw [exact2_iff]
  exact ⟨50, by norm_num⟩

/-- A two-decimal-exact value that is at most `c + 1/200` (for `c` itself
two-decimal-exact) is at most `c`. -/
theorem exact2_le_of_le_add {x c : ℚ} (hx : exact2 x) (hc : exact2 c)
    (h : x ≤ c + 1/200) : x ≤ c := by
  rw [exact2_iff] at hx hc
  obtain ⟨k, rfl⟩ := hx
  obtain ⟨m, rfl⟩ := hc
  have h2 : (2 * k : ℚ) ≤ 2 * m + 1 := by linarith
  have h3 : (2 * k : ℤ) ≤ 2 * m + 1 := by exact_mod_cast h2
  have h4 : k ≤ m := by omega
  have h5 : (k : ℚ) ≤ (m : ℚ) := by exact_mod_cast h4
  linarith

/-! ## One-step unfolding lemmas for the outer loop -/

theorem scheduleLoop_done (tdh : ℚ) (iF f : ℕ) (ts : TripState)
    (h : ¬(0 < ts.remainingDrivingHours ∨ ts.dropoffDone = false)) :
    scheduleLoop tdh iF (f + 1) ts = some ts := by
  simp only [scheduleLoop, if_neg h]

theorem scheduleLoop_restart_step (tdh : ℚ) (iF f : ℕ) (ts : TripState)
    (h1 : 0 < ts.remainingDrivingHours ∨ ts.dropoffDone = false)
    (h2 : ts.currentCycle ≥ MAX_CYCLE_HOURS ∨ MAX_CYCLE_HOURS - ts.currentCycle < 1) :
    scheduleLoop tdh iF (f + 1) ts = scheduleLoop tdh iF f (applyRestart ts) := by
  rcases h2 with h2 | h2
  · simp only [scheduleLoop, if_pos h1, if_pos h2]
  · simp only [scheduleLoop, if_pos h1]
    by_cases h3 : ts.currentCycle ≥ MAX_CYCLE_HOURS
    · simp only [if_pos h3]
    · simp only [if_neg h3, if_pos h2]

theorem scheduleLoop_work_step (tdh : ℚ) (iF f : ℕ) (ts ts' : TripState)
    (h1 : 0 < ts.remainingDrivingHours ∨ ts.dropoffDone = false)
    (h2 : ¬ ts.currentCycle ≥ MAX_CYCLE_HOURS)
    (h3 : ¬ MAX_CYCLE_HOURS - ts.currentCycle < 1)
    (h4 : buildWorkDay tdh iF ts = some ts')
    (h5 : ¬(ts'.dropoffDone = true ∧ ts'.remainingDrivingHours ≤ 0)) :
    scheduleLoop tdh iF (f + 1) ts = scheduleLoop tdh iF f ts' := by
  simp only [scheduleLoop, if_pos h1, if_neg h2, if_neg h3, h4, if_neg h5]

theorem scheduleLoop_work_done (tdh : ℚ) (iF f : ℕ) (ts ts' : TripState)
    (h1 : 0 < ts.remainingDrivingHours ∨ ts.dropoffDone = false)
    (h2 : ¬ ts.currentCycle ≥ MAX_CYCLE_HOURS)
    (h3 : ¬ MAX_CYCLE_HOURS - ts.currentCycle < 1)
    (h4 : buildWorkDay tdh iF ts = some ts')
    (h5 : ts'.dropoffDone = true ∧ ts'.remainingDrivingHours ≤ 0) :
    scheduleLoop tdh iF (f + 1) ts = some ts' := by
  simp only [scheduleLoop, if_pos h1, if_neg h2, if_neg h3, h4, if_pos h5]

theorem scheduleLoop_work_none (tdh : ℚ) (iF f : ℕ) (ts : TripState)
    (h1 : 0 < ts.remainingDrivingHours ∨ ts.dropoffDone = false)
    (h2 : ¬ ts.currentCycle ≥ MAX_CYCLE_HOURS)
    (h3 : ¬ MAX_CYCLE_HOURS - ts.currentCycle < 1)
    (h4 : buildWorkDay tdh iF ts = none) :
    scheduleLoop tdh iF (f + 1) ts = none := by
  simp only [scheduleLoop, if_pos h1, if_neg h2, if_neg h3, h4]

end HOS

namespace HOS

/-! ## Simple evaluation lemmas for sums and counters -/

theorem sumDriving_nil : sumDriving [] = 0 := rfl

theorem sumDriving_append (a b : List LogEntry) :
    sumDriving (a ++ b) = sumDriving a + sumDriving b := by
  simp [sumDriving]

theorem sumDriving_cons (e : LogEntry) (es : List LogEntry) :
    sumDriving (e :: es) =
      (if e.status = Status.D then e.duration else 0) + sumDriving es := by
  simp [sumDriving]

theorem sumOnDuty_nil : sumOnDuty [] = 0 := rfl

theorem sumOnDuty_append (a b : List LogEntry) :
    sumOnDuty (a ++ b) = sumOnDuty a + sumOnDuty b := by
  simp [sumOnDuty]

theorem sumOnDuty_cons (e : LogEntry) (es : List LogEntry) :
    sumOnDuty (e :: es) =
      (if e.status = Status.D ∨ e.status = Status.ON then e.duration else 0) + sumOnDuty es := by
  simp [sumOnDuty]

theorem sumOffDuty_nil : sumOffDuty [] = 0 := rfl

theorem sumOffDuty_append (a b : List LogEntry) :
    sumOffDuty (a ++ b) = sumOffDuty a + sumOffDuty b := by
  simp [sumOffDuty]

theorem countNote_nil (n : Note) : countNote n [] = 0 := rfl

theorem countNote_append (n : Note) (a b : List LogEntry) :
    countNote n (a ++ b) = countNote n a + countNote n b := by
  simp [countNote, List.countP_append]

theorem countNote_cons (n : Note) (e : LogEntry) (es : List LogEntry) :
    countNote n (e :: es) = (if e.note = n then 1 else 0) + countNote n es := by
  rcases h : (e.note == n) with hv | hv
  all_goals simp_all [countNote, List.countP_cons, beq_iff_eq]
  all_goals omega

theorem round2_one : round2 (1 : ℚ) = 1 := by
  rw [round2, round_eq]
  norm_num

/-! ## No-progress day lemmas (the engine can build a day that changes
nothing in the trip-level carry-over state) -/

theorem driveLoop_noprogress (mD mOD : ℚ) (f : ℕ) (s : DayState)
    (h : s.remainingDrivingHours ≤ 0 ∨
      (s.hoursSinceBreak < REQUIRED_BREAK_AFTER_HOURS ∧
       s.milesSinceFuel < FUEL_STOP_MILES ∧ s.remainingDrivingHours < 1/10)) :
    driveLoop mD mOD (f + 1) s = some s := by
  rcases h with h | ⟨hsb, hmsf, hrdh⟩
  · have hc : ¬(s.hoursDriven < mD ∧ s.hoursOnDuty < mOD ∧ 0 < s.remainingDrivingHours) := by
      intro hc
      exact absurd hc.2.2 (not_lt.2 h)
    simp only [driveLoop, if_neg hc]
  · by_cases hc : s.hoursDriven < mD ∧ s.hoursOnDuty < mOD ∧ 0 < s.remainingDrivingHours
    · have hb : ¬ s.hoursSinceBreak ≥ REQUIRED_BREAK_AFTER_HOURS := not_le.2 hsb
      have hf : ¬ (s.milesSinceFuel ≥ FUEL_STOP_MILES ∧ 0 < s.remainingMiles) := by
        intro hf
        exact absurd hf.1 (not_le.2 hmsf)
      have hd : min (min (min (min (REQUIRED_BREAK_AFTER_HOURS - s.hoursSinceBreak)
          (mD - s.hoursDriven)) (mOD - s.hoursOnDuty)) s.remainingDrivingHours) 2 < 1/10 := by
        calc min (min (min (min (REQUIRED_BREAK_AFTER_HOURS - s.hoursSinceBreak)
            (mD - s.hoursDriven)) (mOD - s.hoursOnDuty)) s.remainingDrivingHours) 2
            ≤ min (min (min (REQUIRED_BREAK_AFTER_HOURS - s.hoursSinceBreak)
              (mD - s.hoursDriven)) (mOD - s.hoursOnDuty)) s.remainingDrivingHours :=
            min_le_left _ _
          _ ≤ s.remainingDrivingHours := min_le_right _ _
          _ < 1/10 := hrdh
      simp only [driveLoop, if_pos hc, if_neg hb, if_neg hf, if_pos hd]
    · simp only [driveLoop, if_neg hc]

theorem buildWorkDay_innerFuelZero (tdh : ℚ) (ts : TripState) :
    buildWorkDay tdh 0 ts = none := rfl

theorem pickupAdjusted_hoursDriven (ts : TripState) :
    (pickupAdjusted ts).hoursDriven = 0 := by
  cases h : ts.pickupDone <;> simp [pickupAdjusted, dayStartState, h]

theorem pickupAdjusted_hoursSinceBreak (ts : TripState) :
    (pickupAdjusted ts).hoursSinceBreak = 0 := by
  cases h : ts.pickupDone <;> simp [pickupAdjusted, dayStartState, h]

theorem pickupAdjusted_hoursOnDuty (ts : TripState) :
    (pickupAdjusted ts).hoursOnDuty = if ts.pickupDone then 0 else PICKUP_DURATION := by
  cases h : ts.pickupDone <;> simp [pickupAdjusted, dayStartState, h]

theorem pickupAdjusted_remainingDrivingHours (ts : TripState) :
    (pickupAdjusted ts).remainingDrivingHours = ts.remainingDrivingHours := by
  cases h : ts.pickupDone <;> simp [pickupAdjusted, dayStartState, h]

theorem pickupAdjusted_remainingMiles (ts : TripState) :
    (pickupAdjusted ts).remainingMiles = ts.remainingMiles := by
  cases h : ts.pickupDone <;> simp [pickupAdjusted, dayStartState, h]

theorem pickupAdjusted_milesSinceFuel (ts : TripState) :
    (pickupAdjusted ts).milesSinceFuel = ts.milesSinceFuel := by
  cases h : ts.pickupDone <;> simp [pickupAdjusted, dayStartState, h]

theorem pickupAdjusted_dropoffDone (ts : TripState) :
    (pickupAdjusted ts).dropoffDone = ts.dropoffDone := by
  cases h : ts.pickupDone <;> simp [pickupAdjusted, dayStartState, h]

theorem pickupAdjusted_entries (ts : TripState) :
    (pickupAdjusted ts).entries =
      if ts.pickupDone then []
      else [createLogEntry Status.ON ts.time PICKUP_DURATION Note.pickup] := by
  cases h : ts.pickupDone <;> simp [pickupAdjusted, dayStartState, h]

theorem restAdjusted_of_dropoff_not_done (tdh : ℚ) (dn : ℕ) (s2 : DayState)
    (h : s2.dropoffDone = false) :
    restAdjusted tdh dn s2 =
      { s2 with
        entries := s2.entries ++ [createLogEntry Status.SB s2.time RESET_OFF_DUTY_HOURS
          Note.dailyRest],
        time := (createLogEntry Status.SB s2.time RESET_OFF_DUTY_HOURS Note.dailyRest).endTime } := by
  simp [restAdjusted, h]

theorem buildWorkDay_some (tdh : ℚ) (iF : ℕ) (ts : TripState) (s2 : DayState)
    (h : driveLoop (maxDriveOf ts) (maxOnDutyOf ts) iF (pickupAdjusted ts) = some s2) :
    buildWorkDay tdh iF ts = some (finishDay tdh ts s2) := by
  rw [buildWorkDay, h]

theorem buildWorkDay_noprogress (tdh : ℚ) (f : ℕ) (ts : TripState)
    (hdrop : ts.dropoffDone = false)
    (hnp : ts.remainingDrivingHours ≤ 0 ∨
      (ts.remainingDrivingHours < 1/10 ∧ ts.milesSinceFuel < FUEL_STOP_MILES)) :
    ∃ ts', buildWorkDay tdh (f + 1) ts = some ts' ∧
      ts'.remainingDrivingHours = ts.remainingDrivingHours ∧
      ts'.remainingMiles = ts.remainingMiles ∧
      ts'.milesSinceFuel = ts.milesSinceFuel ∧
      ts'.currentCycle = ts.currentCycle + (if ts.pickupDone then 0 else 1) ∧
      ts'.pickupDone = true ∧
      ts'.dropoffDone = false := by
  have hloop : driveLoop (maxDriveOf ts) (maxOnDutyOf ts) (f + 1) (pickupAdjusted ts)
      = some (pickupAdjusted ts) := by
    apply driveLoop_noprogress
    rcases hnp with h | ⟨ha, hb⟩
    · exact Or.inl (by rw [pickupAdjusted_remainingDrivingHours]; exact h)
    · refine Or.inr ⟨?_, ?_, ?_⟩
      · rw [pickupAdjusted_hoursSinceBreak, REQUIRED_BREAK_AFTER_HOURS]
        norm_num
      · rw [pickupAdjusted_milesSinceFuel]
        exact hb
      · rw [pickupAdjusted_remainingDrivingHours]
        exact ha
  have hpd : (pickupAdjusted ts).dropoffDone = false := by
    rw [pickupAdjusted_dropoffDone, hdrop]
  refine ⟨finishDay tdh ts (pickupAdjusted ts), buildWorkDay_some tdh (f+1) ts _ hloop,
    ?_, ?_, ?_, ?_, ?_, ?_⟩ <;>
    simp only [finishDay, restAdjusted_of_dropoff_not_done tdh ts.dayNumber _ hpd]
  · rw [pickupAdjusted_remainingDrivingHours]
  · rw [pickupAdjusted_remainingMiles]
  · rw [pickupAdjusted_milesSinceFuel]
  · rw [sumOnDuty_append, pickupAdjusted_entries]
    cases h : ts.pickupDone <;>
      simp [sumOnDuty_cons, sumOnDuty_nil, createLogEntry, round2_one, PICKUP_DURATION]
  · exact hpd

end HOS

namespace HOS

/-- Once the trip state can make no progress (no driving hours left, or less
than the 0.1-hour epsilon with no fuel stop pending) and the dropoff has not
been emitted, the outer day loop runs forever: it yields `none` for every
amount of fuel. -/
theorem scheduleLoop_noprogress (tdh : ℚ) (iF : ℕ) : ∀ (f : ℕ) (ts : TripState),
    ts.dropoffDone = false →
    (ts.remainingDrivingHours ≤ 0 ∨
      (ts.remainingDrivingHours < 1/10 ∧ ts.milesSinceFuel < FUEL_STOP_MILES)) →
    ts.currentCycle ≤ 69 →
    (ts.pickupDone = false → ts.currentCycle + 1 ≤ 69) →
    scheduleLoop tdh iF f ts = none := by
  intro f
  induction f with
  | zero =>
    intro ts _ _ _ _
    rfl
  | succ f ih =>
    intro ts hdrop hnp hc hcp
    have h1 : 0 < ts.remainingDrivingHours ∨ ts.dropoffDone = false := Or.inr hdrop
    have h2 : ¬ ts.currentCycle ≥ MAX_CYCLE_HOURS := by
      rw [MAX_CYCLE_HOURS]
      intro h
      linarith
    have h3 : ¬ MAX_CYCLE_HOURS - ts.currentCycle < 1 := by
      rw [MAX_CYCLE_HOURS]
      intro h
      linarith
    cases iF with
    | zero =>
      exact scheduleLoop_work_none tdh 0 f ts h1 h2 h3 (buildWorkDay_innerFuelZero tdh ts)
    | succ g =>
      obtain ⟨ts', heq, hrdh', hrem', hmsf', hcyc', hpick', hdrop'⟩ :=
        buildWorkDay_noprogress tdh g ts hdrop hnp
      have h5 : ¬ (ts'.dropoffDone = true ∧ ts'.remainingDrivingHours ≤ 0) := by
        intro h
        rw [hdrop'] at h
        exact Bool.false_ne_true h.1
      rw [scheduleLoop_work_step tdh (g+1) f ts ts' h1 h2 h3 heq h5]
      apply ih ts' hdrop'
      · rw [hrdh', hmsf']
        exact hnp
      · rw [hcyc']
        cases hpk : ts.pickupDone with
        | true =>
          simp only [hpk, if_true]
          linarith
        | false =>
          simp only [hpk, Bool.false_eq_true, if_false]
          exact hcp hpk
      · intro h
        rw [hpick'] at h
        exact absurd h (by simp)

/-- C1: the schedule-generation loop of `calculate_trip` does NOT always
terminate: for `total_miles = 0` (and `current_cycle_used = 0`, any starting
clock) it loops forever — `calculate_trip` never returns no matter how much
fuel the model grants the loop.  (Day 1 emits only the pickup and the daily
rest; the dropoff is only ever emitted after a driving segment, and with no
driving hours remaining every later day makes no progress at all.) -/
theorem calculateTrip_zero_miles_nontermination :
    ∀ (now : ℚ) (innerFuel outerFuel : ℕ),
      calculateTrip 0 0 now innerFuel outerFuel = none := by
  intro now iF oF
  have h : generateDailySchedule 0 0 (0 / AVG_SPEED_MPH) now iF oF = none := by
    apply scheduleLoop_noprogress
    · rfl
    · left
      simp only [initialTripState]
      norm_num [AVG_SPEED_MPH]
    · simp only [initialTripState]
      norm_num
    · intro _
      simp only [initialTripState]
      norm_num
  rw [calculateTrip, h]

/-- C9: when the computed driving duration collapses below the 0.1-hour
epsilon before a day has made any progress, the engine does NOT raise any
distinguishable failure: it silently breaks out of the day loop, emits a
no-progress day, and loops forever.  Shown at `total_miles = 3`
(driving hours 1/20 < 0.1): the loop never returns for any fuel, and no error
value exists anywhere in the interface. -/
theorem calculateTrip_epsilon_collapse_swallowed :
    ∀ (now : ℚ) (innerFuel outerFuel : ℕ),
      calculateTrip 0 3 now innerFuel outerFuel = none := by
  intro now iF oF
  have h : generateDailySchedule 0 3 (3 / AVG_SPEED_MPH) now iF oF = none := by
    apply scheduleLoop_noprogress
    · rfl
    · right
      constructor
      · simp only [initialTripState]
        norm_num [AVG_SPEED_MPH]
      · simp only [initialTripState]
        norm_num [FUEL_STOP_MILES]
    · simp only [initialTripState]
      norm_num
    · intro _
      simp only [initialTripState]
      norm_num
  rw [calculateTrip, h]

/-- C2: for `total_miles = 0` the first (and only ever) work day contains a
pickup ON segment followed directly by the 10-hour rest — no dropoff segment
at all, and the dropoff flag stays false, contradicting the claim that day 1
contains pickup followed by dropoff.  (Combined with the non-termination of
the outer loop, `calculate_trip` never returns the claimed plan.) -/
theorem zero_miles_first_day_missing_dropoff :
    (buildWorkDay 0 1 (initialTripState 0 0 0 0)).map
      (fun ts => ((ts.dailyLogs.map fun l => l.entries.map fun e => e.note),
        ts.dropoffDone))
      = some ([[Note.pickup, Note.dailyRest]], false) := by
  decide

/-- C7: `calculate_trip` is deterministic — two runs from identical inputs
(total miles, starting cycle usage, the fixed starting clock `now`, and the
same loop fuel) return identical plans.  The only impure ingredient of the
Python code, `datetime.now()`, is the explicit `now` parameter of the model;
everything else is a pure function of the inputs. -/
theorem calculateTrip_deterministic (c0 m now : ℚ) (iF oF : ℕ)
    (r1 r2 : Option TripPlan)
    (h1 : r1 = calculateTrip c0 m now iF oF)
    (h2 : r2 = calculateTrip c0 m now iF oF) :
    r1 = r2 := by
  rw [h1, h2]

theorem calculateTrip_deterministic_witness :
    calculateTrip 0 300 0 12 3 = calculateTrip 0 300 0 12 3 :=
  calculateTrip_deterministic 0 300 0 12 3
    (calculateTrip 0 300 0 12 3) (calculateTrip 0 300 0 12 3) rfl rfl

end HOS

namespace HOS

/-! ## Concrete intermediate trip states, one per emitted day, used to
evaluate the engine on the scenario inputs of the claims (each single-day
step is then checked by `decide`). -/

def st68x100d1 : TripState :=
  { dailyLogs := [{ dayNumber := 1,
                    date := 0,
                    startTime := 6,
                    endTime := 18,
                    entries := [{ status := HOS.Status.ON,
                                  startTime := 6,
                                  endTime := 7,
                                  duration := 1,
                                  note := HOS.Note.pickup },
                                { status := HOS.Status.D,
                                  startTime := 7,
                                  endTime := 8,
                                  duration := 1,
                                  note := HOS.Note.driving },
                                { status := HOS.Status.SB,
                                  startTime := 8,
                                  endTime := 18,
                                  duration := 10,
                                  note := HOS.Note.dailyRest }],
                    totalDrivingHours := 1,
                    totalOnDutyHours := 2,
                    totalOffDutyHours := 10,
                    remainingDriveTime := 10,
                    remainingOnDutyTime := 12,
                    cycleHoursRemaining := 0,
                    isRestart := false }],
    remainingDrivingHours := (2 : Rat)/3,
    remainingMiles := 40,
    milesSinceFuel := 60,
    currentCycle := 70,
    dayNumber := 2,
    time := 18,
    pickupDone := true,
    dropoffDone := false }

def st68x100fin : TripState :=
  { dailyLogs := [{ dayNumber := 1,
                    date := 0,
                    startTime := 6,
                    endTime := 18,
                    entries := [{ status := HOS.Status.ON,
                                  startTime := 6,
                                  endTime := 7,
                                  duration := 1,
                                  note := HOS.Note.pickup },
                                { status := HOS.Status.D,
                                  startTime := 7,
                                  endTime := 8,
                                  duration := 1,
                                  note := HOS.Note.driving },
                                { status := HOS.Status.SB,
                                  startTime := 8,
                                  endTime := 18,
                                  duration := 10,
                                  note := HOS.Note.dailyRest }],
                    totalDrivingHours := 1,
                    totalOnDutyHours := 2,
                    totalOffDutyHours := 10,
                    remainingDriveTime := 10,
                    remainingOnDutyTime := 12,
                    cycleHoursRemaining := 0,
                    isRestart := false },
                  { dayNumber := 2,
                    date := 0,
                    startTime := 18,
                    endTime := 52,
                    entries := [{ status := HOS.Status.OFF,
                                  startTime := 18,
                                  endTime := 52,
                                  duration := 34,
                                  note := HOS.Note.restart }],
                    totalDrivingHours := 0,
                    totalOnDutyHours := 0,
                    totalOffDutyHours := 34,
                    remainingDriveTime := 11,
                    remainingOnDutyTime := 14,
                    cycleHoursRemaining := 70,
                    isRestart := true },
                  { dayNumber := 3,
                    date := 2,
                    startTime := 52,
                    endTime := (161 : Rat)/3,
                    entries := [{ status := HOS.Status.D,
                                  startTime := 52,
                                  endTime := (158 : Rat)/3,
                                  duration := (67 : Rat)/100,
                                  note := HOS.Note.driving },
                                { status := HOS.Status.ON,
                                  startTime := (158 : Rat)/3,
                                  endTime := (161 : Rat)/3,
                                  duration := 1,
                                  note := HOS.Note.dropoff }],
                    totalDrivingHours := (67 : Rat)/100,
                    totalOnDutyHours := (167 : Rat)/100,
                    totalOffDutyHours := 0,
                    remainingDriveTime := (1033 : Rat)/100,
                    remainingOnDutyTime := (1233 : Rat)/100,
                    cycleHoursRemaining := (6833 : Rat)/100,
                    isRestart := false }],
    remainingDrivingHours := 0,
    remainingMiles := 0,
    milesSinceFuel := 100,
    currentCycle := (167 : Rat)/100,
    dayNumber := 4,
    time := (161 : Rat)/3,
    pickupDone := true,
    dropoffDone := true }

def st70x60fin : TripState :=
  { dailyLogs := [{ dayNumber := 1,
                    date := 0,
                    startTime := 6,
                    endTime := 40,
                    entries := [{ status := HOS.Status.OFF,
                                  startTime := 6,
                                  endTime := 40,
                                  duration := 34,
                                  note := HOS.Note.restart }],
                    totalDrivingHours := 0,
                    totalOnDutyHours := 0,
                    totalOffDutyHours := 34,
                    remainingDriveTime := 11,
                    remainingOnDutyTime := 14,
                    cycleHoursRemaining := 70,
                    isRestart := true },
                  { dayNumber := 2,
                    date := 1,
                    startTime := 40,
                    endTime := 43,
                    entries := [{ status := HOS.Status.ON,
                                  startTime := 40,
                                  endTime := 41,
                                  duration := 1,
                                  note := HOS.Note.pickup },
                                { status := HOS.Status.D,
                                  startTime := 41,
                                  endTime := 42,
                                  duration := 1,
                                  note := HOS.Note.driving },
                                { status := HOS.Status.ON,
                                  startTime := 42,
                                  endTime := 43,
                                  duration := 1,
                                  note := HOS.Note.dropoff }],
                    totalDrivingHours := 1,
                    totalOnDutyHours := 3,
                    totalOffDutyHours := 0,
                    remainingDriveTime := 10,
                    remainingOnDutyTime := 11,
                    cycleHoursRemaining := 67,
                    isRestart := false }],
    remainingDrivingHours := 0,
    remainingMiles := 0,
    milesSinceFuel := 60,
    currentCycle := 3,
    dayNumber := 3,
    time := 43,
    pickupDone := true,
    dropoffDone := true }

def stC8fin : TripState :=
  { dailyLogs := [{ dayNumber := 1,
                    date := 0,
                    startTime := 6,
                    endTime := 9,
                    entries := [{ status := HOS.Status.ON,
                                  startTime := 6,
                                  endTime := 7,
                                  duration := 1,
                                  note := HOS.Note.pickup },
                                { status := HOS.Status.D,
                                  startTime := 7,
                                  endTime := 8,
                                  duration := 1,
                                  note := HOS.Note.driving },
                                { status := HOS.Status.ON,
                                  startTime := 8,
                                  endTime := 9,
                                  duration := 1,
                                  note := HOS.Note.dropoff }],
                    totalDrivingHours := 1,
                    totalOnDutyHours := 3,
                    totalOffDutyHours := 0,
                    remainingDriveTime := 10,
                    remainingOnDutyTime := 11,
                    cycleHoursRemaining := 67,
                    isRestart := false }],
    remainingDrivingHours := 0,
    remainingMiles := 0,
    milesSinceFuel := 60,
    currentCycle := (3001 : Rat)/1000,
    dayNumber := 2,
    time := 9,
    pickupDone := true,
    dropoffDone := true }

def st300fin : TripState :=
  { dailyLogs := [{ dayNumber := 1,
                    date := 0,
                    startTime := 6,
                    endTime := 13,
                    entries := [{ status := HOS.Status.ON,
                                  startTime := 6,
                                  endTime := 7,
                                  duration := 1,
                                  note := HOS.Note.pickup },
                                { status := HOS.Status.D,
                                  startTime := 7,
                                  endTime := 9,
                                  duration := 2,
                                  note := HOS.Note.driving },
                                { status := HOS.Status.D,
                                  startTime := 9,
                                  endTime := 11,
                                  duration := 2,
                                  note := HOS.Note.driving },
                                { status := HOS.Status.D,
                                  startTime := 11,
                                  endTime := 12,
                                  duration := 1,
                                  note := HOS.Note.driving },
                                { status := HOS.Status.ON,
                                  startTime := 12,
                                  endTime := 13,
                                  duration := 1,
                                  note := HOS.Note.dropoff }],
                    totalDrivingHours := 5,
                    totalOnDutyHours := 7,
                    totalOffDutyHours := 0,
                    remainingDriveTime := 6,
                    remainingOnDutyTime := 7,
                    cycleHoursRemaining := 63,
                    isRestart := false }],
    remainingDrivingHours := 0,
    remainingMiles := 0,
    milesSinceFuel := 300,
    currentCycle := 7,
    dayNumber := 2,
    time := 13,
    pickupDone := true,
    dropoffDone := true }

def st56005d1 : TripState :=
  { dailyLogs := [{ dayNumber := 1,
                    date := 0,
                    startTime := 6,
                    endTime := (57 : Rat)/2,
                    entries := [{ status := HOS.Status.ON,
                                  startTime := 6,
                                  endTime := 7,
                                  duration := 1,
                                  note := HOS.Note.pickup },
                                { status := HOS.Status.D,
                                  startTime := 7,
                                  endTime := 9,
                                  duration := 2,
                                  note := HOS.Note.driving },
                                { status := HOS.Status.D,
                                  startTime := 9,
                                  endTime := 11,
                                  duration := 2,
                                  note := HOS.Note.driving },
                                { status := HOS.Status.D,
                                  startTime := 11,
                                  endTime := 13,
                                  duration := 2,
                                  note := HOS.Note.driving },
                                { status := HOS.Status.D,
                                  startTime := 13,
                                  endTime := 15,
                                  duration := 2,
                                  note := HOS.Note.driving },
                                { status := HOS.Status.OFF,
                                  startTime := 15,
                                  endTime := (31 : Rat)/2,
                                  duration := (1 : Rat)/2,
                                  note := HOS.Note.breakRest },
                                { status := HOS.Status.D,
                                  startTime := (31 : Rat)/2,
                                  endTime := (35 : Rat)/2,
                                  duration := 2,
                                  note := HOS.Note.driving },
                                { status := HOS.Status.D,
                                  startTime := (35 : Rat)/2,
                                  endTime := (37 : Rat)/2,
                                  duration := 1,
                                  note := HOS.Note.driving },
                                { status := HOS.Status.SB,
                                  startTime := (37 : Rat)/2,
                                  endTime := (57 : Rat)/2,
                                  duration := 10,
                                  note := HOS.Note.dailyRest }],
                    totalDrivingHours := 11,
                    totalOnDutyHours := 12,
                    totalOffDutyHours := (21 : Rat)/2,
                    remainingDriveTime := 0,
                    remainingOnDutyTime := 2,
                    cycleHoursRemaining := 2,
                    isRestart := false }],
    remainingDrivingHours := 3,
    remainingMiles := 180,
    milesSinceFuel := 660,
    currentCycle := (13601 : Rat)/200,
    dayNumber := 2,
    time := (57 : Rat)/2,
    pickupDone := true,
    dropoffDone := false }

def st56005d2 : TripState :=
  { dailyLogs := [{ dayNumber := 1,
                    date := 0,
                    startTime := 6,
                    endTime := (57 : Rat)/2,
                    entries := [{ status := HOS.Status.ON,
                                  startTime := 6,
                                  endTime := 7,
                                  duration := 1,
                                  note := HOS.Note.pickup },
                                { status := HOS.Status.D,
                                  startTime := 7,
                                  endTime := 9,
                                  duration := 2,
                                  note := HOS.Note.driving },
                                { status := HOS.Status.D,
                                  startTime := 9,
                                  endTime := 11,
                                  duration := 2,
                                  note := HOS.Note.driving },
                                { status := HOS.Status.D,
                                  startTime := 11,
                                  endTime := 13,
                                  duration := 2,
                                  note := HOS.Note.driving },
                                { status := HOS.Status.D,
                                  startTime := 13,
                                  endTime := 15,
                                  duration := 2,
                                  note := HOS.Note.driving },
                                { status := HOS.Status.OFF,
                                  startTime := 15,
                                  endTime := (31 : Rat)/2,
                                  duration := (1 : Rat)/2,
                                  note := HOS.Note.breakRest },
                                { status := HOS.Status.D,
                                  startTime := (31 : Rat)/2,
                                  endTime := (35 : Rat)/2,
                                  duration := 2,
                                  note := HOS.Note.driving },
                                { status := HOS.Status.D,
                                  startTime := (35 : Rat)/2,
                                  endTime := (37 : Rat)/2,
                                  duration := 1,
                                  note := HOS.Note.driving },
                                { status := HOS.Status.SB,
                                  startTime := (37 : Rat)/2,
                                  endTime := (57 : Rat)/2,
                                  duration := 10,
                                  note := HOS.Note.dailyRest }],
                    totalDrivingHours := 11,
                    totalOnDutyHours := 12,
                    totalOffDutyHours := (21 : Rat)/2,
                    remainingDriveTime := 0,
                    remainingOnDutyTime := 2,
                    cycleHoursRemaining := 2,
                    isRestart := false },
                  { dayNumber := 2,
                    date := 1,
                    startTime := (57 : Rat)/2,
                    endTime := (8099 : Rat)/200,
                    entries := [{ status := HOS.Status.D,
                                  startTime := (57 : Rat)/2,
                                  endTime := (6099 : Rat)/200,
                                  duration := 2,
                                  note := HOS.Note.driving },
                                { status := HOS.Status.SB,
                                  startTime := (6099 : Rat)/200,
                                  endTime := (8099 : Rat)/200,
                                  duration := 10,
                                  note := HOS.Note.dailyRest }],
                    totalDrivingHours := 2,
                    totalOnDutyHours := 2,
                    totalOffDutyHours := 10,
                    remainingDriveTime := 9,
                    remainingOnDutyTime := 12,
                    cycleHoursRemaining := 0,
                    isRestart := false }],
    remainingDrivingHours := (201 : Rat)/200,
    remainingMiles := (603 : Rat)/10,
    milesSinceFuel := (7797 : Rat)/10,
    currentCycle := (14001 : Rat)/200,
    dayNumber := 3,
    time := (8099 : Rat)/200,
    pickupDone := true,
    dropoffDone := false }

def st56005fin : TripState :=
  { dailyLogs := [{ dayNumber := 1,
                    date := 0,
                    startTime := 6,
                    endTime := (57 : Rat)/2,
                    entries := [{ status := HOS.Status.ON,
                                  startTime := 6,
                                  endTime := 7,
                                  duration := 1,
                                  note := HOS.Note.pickup },
                                { status := HOS.Status.D,
                                  startTime := 7,
                                  endTime := 9,
                                  duration := 2,
                                  note := HOS.Note.driving },
                                { status := HOS.Status.D,
                                  startTime := 9,
                                  endTime := 11,
                                  duration := 2,
                                  note := HOS.Note.driving },
                                { status := HOS.Status.D,
                                  startTime := 11,
                                  endTime := 13,
                                  duration := 2,
                                  note := HOS.Note.driving },
                                { status := HOS.Status.D,
                                  startTime := 13,
                                  endTime := 15,
                                  duration := 2,
                                  note := HOS.Note.driving },
                                { status := HOS.Status.OFF,
                                  startTime := 15,
                                  endTime := (31 : Rat)/2,
                                  duration := (1 : Rat)/2,
                                  note := HOS.Note.breakRest },
                                { status := HOS.Status.D,
                                  startTime := (31 : Rat)/2,
                                  endTime := (35 : Rat)/2,
                                  duration := 2,
                                  note := HOS.Note.driving },
                                { status := HOS.Status.D,
                                  startTime := (35 : Rat)/2,
                                  endTime := (37 : Rat)/2,
                                  duration := 1,
                                  note := HOS.Note.driving },
                                { status := HOS.Status.SB,
                                  startTime := (37 : Rat)/2,
                                  endTime := (57 : Rat)/2,
                                  duration := 10,
                                  note := HOS.Note.dailyRest }],
                    totalDrivingHours := 11,
                    totalOnDutyHours := 12,
                    totalOffDutyHours := (21 : Rat)/2,
                    remainingDriveTime := 0,
                    remainingOnDutyTime := 2,
                    cycleHoursRemaining := 2,
                    isRestart := false },
                  { dayNumber := 2,
                    date := 1,
                    startTime := (57 : Rat)/2,
                    endTime := (8099 : Rat)/200,
                    entries := [{ status := HOS.Status.D,
                                  startTime := (57 : Rat)/2,
                                  endTime := (6099 : Rat)/200,
                                  duration := 2,
                                  note := HOS.Note.driving },
                                { status := HOS.Status.SB,
                                  startTime := (6099 : Rat)/200,
                                  endTime := (8099 : Rat)/200,
                                  duration := 10,
                                  note := HOS.Note.dailyRest }],
                    totalDrivingHours := 2,
                    totalOnDutyHours := 2,
                    totalOffDutyHours := 10,
                    remainingDriveTime := 9,
                    remainingOnDutyTime := 12,
                    cycleHoursRemaining := 0,
                    isRestart := false },
                  { dayNumber := 3,
                    date := 1,
                    startTime := (8099 : Rat)/200,
                    endTime := (14899 : Rat)/200,
                    entries := [{ status := HOS.Status.OFF,
                                  startTime := (8099 : Rat)/200,
                                  endTime := (14899 : Rat)/200,
                                  duration := 34,
                                  note := HOS.Note.restart }],
                    totalDrivingHours := 0,
                    totalOnDutyHours := 0,
                    totalOffDutyHours := 34,
                    remainingDriveTime := 11,
                    remainingOnDutyTime := 14,
                    cycleHoursRemaining := 70,
                    isRestart := true },
                  { dayNumber := 4,
                    date := 3,
                    startTime := (14899 : Rat)/200,
                    endTime := (153 : Rat)/2,
                    entries := [{ status := HOS.Status.D,
                                  startTime := (14899 : Rat)/200,
                                  endTime := (151 : Rat)/2,
                                  duration := (101 : Rat)/100,
                                  note := HOS.Note.driving },
                                { status := HOS.Status.ON,
                                  startTime := (151 : Rat)/2,
                                  endTime := (153 : Rat)/2,
                                  duration := 1,
                                  note := HOS.Note.dropoff }],
                    totalDrivingHours := (101 : Rat)/100,
                    totalOnDutyHours := (201 : Rat)/100,
                    totalOffDutyHours := 0,
                    remainingDriveTime := (999 : Rat)/100,
                    remainingOnDutyTime := (1199 : Rat)/100,
                    cycleHoursRemaining := (6799 : Rat)/100,
                    isRestart := false }],
    remainingDrivingHours := 0,
    remainingMiles := 0,
    milesSinceFuel := 840,
    currentCycle := (201 : Rat)/100,
    dayNumber := 5,
    time := (153 : Rat)/2,
    pickupDone := true,
    dropoffDone := true }

def st1000d1 : TripState :=
  { dailyLogs := [{ dayNumber := 1,
                    date := 0,
                    startTime := 6,
                    endTime := (57 : Rat)/2,
                    entries := [{ status := HOS.Status.ON,
                                  startTime := 6,
                                  endTime := 7,
                                  duration := 1,
                                  note := HOS.Note.pickup },
                                { status := HOS.Status.D,
                                  startTime := 7,
                                  endTime := 9,
                                  duration := 2,
                                  note := HOS.Note.driving },
                                { status := HOS.Status.D,
                                  startTime := 9,
                                  endTime := 11,
                                  duration := 2,
                                  note := HOS.Note.driving },
                                { status := HOS.Status.D,
                                  startTime := 11,
                                  endTime := 13,
                                  duration := 2,
                                  note := HOS.Note.driving },
                                { status := HOS.Status.D,
                                  startTime := 13,
                                  endTime := 15,
                                  duration := 2,
                                  note := HOS.Note.driving },
                                { status := HOS.Status.OFF,
                                  startTime := 15,
                                  endTime := (31 : Rat)/2,
                                  duration := (1 : Rat)/2,
                                  note := HOS.Note.breakRest },
                                { status := HOS.Status.D,
                                  startTime := (31 : Rat)/2,
                                  endTime := (35 : Rat)/2,
                                  duration := 2,
                                  note := HOS.Note.driving },
                                { status := HOS.Status.D,
                                  startTime := (35 : Rat)/2,
                                  endTime := (37 : Rat)/2,
                                  duration := 1,
                                  note := HOS.Note.driving },
                                { status := HOS.Status.SB,
                                  startTime := (37 : Rat)/2,
                                  endTime := (57 : Rat)/2,
                                  duration := 10,
                                  note := HOS.Note.dailyRest }],
                    totalDrivingHours := 11,
                    totalOnDutyHours := 12,
                    totalOffDutyHours := (21 : Rat)/2,
                    remainingDriveTime := 0,
                    remainingOnDutyTime := 2,
                    cycleHoursRemaining := 58,
                    isRestart := false }],
    remainingDrivingHours := (17 : Rat)/3,
    remainingMiles := 340,
    milesSinceFuel := 660,
    currentCycle := 12,
    dayNumber := 2,
    time := (57 : Rat)/2,
    pickupDone := true,
    dropoffDone := false }

def st1000fin : TripState :=
  { dailyLogs := [{ dayNumber := 1,
                    date := 0,
                    startTime := 6,
                    endTime := (57 : Rat)/2,
                    entries := [{ status := HOS.Status.ON,
                                  startTime := 6,
                                  endTime := 7,
                                  duration := 1,
                                  note := HOS.Note.pickup },
                                { status := HOS.Status.D,
                                  startTime := 7,
                                  endTime := 9,
                                  duration := 2,
                                  note := HOS.Note.driving },
                                { status := HOS.Status.D,
                                  startTime := 9,
                                  endTime := 11,
                                  duration := 2,
                                  note := HOS.Note.driving },
                                { status := HOS.Status.D,
                                  startTime := 11,
                                  endTime := 13,
                                  duration := 2,
                                  note := HOS.Note.driving },
                                { status := HOS.Status.D,
                                  startTime := 13,
                                  endTime := 15,
                                  duration := 2,
                                  note := HOS.Note.driving },
                                { status := HOS.Status.OFF,
                                  startTime := 15,
                                  endTime := (31 : Rat)/2,
                                  duration := (1 : Rat)/2,
                                  note := HOS.Note.breakRest },
                                { status := HOS.Status.D,
                                  startTime := (31 : Rat)/2,
                                  endTime := (35 : Rat)/2,
                                  duration := 2,
                                  note := HOS.Note.driving },
                                { status := HOS.Status.D,
                                  startTime := (35 : Rat)/2,
                                  endTime := (37 : Rat)/2,
                                  duration := 1,
                                  note := HOS.Note.driving },
                                { status := HOS.Status.SB,
                                  startTime := (37 : Rat)/2,
                                  endTime := (57 : Rat)/2,
                                  duration := 10,
                                  note := HOS.Note.dailyRest }],
                    totalDrivingHours := 11,
                    totalOnDutyHours := 12,
                    totalOffDutyHours := (21 : Rat)/2,
                    remainingDriveTime := 0,
                    remainingOnDutyTime := 2,
                    cycleHoursRemaining := 58,
                    isRestart := false },
                  { dayNumber := 2,
                    date := 1,
                    startTime := (57 : Rat)/2,
                    endTime := (211 : Rat)/6,
                    entries := [{ status := HOS.Status.D,
                                  startTime := (57 : Rat)/2,
                                  endTime := (61 : Rat)/2,
                                  duration := 2,
                                  note := HOS.Note.driving },
                                { status := HOS.Status.D,
                                  startTime := (61 : Rat)/2,
                                  endTime := (65 : Rat)/2,
                                  duration := 2,
                                  note := HOS.Note.driving },
                                { status := HOS.Status.D,
                                  startTime := (65 : Rat)/2,
                                  endTime := (205 : Rat)/6,
                                  duration := (167 : Rat)/100,
                                  note := HOS.Note.driving },
                                { status := HOS.Status.ON,
                                  startTime := (205 : Rat)/6,
                                  endTime := (211 : Rat)/6,
                                  duration := 1,
                                  note := HOS.Note.dropoff }],
                    totalDrivingHours := (567 : Rat)/100,
                    totalOnDutyHours := (667 : Rat)/100,
                    totalOffDutyHours := 0,
                    remainingDriveTime := (533 : Rat)/100,
                    remainingOnDutyTime := (733 : Rat)/100,
                    cycleHoursRemaining := (5133 : Rat)/100,
                    isRestart := false }],
    remainingDrivingHours := 0,
    remainingMiles := 0,
    milesSinceFuel := 1000,
    currentCycle := (1867 : Rat)/100,
    dayNumber := 3,
    time := (211 : Rat)/6,
    pickupDone := true,
    dropoffDone := true }

end HOS

namespace HOS

/-! ## Single-day evaluations for the concrete scenarios -/

theorem day68x100a :
    buildWorkDay (100 / AVG_SPEED_MPH) 6 (initialTripState 68 100 (100 / AVG_SPEED_MPH) 0)
      = some st68x100d1 := by
  decide

theorem day68x100b :
    buildWorkDay (100 / AVG_SPEED_MPH) 6 (applyRestart st68x100d1) = some st68x100fin := by
  decide

theorem day70x60 :
    buildWorkDay (60 / AVG_SPEED_MPH) 6
      (applyRestart (initialTripState 70 60 (60 / AVG_SPEED_MPH) 0)) = some st70x60fin := by
  decide

theorem dayC8 :
    buildWorkDay (60 / AVG_SPEED_MPH) 6 (initialTripState (1/1000) 60 (60 / AVG_SPEED_MPH) 0)
      = some stC8fin := by
  decide

theorem day300 :
    buildWorkDay (300 / AVG_SPEED_MPH) 12 (initialTripState 0 300 (300 / AVG_SPEED_MPH) 0)
      = some st300fin := by
  decide

theorem day56005a :
    buildWorkDay (840 / AVG_SPEED_MPH) 12
      (initialTripState (11201/200) 840 (840 / AVG_SPEED_MPH) 0) = some st56005d1 := by
  decide

theorem day56005b :
    buildWorkDay (840 / AVG_SPEED_MPH) 12 st56005d1 = some st56005d2 := by
  decide

theorem day56005c :
    buildWorkDay (840 / AVG_SPEED_MPH) 12 (applyRestart st56005d2) = some st56005fin := by
  decide

theorem day1000a :
    buildWorkDay (1000 / AVG_SPEED_MPH) 20 (initialTripState 0 1000 (1000 / AVG_SPEED_MPH) 0)
      = some st1000d1 := by
  decide

theorem day1000b :
    buildWorkDay (1000 / AVG_SPEED_MPH) 20 st1000d1 = some st1000fin := by
  decide

/-! ## Whole-run evaluations for the concrete scenarios -/

theorem run68x100 :
    generateDailySchedule 68 100 (100 / AVG_SPEED_MPH) 0 6 3 = some st68x100fin := by
  rw [generateDailySchedule]
  rw [scheduleLoop_work_step _ _ _ _ _ (by decide)
    (by decide) (by decide) day68x100a
    (by decide)]
  rw [scheduleLoop_restart_step _ _ _ _ (by decide)
    (Or.inl (by decide))]
  rw [scheduleLoop_work_done _ _ _ _ _ (by decide)
    (by decide) (by decide) day68x100b
    (by decide)]

theorem run70x60 :
    generateDailySchedule 70 60 (60 / AVG_SPEED_MPH) 0 6 2 = some st70x60fin := by
  rw [generateDailySchedule]
  rw [scheduleLoop_restart_step _ _ _ _ (by decide)
    (Or.inl (by decide))]
  rw [scheduleLoop_work_done _ _ _ _ _ (by decide)
    (by decide) (by decide) day70x60
    (by decide)]

theorem runC8 :
    generateDailySchedule (1/1000) 60 (60 / AVG_SPEED_MPH) 0 6 1 = some stC8fin := by
  rw [generateDailySchedule]
  rw [scheduleLoop_work_done _ _ _ _ _ (by decide)
    (by decide) (by decide) dayC8
    (by decide)]

theorem run300 :
    generateDailySchedule 0 300 (300 / AVG_SPEED_MPH) 0 12 1 = some st300fin := by
  rw [generateDailySchedule]
  rw [scheduleLoop_work_done _ _ _ _ _ (by decide)
    (by decide) (by decide) day300
    (by decide)]

theorem run56005 :
    generateDailySchedule (11201/200) 840 (840 / AVG_SPEED_MPH) 0 12 4 = some st56005fin := by
  rw [generateDailySchedule]
  rw [scheduleLoop_work_step _ _ _ _ _ (by decide)
    (by decide) (by decide) day56005a
    (by decide)]
  rw [scheduleLoop_work_step _ _ _ _ _ (by decide)
    (by decide) (by decide) day56005b
    (by decide)]
  rw [scheduleLoop_restart_step _ _ _ _ (by decide)
    (Or.inl (by decide))]
  rw [scheduleLoop_work_done _ _ _ _ _ (by decide)
    (by decide) (by decide) day56005c
    (by decide)]

theorem run1000 :
    generateDailySchedule 0 1000 (1000 / AVG_SPEED_MPH) 0 20 2 = some st1000fin := by
  rw [generateDailySchedule]
  rw [scheduleLoop_work_step _ _ _ _ _ (by decide)
    (by decide) (by decide) day1000a
    (by decide)]
  rw [scheduleLoop_work_done _ _ _ _ _ (by decide)
    (by decide) (by decide) day1000b
    (by decide)]

end HOS

namespace HOS

/-- C4 (counterexample): for `current_cycle_used = 68` and `total_miles = 100`
the FIRST emitted day is a work day, not a restart: `needs_restart` in the code
is only `cycle ≥ 70 ∨ 70 - cycle < 1`, and 68 leaves 2 available hours, so the
engine builds a work day (pickup + 1 hour driving) first; the restart only
appears as day 2.  This refutes the claim that the first emitted day is a
restart DayLog. -/
theorem c4_first_day_is_not_restart :
    generateDailySchedule 68 100 (100 / AVG_SPEED_MPH) 0 6 3 = some st68x100fin ∧
    (st68x100fin.dailyLogs.map fun l => l.isRestart) = [false, true, false] ∧
    (st68x100fin.dailyLogs.head?.map fun l => l.isRestart) = some false :=
  ⟨run68x100, by decide, by decide⟩

/-- C4 (amended): for `current_cycle_used = 68`, `total_miles = 100` the engine
first emits a work day (pickup then one hour of driving, which raises the
cycle to exactly 70), then the restart DayLog as day 2 (cycle usage re-derived
over days 1-2 is reset to 0 before the next work day is built), and finishes
the remaining 40 minutes of driving plus dropoff on day 3. -/
theorem c4_amended_restart_is_second_day :
    generateDailySchedule 68 100 (100 / AVG_SPEED_MPH) 0 6 3 = some st68x100fin ∧
    (st68x100fin.dailyLogs.map fun l => (l.dayNumber, l.isRestart)) =
      [(1, false), (2, true), (3, false)] ∧
    (st68x100fin.dailyLogs.map fun l => l.entries.map fun e => e.note) =
      [[Note.pickup, Note.driving, Note.dailyRest], [Note.restart],
        [Note.driving, Note.dropoff]] ∧
    foldCycleUsage 68 (st68x100fin.dailyLogs.take 1) = 70 ∧
    foldCycleUsage 68 (st68x100fin.dailyLogs.take 2) = 0 :=
  ⟨run68x100, by decide, by decide,
    by decide, by decide⟩

/-- C5 (counterexample): for the valid input `current_cycle_used = 70` (the
cycle cap itself) and `total_miles = 60`, day 1 of the plan is the restart
DayLog and contains no pickup; the unique pickup segment sits on day 2.  This
refutes the claim that the pickup is located on day 1 for every valid input. -/
theorem c5_pickup_not_on_day_one :
    generateDailySchedule 70 60 (60 / AVG_SPEED_MPH) 0 6 2 = some st70x60fin ∧
    (st70x60fin.dailyLogs.map fun l => (l.isRestart, l.entries.map fun e => e.note)) =
      [(true, [Note.restart]), (false, [Note.pickup, Note.driving, Note.dropoff])] ∧
    countNote Note.pickup (st70x60fin.dailyLogs.headD default).entries = 0 :=
  ⟨run70x60, by decide, by decide⟩

/-- C6 (counterexample): for `current_cycle_used = 56.005` and
`total_miles = 840` the running cumulative on-duty total just before the
restart DayLog (emitted as day 3) is 70.005 > 70: day 2's stored on-duty total
is the per-entry ROUNDED duration 2.00 of the raw 1.995-hour driving segment,
which pushes the cumulative counter above the cap before the restart check
fires.  This refutes the claim that the cumulative total never exceeds the
cycle cap (70) just before a restart. -/
theorem c6_cycle_exceeds_cap_before_restart :
    generateDailySchedule (11201/200) 840 (840 / AVG_SPEED_MPH) 0 12 4 = some st56005fin ∧
    (st56005fin.dailyLogs.map fun l => l.isRestart) = [false, false, true, false] ∧
    foldCycleUsage (11201/200) (st56005fin.dailyLogs.take 2) = 14001/200 ∧
    (MAX_CYCLE_HOURS < foldCycleUsage (11201/200) (st56005fin.dailyLogs.take 2)) :=
  ⟨run56005, by decide, by decide,
    by decide⟩

/-- C8 (counterexample): for `current_cycle_used = 0.001` and
`total_miles = 60` the value re-derived by `_calculate_final_cycle_usage`
(3.00, because of its final `round(.., 2)`) differs from the simulation's
internal cumulative cycle counter (3.001) at the end of the day loop, refuting
the claimed exact equality. -/
theorem c8_recomputed_cycle_differs_from_internal :
    generateDailySchedule (1/1000) 60 (60 / AVG_SPEED_MPH) 0 6 1 = some stC8fin ∧
    calculateFinalCycleUsage (1/1000) stC8fin.dailyLogs = 3 ∧
    stC8fin.currentCycle = 3001/1000 ∧
    calculateFinalCycleUsage (1/1000) stC8fin.dailyLogs ≠ stC8fin.currentCycle :=
  ⟨runC8, by decide, by decide,
    by decide⟩

end HOS

namespace HOS

/-! ## Structured view of one inner-loop iteration -/

/-- The inner `while` condition (line 182-184). -/
def dlCond (maxD maxOD : ℚ) (s : DayState) : Prop :=
  s.hoursDriven < maxD ∧ s.hoursOnDuty < maxOD ∧ 0 < s.remainingDrivingHours

instance (maxD maxOD : ℚ) (s : DayState) : Decidable (dlCond maxD maxOD s) :=
  inferInstanceAs (Decidable (_ ∧ _ ∧ _))

/-- State after the 30-minute break branch (lines 187-197). -/
def afterBreak (s : DayState) : DayState :=
  let e := createLogEntry Status.OFF s.time REQUIRED_BREAK_DURATION Note.breakRest
  { s with entries := s.entries ++ [e], time := e.endTime, hoursSinceBreak := 0 }

/-- State after the fuel-stop branch (lines 199-211). -/
def afterFuel (s : DayState) : DayState :=
  let e := createLogEntry Status.ON s.time FUEL_STOP_DURATION Note.fuelStop
  { s with entries := s.entries ++ [e], time := e.endTime,
           hoursOnDuty := s.hoursOnDuty + FUEL_STOP_DURATION, milesSinceFuel := 0 }

/-- The driving-segment duration (lines 213-224). -/
def driveDur (maxD maxOD : ℚ) (s : DayState) : ℚ :=
  min (min (min (min (REQUIRED_BREAK_AFTER_HOURS - s.hoursSinceBreak)
    (maxD - s.hoursDriven)) (maxOD - s.hoursOnDuty)) s.remainingDrivingHours) 2

/-- State after a driving segment (lines 229-245). -/
def afterDrive (maxD maxOD : ℚ) (s : DayState) : DayState :=
  let d := driveDur maxD maxOD s
  let e := createLogEntry Status.D s.time d Note.driving
  { s with entries := s.entries ++ [e], time := e.endTime,
           hoursDriven := s.hoursDriven + d,
           hoursOnDuty := s.hoursOnDuty + d,
           hoursSinceBreak := s.hoursSinceBreak + d,
           remainingDrivingHours := s.remainingDrivingHours - d,
           remainingMiles := s.remainingMiles - d * AVG_SPEED_MPH,
           milesSinceFuel := s.milesSinceFuel + d * AVG_SPEED_MPH }

/-- State after the dropoff (lines 248-260). -/
def afterDrop (s : DayState) : DayState :=
  let e2 := createLogEntry Status.ON s.time DROPOFF_DURATION Note.dropoff
  { s with entries := s.entries ++ [e2], time := e2.endTime,
           hoursOnDuty := s.hoursOnDuty + DROPOFF_DURATION, dropoffDone := true }

/-- One unfolding of the inner loop in terms of the structured step states. -/
theorem driveLoop_succ (maxD maxOD : ℚ) (f : ℕ) (s : DayState) :
    driveLoop maxD maxOD (f + 1) s =
      if dlCond maxD maxOD s then
        if s.hoursSinceBreak ≥ REQUIRED_BREAK_AFTER_HOURS then
          driveLoop maxD maxOD f (afterBreak s)
        else if s.milesSinceFuel ≥ FUEL_STOP_MILES ∧ 0 < s.remainingMiles then
          driveLoop maxD maxOD f (afterFuel s)
        else if driveDur maxD maxOD s < 1/10 then some s
        else if (afterDrive maxD maxOD s).remainingDrivingHours ≤ 0 ∧
            s.dropoffDone = false then
          some (afterDrop (afterDrive maxD maxOD s))
        else driveLoop maxD maxOD f (afterDrive maxD maxOD s)
      else some s := rfl

theorem afterBreak_hoursDriven (s : DayState) : (afterBreak s).hoursDriven = s.hoursDriven := rfl
theorem afterBreak_hoursOnDuty (s : DayState) : (afterBreak s).hoursOnDuty = s.hoursOnDuty := rfl
theorem afterBreak_hoursSinceBreak (s : DayState) : (afterBreak s).hoursSinceBreak = 0 := rfl
theorem afterBreak_remainingDrivingHours (s : DayState) :
    (afterBreak s).remainingDrivingHours = s.remainingDrivingHours := rfl
theorem afterBreak_remainingMiles (s : DayState) :
    (afterBreak s).remainingMiles = s.remainingMiles := rfl
theorem afterBreak_milesSinceFuel (s : DayState) :
    (afterBreak s).milesSinceFuel = s.milesSinceFuel := rfl
theorem afterBreak_dropoffDone (s : DayState) : (afterBreak s).dropoffDone = s.dropoffDone := rfl
theorem afterBreak_entries (s : DayState) :
    (afterBreak s).entries =
      s.entries ++ [createLogEntry Status.OFF s.time REQUIRED_BREAK_DURATION Note.breakRest] := rfl

theorem afterFuel_hoursDriven (s : DayState) : (afterFuel s).hoursDriven = s.hoursDriven := rfl
theorem afterFuel_hoursOnDuty (s : DayState) :
    (afterFuel s).hoursOnDuty = s.hoursOnDuty + FUEL_STOP_DURATION := rfl
theorem afterFuel_hoursSinceBreak (s : DayState) :
    (afterFuel s).hoursSinceBreak = s.hoursSinceBreak := rfl
theorem afterFuel_remainingDrivingHours (s : DayState) :
    (afterFuel s).remainingDrivingHours = s.remainingDrivingHours := rfl
theorem afterFuel_remainingMiles (s : DayState) :
    (afterFuel s).remainingMiles = s.remainingMiles := rfl
theorem afterFuel_milesSinceFuel (s : DayState) : (afterFuel s).milesSinceFuel = 0 := rfl
theorem afterFuel_dropoffDone (s : DayState) : (afterFuel s).dropoffDone = s.dropoffDone := rfl
theorem afterFuel_entries (s : DayState) :
    (afterFuel s).entries =
      s.entries ++ [createLogEntry Status.ON s.time FUEL_STOP_DURATION Note.fuelStop] := rfl

theorem afterDrive_hoursDriven (maxD maxOD : ℚ) (s : DayState) :
    (afterDrive maxD maxOD s).hoursDriven = s.hoursDriven + driveDur maxD maxOD s := rfl
theorem afterDrive_hoursOnDuty (maxD maxOD : ℚ) (s : DayState) :
    (afterDrive maxD maxOD s).hoursOnDuty = s.hoursOnDuty + driveDur maxD maxOD s := rfl
theorem afterDrive_hoursSinceBreak (maxD maxOD : ℚ) (s : DayState) :
    (afterDrive maxD maxOD s).hoursSinceBreak = s.hoursSinceBreak + driveDur maxD maxOD s := rfl
theorem afterDrive_remainingDrivingHours (maxD maxOD : ℚ) (s : DayState) :
    (afterDrive maxD maxOD s).remainingDrivingHours =
      s.remainingDrivingHours - driveDur maxD maxOD s := rfl
theorem afterDrive_remainingMiles (maxD maxOD : ℚ) (s : DayState) :
    (afterDrive maxD maxOD s).remainingMiles =
      s.remainingMiles - driveDur maxD maxOD s * AVG_SPEED_MPH := rfl
theorem afterDrive_milesSinceFuel (maxD maxOD : ℚ) (s : DayState) :
    (afterDrive maxD maxOD s).milesSinceFuel =
      s.milesSinceFuel + driveDur maxD maxOD s * AVG_SPEED_MPH := rfl
theorem afterDrive_dropoffDone (maxD maxOD : ℚ) (s : DayState) :
    (afterDrive maxD maxOD s).dropoffDone = s.dropoffDone := rfl
theorem afterDrive_entries (maxD maxOD : ℚ) (s : DayState) :
    (afterDrive maxD maxOD s).entries =
      s.entries ++ [createLogEntry Status.D s.time (driveDur maxD maxOD s) Note.driving] := rfl

theorem afterDrop_hoursDriven (s : DayState) : (afterDrop s).hoursDriven = s.hoursDriven := rfl
theorem afterDrop_hoursOnDuty (s : DayState) :
    (afterDrop s).hoursOnDuty = s.hoursOnDuty + DROPOFF_DURATION := rfl
theorem afterDrop_remainingDrivingHours (s : DayState) :
    (afterDrop s).remainingDrivingHours = s.remainingDrivingHours := rfl
theorem afterDrop_remainingMiles (s : DayState) :
    (afterDrop s).remainingMiles = s.remainingMiles := rfl
theorem afterDrop_milesSinceFuel (s : DayState) :
    (afterDrop s).milesSinceFuel = s.milesSinceFuel := rfl
theorem afterDrop_dropoffDone (s : DayState) : (afterDrop s).dropoffDone = true := rfl
theorem afterDrop_entries (s : DayState) :
    (afterDrop s).entries =
      s.entries ++ [createLogEntry Status.ON s.time DROPOFF_DURATION Note.dropoff] := rfl

/-- The chosen driving duration never exceeds each of its five bounds. -/
theorem driveDur_le_break (maxD maxOD : ℚ) (s : DayState) :
    driveDur maxD maxOD s ≤ REQUIRED_BREAK_AFTER_HOURS - s.hoursSinceBreak :=
  le_trans (min_le_left _ _) (le_trans (min_le_left _ _)
    (le_trans (min_le_left _ _) (min_le_left _ _)))

theorem driveDur_le_drive (maxD maxOD : ℚ) (s : DayState) :
    driveDur maxD maxOD s ≤ maxD - s.hoursDriven :=
  le_trans (min_le_left _ _) (le_trans (min_le_left _ _)
    (le_trans (min_le_left _ _) (min_le_right _ _)))

theorem driveDur_le_duty (maxD maxOD : ℚ) (s : DayState) :
    driveDur maxD maxOD s ≤ maxOD - s.hoursOnDuty :=
  le_trans (min_le_left _ _) (le_trans (min_le_left _ _) (min_le_right _ _))

theorem driveDur_le_remaining (maxD maxOD : ℚ) (s : DayState) :
    driveDur maxD maxOD s ≤ s.remainingDrivingHours :=
  le_trans (min_le_left _ _) (min_le_right _ _)

theorem driveDur_le_two (maxD maxOD : ℚ) (s : DayState) :
    driveDur maxD maxOD s ≤ 2 :=
  min_le_right _ _

/-- The minimum of five values is attained at one of them. -/
theorem driveDur_cases (maxD maxOD : ℚ) (s : DayState) :
    driveDur maxD maxOD s = REQUIRED_BREAK_AFTER_HOURS - s.hoursSinceBreak ∨
    driveDur maxD maxOD s = maxD - s.hoursDriven ∨
    driveDur maxD maxOD s = maxOD - s.hoursOnDuty ∨
    driveDur maxD maxOD s = s.remainingDrivingHours ∨
    driveDur maxD maxOD s = 2 := by
  rw [driveDur]
  rcases min_cases (min (min (min (REQUIRED_BREAK_AFTER_HOURS - s.hoursSinceBreak)
    (maxD - s.hoursDriven)) (maxOD - s.hoursOnDuty)) s.remainingDrivingHours) 2 with
    ⟨h1, _⟩ | ⟨h1, _⟩
  · rw [h1]
    rcases min_cases (min (min (REQUIRED_BREAK_AFTER_HOURS - s.hoursSinceBreak)
      (maxD - s.hoursDriven)) (maxOD - s.hoursOnDuty)) s.remainingDrivingHours with
      ⟨h2, _⟩ | ⟨h2, _⟩
    · rw [h2]
      rcases min_cases (min (REQUIRED_BREAK_AFTER_HOURS - s.hoursSinceBreak)
        (maxD - s.hoursDriven)) (maxOD - s.hoursOnDuty) with ⟨h3, _⟩ | ⟨h3, _⟩
      · rw [h3]
        rcases min_cases (REQUIRED_BREAK_AFTER_HOURS - s.hoursSinceBreak)
          (maxD - s.hoursDriven) with ⟨h4, _⟩ | ⟨h4, _⟩
        · rw [h4]
          exact Or.inl rfl
        · rw [h4]
          exact Or.inr (Or.inl rfl)
      · rw [h3]
        exact Or.inr (Or.inr (Or.inl rfl))
    · rw [h2]
      exact Or.inr (Or.inr (Or.inr (Or.inl rfl)))
  · rw [h1]
    exact Or.inr (Or.inr (Or.inr (Or.inr rfl)))

end HOS

namespace HOS

/-! ## Inner-loop invariants -/

/-- Hours driven only grow and never pass `max_drive_hours`. -/
theorem driveLoop_hoursDriven (maxD maxOD : ℚ) : ∀ (f : ℕ) (s s' : DayState),
    driveLoop maxD maxOD f s = some s' →
    s.hoursDriven ≤ s'.hoursDriven ∧ s'.hoursDriven ≤ max s.hoursDriven maxD := by
  intro f
  induction f with
  | zero =>
    intro s s' h
    simp [driveLoop] at h
  | succ f ih =>
    intro s s' h
    rw [driveLoop_succ] at h
    split_ifs at h with hc hb hf he hdp
    · -- break branch
      obtain ⟨ih1, ih2⟩ := ih _ _ h
      rw [afterBreak_hoursDriven] at ih1 ih2
      exact ⟨ih1, ih2⟩
    · -- fuel branch
      obtain ⟨ih1, ih2⟩ := ih _ _ h
      rw [afterFuel_hoursDriven] at ih1 ih2
      exact ⟨ih1, ih2⟩
    · -- epsilon exit
      obtain rfl : s = s' := by injection h
      exact ⟨le_refl _, le_max_left _ _⟩
    · -- dropoff exit
      obtain rfl : afterDrop (afterDrive maxD maxOD s) = s' := by injection h
      rw [afterDrop_hoursDriven, afterDrive_hoursDriven]
      have hd : driveDur maxD maxOD s ≤ maxD - s.hoursDriven := driveDur_le_drive maxD maxOD s
      have he' : ¬ driveDur maxD maxOD s < 1/10 := he
      constructor
      · linarith [not_lt.1 he']
      · have : s.hoursDriven + driveDur maxD maxOD s ≤ maxD := by linarith
        exact le_trans this (le_max_right _ _)
    · -- drive then continue
      obtain ⟨ih1, ih2⟩ := ih _ _ h
      rw [afterDrive_hoursDriven] at ih1 ih2
      have hd : driveDur maxD maxOD s ≤ maxD - s.hoursDriven := driveDur_le_drive maxD maxOD s
      have he' : (1:ℚ)/10 ≤ driveDur maxD maxOD s := not_lt.1 he
      constructor
      · linarith
      · have hmax : max (s.hoursDriven + driveDur maxD maxOD s) maxD = maxD := by
          apply max_eq_right
          linarith
        rw [hmax] at ih2
        exact le_trans ih2 (le_max_right _ _)
    · -- condition false: exit
      obtain rfl : s = s' := by injection h
      exact ⟨le_refl _, le_max_left _ _⟩

/-- Hours on duty only grow, and (apart from the dropoff, which ends the trip)
never pass `max_on_duty_hours` by more than one fuel stop's half hour. -/
theorem driveLoop_hoursOnDuty (maxD maxOD : ℚ) : ∀ (f : ℕ) (s s' : DayState),
    driveLoop maxD maxOD f s = some s' →
    s.hoursOnDuty ≤ s'.hoursOnDuty ∧
    (s'.dropoffDone = s.dropoffDone →
      s'.hoursOnDuty ≤ max s.hoursOnDuty (maxOD + FUEL_STOP_DURATION)) := by
  intro f
  induction f with
  | zero =>
    intro s s' h
    simp [driveLoop] at h
  | succ f ih =>
    intro s s' h
    rw [driveLoop_succ] at h
    split_ifs at h with hc hb hf he hdp
    · -- break branch
      obtain ⟨ih1, ih2⟩ := ih _ _ h
      rw [afterBreak_hoursOnDuty] at ih1 ih2
      exact ⟨ih1, fun hflag => ih2 (by rw [afterBreak_dropoffDone]; exact hflag)⟩
    · -- fuel branch
      obtain ⟨ih1, ih2⟩ := ih _ _ h
      rw [afterFuel_hoursOnDuty] at ih1 ih2
      have hlt : s.hoursOnDuty < maxOD := hc.2.1
      have hfd : (0:ℚ) ≤ FUEL_STOP_DURATION := by
        rw [FUEL_STOP_DURATION]
        norm_num
      refine ⟨by linarith, fun hflag => ?_⟩
      have := ih2 (by rw [afterFuel_dropoffDone]; exact hflag)
      have hmax : max (s.hoursOnDuty + FUEL_STOP_DURATION) (maxOD + FUEL_STOP_DURATION)
          = maxOD + FUEL_STOP_DURATION := by
        apply max_eq_right
        linarith
      rw [hmax] at this
      exact le_trans this (le_max_right _ _)
    · -- epsilon exit
      obtain rfl : s = s' := by injection h
      exact ⟨le_refl _, fun _ => le_max_left _ _⟩
    · -- dropoff exit: the flag flips, so the bound is vacuous
      obtain rfl : afterDrop (afterDrive maxD maxOD s) = s' := by injection h
      rw [afterDrop_hoursOnDuty, afterDrive_hoursOnDuty]
      have he' : (1:ℚ)/10 ≤ driveDur maxD maxOD s := not_lt.1 he
      have hdd : (0:ℚ) ≤ DROPOFF_DURATION := by
        rw [DROPOFF_DURATION]
        norm_num
      refine ⟨by linarith, fun hflag => ?_⟩
      rw [afterDrop_dropoffDone] at hflag
      exact absurd hflag.symm (by rw [hdp.2]; simp)
    · -- drive then continue
      obtain ⟨ih1, ih2⟩ := ih _ _ h
      rw [afterDrive_hoursOnDuty] at ih1 ih2
      have hd : driveDur maxD maxOD s ≤ maxOD - s.hoursOnDuty := driveDur_le_duty maxD maxOD s
      have he' : (1:ℚ)/10 ≤ driveDur maxD maxOD s := not_lt.1 he
      have hfd : (0:ℚ) ≤ FUEL_STOP_DURATION := by
        rw [FUEL_STOP_DURATION]
        norm_num
      refine ⟨by linarith, fun hflag => ?_⟩
      have := ih2 (by rw [afterDrive_dropoffDone]; exact hflag)
      have hmax : max (s.hoursOnDuty + driveDur maxD maxOD s) (maxOD + FUEL_STOP_DURATION)
          = maxOD + FUEL_STOP_DURATION := by
        apply max_eq_right
        linarith
      rw [hmax] at this
      exact le_trans this (le_max_right _ _)
    · -- condition false: exit
      obtain rfl : s = s' := by injection h
      exact ⟨le_refl _, fun _ => le_max_left _ _⟩

end HOS

namespace HOS

theorem createLogEntry_status (st : Status) (t d : ℚ) (n : Note) :
    (createLogEntry st t d n).status = st := rfl

theorem createLogEntry_note (st : Status) (t d : ℚ) (n : Note) :
    (createLogEntry st t d n).note = n := rfl

theorem createLogEntry_duration (st : Status) (t d : ℚ) (n : Note) :
    (createLogEntry st t d n).duration = round2 d := rfl

theorem countNote_singleton (n : Note) (e : LogEntry) :
    countNote n [e] = if e.note = n then 1 else 0 := by
  rw [show [e] = e :: [] from rfl, countNote_cons, countNote_nil]
  omega

/-- The inner loop never emits a pickup entry, and emits the dropoff exactly
when the dropoff flag flips; the flag never resets, and at the moment it
flips the remaining driving hours are ≤ 0. -/
theorem driveLoop_counts (maxD maxOD : ℚ) : ∀ (f : ℕ) (s s' : DayState),
    driveLoop maxD maxOD f s = some s' →
    countNote Note.pickup s'.entries = countNote Note.pickup s.entries ∧
    (s.dropoffDone = false →
      countNote Note.dropoff s'.entries =
        countNote Note.dropoff s.entries + (if s'.dropoffDone then 1 else 0)) ∧
    (s.dropoffDone = false → s'.dropoffDone = true → s'.remainingDrivingHours ≤ 0) ∧
    (s.dropoffDone = true → s'.dropoffDone = true ∧
      countNote Note.dropoff s'.entries = countNote Note.dropoff s.entries) := by
  intro f
  induction f with
  | zero =>
    intro s s' h
    simp [driveLoop] at h
  | succ f ih =>
    intro s s' h
    rw [driveLoop_succ] at h
    split_ifs at h with hc hb hf he hdp
    · -- break
      obtain ⟨ih1, ih2, ih3, ih4⟩ := ih _ _ h
      rw [afterBreak_entries] at ih1 ih2 ih4
      rw [countNote_append, countNote_singleton, createLogEntry_note] at ih1 ih2 ih4
      simp only [afterBreak_dropoffDone] at ih2 ih3 ih4
      constructor
      · rw [ih1]
        simp
      refine ⟨fun hd => ?_, fun hd h2 => ih3 hd h2, fun hd => ?_⟩
      · rw [ih2 hd]
        simp
      · obtain ⟨hh1, hh2⟩ := ih4 hd
        refine ⟨hh1, ?_⟩
        rw [hh2]
        simp
    · -- fuel
      obtain ⟨ih1, ih2, ih3, ih4⟩ := ih _ _ h
      rw [afterFuel_entries] at ih1 ih2 ih4
      rw [countNote_append, countNote_singleton, createLogEntry_note] at ih1 ih2 ih4
      simp only [afterFuel_dropoffDone] at ih2 ih3 ih4
      constructor
      · rw [ih1]
        simp
      refine ⟨fun hd => ?_, fun hd h2 => ih3 hd h2, fun hd => ?_⟩
      · rw [ih2 hd]
        simp
      · obtain ⟨hh1, hh2⟩ := ih4 hd
        refine ⟨hh1, ?_⟩
        rw [hh2]
        simp
    · -- epsilon exit
      obtain rfl : s = s' := by injection h
      refine ⟨rfl, fun hd => ?_, fun hd h2 => ?_, fun hd => ⟨hd, rfl⟩⟩
      · rw [hd]
        simp
      · rw [hd] at h2
        cases h2
    · -- dropoff exit
      obtain rfl : afterDrop (afterDrive maxD maxOD s) = s' := by injection h
      have hdflag : s.dropoffDone = false := hdp.2
      refine ⟨?_, fun _ => ?_, fun _ _ => ?_, fun hd => ?_⟩
      · rw [afterDrop_entries, afterDrive_entries]
        rw [countNote_append, countNote_append, countNote_singleton, countNote_singleton,
          createLogEntry_note, createLogEntry_note]
        simp
      · rw [afterDrop_entries, afterDrive_entries]
        rw [countNote_append, countNote_append, countNote_singleton, countNote_singleton,
          createLogEntry_note, createLogEntry_note, afterDrop_dropoffDone]
        simp
      · rw [afterDrop_remainingDrivingHours]
        exact hdp.1
      · rw [hd] at hdflag
        cases hdflag
    · -- drive, continue
      obtain ⟨ih1, ih2, ih3, ih4⟩ := ih _ _ h
      rw [afterDrive_entries] at ih1 ih2 ih4
      rw [countNote_append, countNote_singleton, createLogEntry_note] at ih1 ih2 ih4
      simp only [afterDrive_dropoffDone] at ih2 ih3 ih4
      constructor
      · rw [ih1]
        simp
      refine ⟨fun hd => ?_, fun hd h2 => ih3 hd h2, fun hd => ?_⟩
      · rw [ih2 hd]
        simp
      · obtain ⟨hh1, hh2⟩ := ih4 hd
        refine ⟨hh1, ?_⟩
        rw [hh2]
        simp
    · -- condition false
      obtain rfl : s = s' := by injection h
      refine ⟨rfl, fun hd => ?_, fun hd h2 => ?_, fun hd => ⟨hd, rfl⟩⟩
      · rw [hd]
        simp
      · rw [hd] at h2
        cases h2

/-- Every entry the inner loop appends has a two-decimal-exact stored
duration. -/
theorem driveLoop_durations_exact (maxD maxOD : ℚ) : ∀ (f : ℕ) (s s' : DayState),
    driveLoop maxD maxOD f s = some s' →
    (∀ e ∈ s.entries, exact2 e.duration) → ∀ e ∈ s'.entries, exact2 e.duration := by
  intro f
  induction f with
  | zero =>
    intro s s' h
    simp [driveLoop] at h
  | succ f ih =>
    intro s s' h hall
    rw [driveLoop_succ] at h
    have hsingle : ∀ (st : Status) (t d : ℚ) (n : Note),
        ∀ e ∈ s.entries ++ [createLogEntry st t d n], exact2 e.duration := by
      intro st t d n e he
      rcases List.mem_append.1 he with he | he
      · exact hall e he
      · rw [List.mem_singleton.1 he, createLogEntry_duration]
        exact exact2_round2 d
    split_ifs at h with hc hb hf he hdp
    · exact ih _ _ h (by rw [afterBreak_entries]; exact hsingle _ _ _ _)
    · exact ih _ _ h (by rw [afterFuel_entries]; exact hsingle _ _ _ _)
    · obtain rfl : s = s' := by injection h
      exact hall
    · obtain rfl : afterDrop (afterDrive maxD maxOD s) = s' := by injection h
      rw [afterDrop_entries, afterDrive_entries]
      intro e he
      rcases List.mem_append.1 he with he | he
      · exact hsingle _ _ _ _ e he
      · rw [List.mem_singleton.1 he, createLogEntry_duration]
        exact exact2_round2 _
    · exact ih _ _ h (by rw [afterDrive_entries]; exact hsingle _ _ _ _)
    · obtain rfl : s = s' := by injection h
      exact hall

end HOS

namespace HOS

theorem sumDriving_singleton (e : LogEntry) :
    sumDriving [e] = if e.status = Status.D then e.duration else 0 := by
  simp [sumDriving]

theorem sumOnDuty_singleton (e : LogEntry) :
    sumOnDuty [e] =
      if e.status = Status.D ∨ e.status = Status.ON then e.duration else 0 := by
  simp [sumOnDuty]

theorem round2_half : round2 ((1:ℚ)/2) = 1/2 := exact2_half

theorem round2_FUEL_STOP_DURATION : round2 FUEL_STOP_DURATION = FUEL_STOP_DURATION := by
  rw [FUEL_STOP_DURATION]
  exact round2_half

theorem round2_PICKUP_DURATION : round2 PICKUP_DURATION = PICKUP_DURATION := by
  rw [PICKUP_DURATION]
  exact round2_one

theorem round2_DROPOFF_DURATION : round2 DROPOFF_DURATION = DROPOFF_DURATION := by
  rw [DROPOFF_DURATION]
  exact round2_one

theorem driveLoop_of_not_cond (maxD maxOD : ℚ) (f : ℕ) (s s' : DayState)
    (hnc : ¬ dlCond maxD maxOD s) (h : driveLoop maxD maxOD f s = some s') :
    s' = s := by
  cases f with
  | zero => simp [driveLoop] at h
  | succ f =>
    rw [driveLoop_succ, if_neg hnc] at h
    injection h with h
    exact h.symm

/-- At most one inexact driving segment per day: the stored (per-entry
rounded) driving and on-duty sums trail the raw counters by at most 1/200,
provided the hours-since-break counter starts two-decimal-exact (it starts at
0 each day). -/
theorem driveLoop_sums (maxD maxOD : ℚ) : ∀ (f : ℕ) (s s' : DayState),
    driveLoop maxD maxOD f s = some s' →
    exact2 s.hoursSinceBreak →
    sumDriving s'.entries ≤ sumDriving s.entries + (s'.hoursDriven - s.hoursDriven) + 1/200 ∧
    sumOnDuty s'.entries ≤ sumOnDuty s.entries + (s'.hoursOnDuty - s.hoursOnDuty) + 1/200 := by
  intro f
  induction f with
  | zero =>
    intro s s' h
    simp [driveLoop] at h
  | succ f ih =>
    intro s s' h hsb
    rw [driveLoop_succ] at h
    split_ifs at h with hc hb hf he hdp
    · -- break: an OFF entry, nothing changes in the on-duty sums
      obtain ⟨ih1, ih2⟩ := ih _ _ h (by rw [afterBreak_hoursSinceBreak]; exact exact2_zero)
      simp only [afterBreak_entries, sumDriving_append, sumDriving_singleton, sumOnDuty_append,
        sumOnDuty_singleton, createLogEntry_status, afterBreak_hoursDriven,
        afterBreak_hoursOnDuty, reduceCtorEq, if_false, or_self, add_zero] at ih1 ih2
      exact ⟨ih1, ih2⟩
    · -- fuel: an ON entry of exactly half an hour
      obtain ⟨ih1, ih2⟩ := ih _ _ h (by rw [afterFuel_hoursSinceBreak]; exact hsb)
      simp only [afterFuel_entries, sumDriving_append, sumDriving_singleton, sumOnDuty_append,
        sumOnDuty_singleton, createLogEntry_status, afterFuel_hoursDriven,
        afterFuel_hoursOnDuty, createLogEntry_duration, round2_FUEL_STOP_DURATION,
        reduceCtorEq, if_false, or_false, or_true, if_true, add_zero] at ih1 ih2
      constructor
      · linarith
      · linarith
    · -- epsilon exit
      obtain rfl : s = s' := by injection h
      constructor
      · linarith
      · linarith
    · -- dropoff
      obtain rfl : afterDrop (afterDrive maxD maxOD s) = s' := by injection h
      rw [afterDrop_entries, afterDrive_entries, afterDrop_hoursDriven,
        afterDrive_hoursDriven, afterDrop_hoursOnDuty, afterDrive_hoursOnDuty]
      rw [sumDriving_append, sumDriving_append, sumDriving_singleton, sumDriving_singleton,
        sumOnDuty_append, sumOnDuty_append, sumOnDuty_singleton, sumOnDuty_singleton,
        createLogEntry_status, createLogEntry_status, createLogEntry_duration,
        createLogEntry_duration, round2_DROPOFF_DURATION]
      have hr := round2_le_add (driveDur maxD maxOD s)
      simp only [reduceCtorEq, if_false, if_true, or_false, or_true, add_zero]
      constructor
      · linarith
      · linarith
    · -- drive, continue
      by_cases hex : exact2 (driveDur maxD maxOD s)
      · obtain ⟨ih1, ih2⟩ := ih _ _ h
          (by rw [afterDrive_hoursSinceBreak]; exact exact2_add hsb hex)
        have hexe : round2 (driveDur maxD maxOD s) = driveDur maxD maxOD s := hex
        simp only [afterDrive_entries, sumDriving_append, sumDriving_singleton, sumOnDuty_append,
          sumOnDuty_singleton, createLogEntry_status, afterDrive_hoursDriven,
          afterDrive_hoursOnDuty, createLogEntry_duration, hexe,
          if_true, or_true, true_or, or_self] at ih1 ih2
        constructor
        · linarith
        · linarith
      · -- the inexact segment: it must bind one of the day-ending minima,
        -- so the loop exits right after it
        have hnc : ¬ dlCond maxD maxOD (afterDrive maxD maxOD s) := by
          rcases driveDur_cases maxD maxOD s with hcase | hcase | hcase | hcase | hcase
          · exfalso
            apply hex
            rw [hcase]
            exact exact2_sub (by rw [REQUIRED_BREAK_AFTER_HOURS]; exact exact2_num 8) hsb
          · intro hcc
            have := hcc.1
            rw [afterDrive_hoursDriven, hcase] at this
            linarith
          · intro hcc
            have := hcc.2.1
            rw [afterDrive_hoursOnDuty, hcase] at this
            linarith
          · intro hcc
            have := hcc.2.2
            rw [afterDrive_remainingDrivingHours, hcase] at this
            linarith
          · exfalso
            apply hex
            rw [hcase]
            exact exact2_num 2
        obtain rfl : s' = afterDrive maxD maxOD s := driveLoop_of_not_cond _ _ _ _ _ hnc h
        rw [afterDrive_entries, afterDrive_hoursDriven, afterDrive_hoursOnDuty,
          sumDriving_append, sumDriving_singleton, sumOnDuty_append, sumOnDuty_singleton,
          createLogEntry_status, createLogEntry_duration]
        have hr := round2_le_add (driveDur maxD maxOD s)
        simp only [if_true, or_true, true_or, or_self]
        constructor
        · linarith
        · linarith
    · -- condition false
      obtain rfl : s = s' := by injection h
      constructor
      · linarith
      · linarith

end HOS

namespace HOS

/-- While miles-since-fuel stays below what the current day's driving can have
accumulated, no further fuel stop can trigger (a day drives at most 11 hours,
i.e. 660 miles, and a stop needs 1000). -/
theorem driveLoop_no_fuel (maxD maxOD : ℚ) (hmd : maxD ≤ MAX_DRIVING_HOURS) :
    ∀ (f : ℕ) (s s' : DayState),
    driveLoop maxD maxOD f s = some s' →
    s.milesSinceFuel ≤ AVG_SPEED_MPH * s.hoursDriven →
    s.hoursDriven ≤ MAX_DRIVING_HOURS →
    countNote Note.fuelStop s'.entries = countNote Note.fuelStop s.entries ∧
    s'.milesSinceFuel ≤ AVG_SPEED_MPH * s'.hoursDriven ∧
    s'.hoursDriven ≤ MAX_DRIVING_HOURS := by
  intro f
  induction f with
  | zero =>
    intro s s' h
    simp [driveLoop] at h
  | succ f ih =>
    intro s s' h hmsf hdr
    rw [driveLoop_succ] at h
    split_ifs at h with hc hb hf he hdp
    · -- break
      obtain ⟨ih1, ih2, ih3⟩ := ih _ _ h
        (by rw [afterBreak_milesSinceFuel, afterBreak_hoursDriven]; exact hmsf)
        (by rw [afterBreak_hoursDriven]; exact hdr)
      rw [afterBreak_entries, countNote_append, countNote_singleton, createLogEntry_note]
        at ih1
      simp only [reduceCtorEq, if_false, add_zero] at ih1
      exact ⟨ih1, ih2, ih3⟩
    · -- fuel stop: impossible under the mileage bound
      exfalso
      have h1 : FUEL_STOP_MILES ≤ s.milesSinceFuel := hf.1
      rw [FUEL_STOP_MILES] at h1
      rw [AVG_SPEED_MPH] at hmsf
      rw [MAX_DRIVING_HOURS] at hdr
      linarith
    · -- epsilon exit
      obtain rfl : s = s' := by injection h
      exact ⟨rfl, hmsf, hdr⟩
    · -- dropoff
      obtain rfl : afterDrop (afterDrive maxD maxOD s) = s' := by injection h
      have hd : driveDur maxD maxOD s ≤ maxD - s.hoursDriven := driveDur_le_drive maxD maxOD s
      refine ⟨?_, ?_, ?_⟩
      · rw [afterDrop_entries, afterDrive_entries, countNote_append, countNote_append,
          countNote_singleton, countNote_singleton, createLogEntry_note, createLogEntry_note]
        simp
      · rw [afterDrop_milesSinceFuel, afterDrive_milesSinceFuel, afterDrop_hoursDriven,
          afterDrive_hoursDriven]
        have : (0:ℚ) ≤ AVG_SPEED_MPH := by
          rw [AVG_SPEED_MPH]
          norm_num
        nlinarith [hmsf]
      · rw [afterDrop_hoursDriven, afterDrive_hoursDriven]
        linarith
    · -- drive, continue
      have hd : driveDur maxD maxOD s ≤ maxD - s.hoursDriven := driveDur_le_drive maxD maxOD s
      have hside1 : (afterDrive maxD maxOD s).milesSinceFuel ≤
          AVG_SPEED_MPH * (afterDrive maxD maxOD s).hoursDriven := by
        rw [afterDrive_milesSinceFuel, afterDrive_hoursDriven]
        have hA : (0:ℚ) ≤ AVG_SPEED_MPH := by
          rw [AVG_SPEED_MPH]
          norm_num
        nlinarith [hmsf]
      have hside2 : (afterDrive maxD maxOD s).hoursDriven ≤ MAX_DRIVING_HOURS := by
        rw [afterDrive_hoursDriven]
        linarith
      obtain ⟨ih1, ih2, ih3⟩ := ih _ _ h hside1 hside2
      rw [afterDrive_entries, countNote_append, countNote_singleton, createLogEntry_note]
        at ih1
      simp only [reduceCtorEq, if_false, add_zero] at ih1
      exact ⟨ih1, ih2, ih3⟩
    · -- condition false
      obtain rfl : s = s' := by injection h
      exact ⟨rfl, hmsf, hdr⟩

/-- A single day inserts at most one fuel stop. -/
theorem driveLoop_fuel_le_one (maxD maxOD : ℚ) (hmd : maxD ≤ MAX_DRIVING_HOURS) :
    ∀ (f : ℕ) (s s' : DayState),
    driveLoop maxD maxOD f s = some s' →
    s.hoursDriven ≤ MAX_DRIVING_HOURS →
    0 ≤ s.hoursDriven →
    countNote Note.fuelStop s'.entries ≤ countNote Note.fuelStop s.entries + 1 := by
  intro f
  induction f with
  | zero =>
    intro s s' h
    simp [driveLoop] at h
  | succ f ih =>
    intro s s' h hdr hzero
    rw [driveLoop_succ] at h
    split_ifs at h with hc hb hf he hdp
    · -- break
      have := ih _ _ h (by rw [afterBreak_hoursDriven]; exact hdr)
        (by rw [afterBreak_hoursDriven]; exact hzero)
      rw [afterBreak_entries, countNote_append, countNote_singleton, createLogEntry_note]
        at this
      simp only [reduceCtorEq, if_false, add_zero] at this
      exact this
    · -- fuel stop: afterwards no further fuel stop fits in the day
      obtain ⟨h1, _, _⟩ := driveLoop_no_fuel maxD maxOD hmd _ _ _ h
        (by
          rw [afterFuel_milesSinceFuel, afterFuel_hoursDriven]
          rw [AVG_SPEED_MPH]
          nlinarith [hzero])
        (by rw [afterFuel_hoursDriven]; exact hdr)
      rw [h1, afterFuel_entries, countNote_append, countNote_singleton, createLogEntry_note]
      simp
    · -- epsilon exit
      obtain rfl : s = s' := by injection h
      omega
    · -- dropoff
      obtain rfl : afterDrop (afterDrive maxD maxOD s) = s' := by injection h
      rw [afterDrop_entries, afterDrive_entries, countNote_append, countNote_append,
        countNote_singleton, countNote_singleton, createLogEntry_note, createLogEntry_note]
      simp
    · -- drive, continue
      have hd : driveDur maxD maxOD s ≤ maxD - s.hoursDriven := driveDur_le_drive maxD maxOD s
      have he10 : (1:ℚ)/10 ≤ driveDur maxD maxOD s := not_lt.1 he
      have := ih _ _ h (by rw [afterDrive_hoursDriven]; linarith)
        (by rw [afterDrive_hoursDriven]; linarith)
      rw [afterDrive_entries, countNote_append, countNote_singleton, createLogEntry_note]
        at this
      simp only [reduceCtorEq, if_false, add_zero] at this
      exact this
    · -- condition false
      obtain rfl : s = s' := by injection h
      omega

end HOS

namespace HOS

/-- Mileage/fuel-stop accounting through one day: every fuel stop accounts for
1000 driven miles, fuel stops only happen with trip miles remaining, and
remaining miles stay in lock-step with remaining driving hours. -/
theorem driveLoop_mileage (maxD maxOD : ℚ) (M : ℚ) (F : ℕ) :
    ∀ (f : ℕ) (s s' : DayState),
    driveLoop maxD maxOD f s = some s' →
    FUEL_STOP_MILES * ((F + countNote Note.fuelStop s.entries : ℕ) : ℚ) + s.milesSinceFuel
        ≤ M - s.remainingMiles →
    0 ≤ s.milesSinceFuel →
    s.remainingMiles = AVG_SPEED_MPH * s.remainingDrivingHours →
    ((F + countNote Note.fuelStop s.entries = 0) ∨
      FUEL_STOP_MILES * ((F + countNote Note.fuelStop s.entries : ℕ) : ℚ) < M) →
    0 ≤ s.remainingDrivingHours →
    FUEL_STOP_MILES * ((F + countNote Note.fuelStop s'.entries : ℕ) : ℚ) + s'.milesSinceFuel
        ≤ M - s'.remainingMiles ∧
    0 ≤ s'.milesSinceFuel ∧
    s'.remainingMiles = AVG_SPEED_MPH * s'.remainingDrivingHours ∧
    ((F + countNote Note.fuelStop s'.entries = 0) ∨
      FUEL_STOP_MILES * ((F + countNote Note.fuelStop s'.entries : ℕ) : ℚ) < M) ∧
    0 ≤ s'.remainingDrivingHours := by
  intro f
  induction f with
  | zero =>
    intro s s' h
    simp [driveLoop] at h
  | succ f ih =>
    intro s s' h h1 h2 h3 h4 h5
    rw [driveLoop_succ] at h
    split_ifs at h with hc hb hf he hdp
    · -- break: only an OFF entry
      apply ih _ _ h
      · rw [afterBreak_entries, countNote_append, countNote_singleton, createLogEntry_note,
          afterBreak_milesSinceFuel, afterBreak_remainingMiles]
        simpa using h1
      · rw [afterBreak_milesSinceFuel]
        exact h2
      · rw [afterBreak_remainingMiles, afterBreak_remainingDrivingHours]
        exact h3
      · rw [afterBreak_entries, countNote_append, countNote_singleton, createLogEntry_note]
        simpa using h4
      · rw [afterBreak_remainingDrivingHours]
        exact h5
    · -- fuel stop
      have hnew : countNote Note.fuelStop (afterFuel s).entries
          = countNote Note.fuelStop s.entries + 1 := by
        rw [afterFuel_entries, countNote_append, countNote_singleton, createLogEntry_note]
        simp
      have hmsf : FUEL_STOP_MILES ≤ s.milesSinceFuel := hf.1
      have hrem : 0 < s.remainingMiles := hf.2
      apply ih _ _ h
      · rw [hnew, afterFuel_milesSinceFuel, afterFuel_remainingMiles]
        push_cast
        push_cast at h1
        linarith
      · rw [afterFuel_milesSinceFuel]
      · rw [afterFuel_remainingMiles, afterFuel_remainingDrivingHours]
        exact h3
      · rw [hnew]
        right
        push_cast
        push_cast at h1
        linarith
      · rw [afterFuel_remainingDrivingHours]
        exact h5
    · -- epsilon exit
      obtain rfl : s = s' := by injection h
      exact ⟨h1, h2, h3, h4, h5⟩
    · -- dropoff
      obtain rfl : afterDrop (afterDrive maxD maxOD s) = s' := by injection h
      have hcnt : countNote Note.fuelStop (afterDrop (afterDrive maxD maxOD s)).entries
          = countNote Note.fuelStop s.entries := by
        rw [afterDrop_entries, afterDrive_entries, countNote_append, countNote_append,
          countNote_singleton, countNote_singleton, createLogEntry_note, createLogEntry_note]
        simp
      have he10 : (1:ℚ)/10 ≤ driveDur maxD maxOD s := not_lt.1 he
      have hdle : driveDur maxD maxOD s ≤ s.remainingDrivingHours :=
        driveDur_le_remaining maxD maxOD s
      refine ⟨?_, ?_, ?_, ?_, ?_⟩
      · rw [hcnt, afterDrop_milesSinceFuel, afterDrive_milesSinceFuel,
          afterDrop_remainingMiles, afterDrive_remainingMiles]
        linarith
      · rw [afterDrop_milesSinceFuel, afterDrive_milesSinceFuel]
        have hA : (0:ℚ) ≤ AVG_SPEED_MPH := by
          rw [AVG_SPEED_MPH]
          norm_num
        nlinarith
      · rw [afterDrop_remainingMiles, afterDrive_remainingMiles,
          afterDrop_remainingDrivingHours, afterDrive_remainingDrivingHours, h3]
        ring
      · rw [hcnt]
        exact h4
      · rw [afterDrop_remainingDrivingHours, afterDrive_remainingDrivingHours]
        linarith
    · -- drive, continue
      have he10 : (1:ℚ)/10 ≤ driveDur maxD maxOD s := not_lt.1 he
      have hA : (0:ℚ) ≤ AVG_SPEED_MPH := by
        rw [AVG_SPEED_MPH]
        norm_num
      apply ih _ _ h
      · rw [afterDrive_entries, countNote_append, countNote_singleton, createLogEntry_note,
          afterDrive_milesSinceFuel, afterDrive_remainingMiles]
        simp only [reduceCtorEq, if_false, add_zero]
        linarith
      · rw [afterDrive_milesSinceFuel]
        nlinarith
      · rw [afterDrive_remainingMiles, afterDrive_remainingDrivingHours, h3]
        ring
      · rw [afterDrive_entries, countNote_append, countNote_singleton, createLogEntry_note]
        simpa using h4
      · rw [afterDrive_remainingDrivingHours]
        have hdle : driveDur maxD maxOD s ≤ s.remainingDrivingHours :=
          driveDur_le_remaining maxD maxOD s
        linarith
    · -- condition false
      obtain rfl : s = s' := by injection h
      exact ⟨h1, h2, h3, h4, h5⟩

end HOS

namespace HOS

/-! ## Projections of the day-closing helpers -/

theorem restAdjusted_hoursDriven (tdh : ℚ) (dn : ℕ) (s2 : DayState) :
    (restAdjusted tdh dn s2).hoursDriven = s2.hoursDriven := by
  rw [restAdjusted]
  split <;> rfl

theorem restAdjusted_hoursOnDuty (tdh : ℚ) (dn : ℕ) (s2 : DayState) :
    (restAdjusted tdh dn s2).hoursOnDuty = s2.hoursOnDuty := by
  rw [restAdjusted]
  split <;> rfl

theorem restAdjusted_remainingDrivingHours (tdh : ℚ) (dn : ℕ) (s2 : DayState) :
    (restAdjusted tdh dn s2).remainingDrivingHours = s2.remainingDrivingHours := by
  rw [restAdjusted]
  split <;> rfl

theorem restAdjusted_remainingMiles (tdh : ℚ) (dn : ℕ) (s2 : DayState) :
    (restAdjusted tdh dn s2).remainingMiles = s2.remainingMiles := by
  rw [restAdjusted]
  split <;> rfl

theorem restAdjusted_milesSinceFuel (tdh : ℚ) (dn : ℕ) (s2 : DayState) :
    (restAdjusted tdh dn s2).milesSinceFuel = s2.milesSinceFuel := by
  rw [restAdjusted]
  split <;> rfl

theorem restAdjusted_dropoffDone (tdh : ℚ) (dn : ℕ) (s2 : DayState) :
    (restAdjusted tdh dn s2).dropoffDone = s2.dropoffDone := by
  rw [restAdjusted]
  split <;> rfl

theorem restAdjusted_countNote (tdh : ℚ) (dn : ℕ) (s2 : DayState) (n : Note)
    (hn : n ≠ Note.dailyRest) :
    countNote n (restAdjusted tdh dn s2).entries = countNote n s2.entries := by
  rw [restAdjusted]
  split
  · rw [show ({ s2 with
        entries := s2.entries ++ [createLogEntry Status.SB s2.time RESET_OFF_DUTY_HOURS
          Note.dailyRest],
        time := (createLogEntry Status.SB s2.time RESET_OFF_DUTY_HOURS
          Note.dailyRest).endTime } : DayState).entries
      = s2.entries ++ [createLogEntry Status.SB s2.time RESET_OFF_DUTY_HOURS Note.dailyRest]
      from rfl]
    rw [countNote_append, countNote_singleton, createLogEntry_note,
      if_neg (show ¬ Note.dailyRest = n from fun h => hn h.symm)]
    omega
  · rfl

theorem restAdjusted_sumDriving (tdh : ℚ) (dn : ℕ) (s2 : DayState) :
    sumDriving (restAdjusted tdh dn s2).entries = sumDriving s2.entries := by
  rw [restAdjusted]
  split
  · rw [show ({ s2 with
        entries := s2.entries ++ [createLogEntry Status.SB s2.time RESET_OFF_DUTY_HOURS
          Note.dailyRest],
        time := (createLogEntry Status.SB s2.time RESET_OFF_DUTY_HOURS
          Note.dailyRest).endTime } : DayState).entries
      = s2.entries ++ [createLogEntry Status.SB s2.time RESET_OFF_DUTY_HOURS Note.dailyRest]
      from rfl]
    rw [sumDriving_append, sumDriving_singleton, createLogEntry_status]
    simp
  · rfl

theorem restAdjusted_sumOnDuty (tdh : ℚ) (dn : ℕ) (s2 : DayState) :
    sumOnDuty (restAdjusted tdh dn s2).entries = sumOnDuty s2.entries := by
  rw [restAdjusted]
  split
  · rw [show ({ s2 with
        entries := s2.entries ++ [createLogEntry Status.SB s2.time RESET_OFF_DUTY_HOURS
          Note.dailyRest],
        time := (createLogEntry Status.SB s2.time RESET_OFF_DUTY_HOURS
          Note.dailyRest).endTime } : DayState).entries
      = s2.entries ++ [createLogEntry Status.SB s2.time RESET_OFF_DUTY_HOURS Note.dailyRest]
      from rfl]
    rw [sumOnDuty_append, sumOnDuty_singleton, createLogEntry_status]
    simp
  · rfl

theorem finishDay_dailyLogs (tdh : ℚ) (ts : TripState) (s2 : DayState) :
    (finishDay tdh ts s2).dailyLogs =
      ts.dailyLogs ++ [mkWorkDayLog ts (restAdjusted tdh ts.dayNumber s2)] := rfl

theorem finishDay_remainingDrivingHours (tdh : ℚ) (ts : TripState) (s2 : DayState) :
    (finishDay tdh ts s2).remainingDrivingHours
      = (restAdjusted tdh ts.dayNumber s2).remainingDrivingHours := rfl

theorem finishDay_remainingMiles (tdh : ℚ) (ts : TripState) (s2 : DayState) :
    (finishDay tdh ts s2).remainingMiles
      = (restAdjusted tdh ts.dayNumber s2).remainingMiles := rfl

theorem finishDay_milesSinceFuel (tdh : ℚ) (ts : TripState) (s2 : DayState) :
    (finishDay tdh ts s2).milesSinceFuel
      = (restAdjusted tdh ts.dayNumber s2).milesSinceFuel := rfl

theorem finishDay_currentCycle (tdh : ℚ) (ts : TripState) (s2 : DayState) :
    (finishDay tdh ts s2).currentCycle
      = ts.currentCycle + sumOnDuty (restAdjusted tdh ts.dayNumber s2).entries := rfl

theorem finishDay_pickupDone (tdh : ℚ) (ts : TripState) (s2 : DayState) :
    (finishDay tdh ts s2).pickupDone = true := rfl

theorem finishDay_dropoffDone (tdh : ℚ) (ts : TripState) (s2 : DayState) :
    (finishDay tdh ts s2).dropoffDone
      = (restAdjusted tdh ts.dayNumber s2).dropoffDone := rfl

theorem mkWorkDayLog_entries (ts : TripState) (s3 : DayState) :
    (mkWorkDayLog ts s3).entries = s3.entries := rfl

theorem mkWorkDayLog_isRestart (ts : TripState) (s3 : DayState) :
    (mkWorkDayLog ts s3).isRestart = false := rfl

theorem mkWorkDayLog_totalDrivingHours (ts : TripState) (s3 : DayState) :
    (mkWorkDayLog ts s3).totalDrivingHours = round2 (sumDriving s3.entries) := rfl

theorem mkWorkDayLog_totalOnDutyHours (ts : TripState) (s3 : DayState) :
    (mkWorkDayLog ts s3).totalOnDutyHours = round2 (sumOnDuty s3.entries) := rfl

theorem applyRestart_dailyLogs (ts : TripState) :
    (applyRestart ts).dailyLogs = ts.dailyLogs ++ [createRestartLog ts.dayNumber ts.time] := rfl

theorem applyRestart_currentCycle (ts : TripState) : (applyRestart ts).currentCycle = 0 := rfl

theorem applyRestart_remainingDrivingHours (ts : TripState) :
    (applyRestart ts).remainingDrivingHours = ts.remainingDrivingHours := rfl

theorem applyRestart_remainingMiles (ts : TripState) :
    (applyRestart ts).remainingMiles = ts.remainingMiles := rfl

theorem applyRestart_milesSinceFuel (ts : TripState) :
    (applyRestart ts).milesSinceFuel = ts.milesSinceFuel := rfl

theorem applyRestart_pickupDone (ts : TripState) :
    (applyRestart ts).pickupDone = ts.pickupDone := rfl

theorem applyRestart_dropoffDone (ts : TripState) :
    (applyRestart ts).dropoffDone = ts.dropoffDone := rfl

theorem createRestartLog_isRestart (dn : ℕ) (t : ℚ) :
    (createRestartLog dn t).isRestart = true := rfl

theorem createRestartLog_totalOnDutyHours (dn : ℕ) (t : ℚ) :
    (createRestartLog dn t).totalOnDutyHours = 0 := rfl

theorem createRestartLog_countNote (dn : ℕ) (t : ℚ) (n : Note) (hn : n ≠ Note.restart) :
    countNote n (createRestartLog dn t).entries = 0 := by
  cases n <;> first
    | exact absurd rfl hn
    | rfl

theorem totalFuelStops_append (a b : List DayLog) :
    totalFuelStops (a ++ b) = totalFuelStops a + totalFuelStops b := by
  simp [totalFuelStops]

theorem totalFuelStops_singleton (l : DayLog) :
    totalFuelStops [l] = countNote Note.fuelStop l.entries := by
  simp [totalFuelStops]

theorem foldCycleUsage_append (c : ℚ) (a b : List DayLog) :
    foldCycleUsage c (a ++ b) = foldCycleUsage (foldCycleUsage c a) b := by
  simp [foldCycleUsage, List.foldl_append]

theorem foldCycleUsage_work (c : ℚ) (l : DayLog) (h : l.isRestart = false) :
    foldCycleUsage c [l] = c + l.totalOnDutyHours := by
  simp [foldCycleUsage, h]

theorem foldCycleUsage_restart (c : ℚ) (l : DayLog) (h : l.isRestart = true) :
    foldCycleUsage c [l] = 0 := by
  simp [foldCycleUsage, h]

end HOS

namespace HOS

/-- One unfolding of the outer loop. -/
theorem scheduleLoop_succ (tdh : ℚ) (iF f : ℕ) (ts : TripState) :
    scheduleLoop tdh iF (f + 1) ts =
      if 0 < ts.remainingDrivingHours ∨ ts.dropoffDone = false then
        if ts.currentCycle ≥ MAX_CYCLE_HOURS then
          scheduleLoop tdh iF f (applyRestart ts)
        else if MAX_CYCLE_HOURS - ts.currentCycle < 1 then
          scheduleLoop tdh iF f (applyRestart ts)
        else
          match buildWorkDay tdh iF ts with
          | none => none
          | some ts2 =>
            if ts2.dropoffDone = true ∧ ts2.remainingDrivingHours ≤ 0 then some ts2
            else scheduleLoop tdh iF f ts2
      else some ts := rfl

theorem pickupAdjusted_countNote (ts : TripState) (n : Note) (hn : n ≠ Note.pickup) :
    countNote n (pickupAdjusted ts).entries = 0 := by
  rw [pickupAdjusted_entries]
  cases h : ts.pickupDone
  · rw [if_neg (by simp), countNote_singleton, createLogEntry_note,
      if_neg (fun hh => hn hh.symm)]
  · rw [if_pos rfl, countNote_nil]

theorem pickupAdjusted_countNote_pickup (ts : TripState) :
    countNote Note.pickup (pickupAdjusted ts).entries =
      if ts.pickupDone then 0 else 1 := by
  rw [pickupAdjusted_entries]
  cases h : ts.pickupDone
  · rw [if_neg (by simp), if_neg (by simp), countNote_singleton, createLogEntry_note,
      if_pos rfl]
  · rw [if_pos rfl, if_pos rfl, countNote_nil]

/-- Mileage/fuel accounting across one work day. -/
theorem buildWorkDay_mileage (tdh : ℚ) (iF : ℕ) (M : ℚ) (ts ts' : TripState)
    (h : buildWorkDay tdh iF ts = some ts')
    (h1 : FUEL_STOP_MILES * ((totalFuelStops ts.dailyLogs : ℕ) : ℚ) + ts.milesSinceFuel
        ≤ M - ts.remainingMiles)
    (h2 : 0 ≤ ts.milesSinceFuel)
    (h3 : ts.remainingMiles = AVG_SPEED_MPH * ts.remainingDrivingHours)
    (h4 : totalFuelStops ts.dailyLogs = 0 ∨
      FUEL_STOP_MILES * ((totalFuelStops ts.dailyLogs : ℕ) : ℚ) < M)
    (h5 : 0 ≤ ts.remainingDrivingHours) :
    FUEL_STOP_MILES * ((totalFuelStops ts'.dailyLogs : ℕ) : ℚ) + ts'.milesSinceFuel
        ≤ M - ts'.remainingMiles ∧
    0 ≤ ts'.milesSinceFuel ∧
    ts'.remainingMiles = AVG_SPEED_MPH * ts'.remainingDrivingHours ∧
    (totalFuelStops ts'.dailyLogs = 0 ∨
      FUEL_STOP_MILES * ((totalFuelStops ts'.dailyLogs : ℕ) : ℚ) < M) ∧
    0 ≤ ts'.remainingDrivingHours := by
  rw [buildWorkDay] at h
  cases hdl : driveLoop (maxDriveOf ts) (maxOnDutyOf ts) iF (pickupAdjusted ts) with
  | none =>
    rw [hdl] at h
    cases h
  | some s2 =>
    rw [hdl] at h
    injection h with h
    subst h
    have hpc : countNote Note.fuelStop (pickupAdjusted ts).entries = 0 :=
      pickupAdjusted_countNote ts Note.fuelStop (by simp)
    obtain ⟨g1, g2, g3, g4, g5⟩ := driveLoop_mileage (maxDriveOf ts) (maxOnDutyOf ts) M
      (totalFuelStops ts.dailyLogs) iF (pickupAdjusted ts) s2 hdl
      (by
        rw [hpc, pickupAdjusted_milesSinceFuel, pickupAdjusted_remainingMiles, Nat.add_zero]
        exact h1)
      (by rw [pickupAdjusted_milesSinceFuel]; exact h2)
      (by rw [pickupAdjusted_remainingMiles, pickupAdjusted_remainingDrivingHours]; exact h3)
      (by rw [hpc, Nat.add_zero]; exact h4)
      (by rw [pickupAdjusted_remainingDrivingHours]; exact h5)
    have hcnt : totalFuelStops (finishDay tdh ts s2).dailyLogs
        = totalFuelStops ts.dailyLogs + countNote Note.fuelStop s2.entries := by
      rw [finishDay_dailyLogs, totalFuelStops_append, totalFuelStops_singleton,
        mkWorkDayLog_entries, restAdjusted_countNote _ _ _ _ (by simp)]
    refine ⟨?_, ?_, ?_, ?_, ?_⟩
    · rw [hcnt, finishDay_milesSinceFuel, finishDay_remainingMiles,
        restAdjusted_milesSinceFuel, restAdjusted_remainingMiles]
      exact g1
    · rw [finishDay_milesSinceFuel, restAdjusted_milesSinceFuel]
      exact g2
    · rw [finishDay_remainingMiles, finishDay_remainingDrivingHours,
        restAdjusted_remainingMiles, restAdjusted_remainingDrivingHours]
      exact g3
    · rw [hcnt]
      exact g4
    · rw [finishDay_remainingDrivingHours, restAdjusted_remainingDrivingHours]
      exact g5

/-- Mileage/fuel accounting through the whole day loop. -/
theorem scheduleLoop_mileage (tdh : ℚ) (iF : ℕ) (M : ℚ) : ∀ (f : ℕ) (ts ts' : TripState),
    scheduleLoop tdh iF f ts = some ts' →
    FUEL_STOP_MILES * ((totalFuelStops ts.dailyLogs : ℕ) : ℚ) + ts.milesSinceFuel
        ≤ M - ts.remainingMiles →
    0 ≤ ts.milesSinceFuel →
    ts.remainingMiles = AVG_SPEED_MPH * ts.remainingDrivingHours →
    (totalFuelStops ts.dailyLogs = 0 ∨
      FUEL_STOP_MILES * ((totalFuelStops ts.dailyLogs : ℕ) : ℚ) < M) →
    0 ≤ ts.remainingDrivingHours →
    FUEL_STOP_MILES * ((totalFuelStops ts'.dailyLogs : ℕ) : ℚ) ≤ M ∧
    (totalFuelStops ts'.dailyLogs = 0 ∨
      FUEL_STOP_MILES * ((totalFuelStops ts'.dailyLogs : ℕ) : ℚ) < M) := by
  intro f
  induction f with
  | zero =>
    intro ts ts' h
    simp [scheduleLoop] at h
  | succ f ih =>
    intro ts ts' h h1 h2 h3 h4 h5
    rw [scheduleLoop_succ] at h
    split_ifs at h with hgo hr1 hr2
    · -- restart at cap
      have htf : totalFuelStops (applyRestart ts).dailyLogs = totalFuelStops ts.dailyLogs := by
        simp [applyRestart_dailyLogs, totalFuelStops_append, totalFuelStops_singleton,
          createRestartLog_countNote _ _ _ (show Note.fuelStop ≠ Note.restart by simp)]
      apply ih _ _ h
      · rw [htf, applyRestart_milesSinceFuel, applyRestart_remainingMiles]
        exact h1
      · rw [applyRestart_milesSinceFuel]
        exact h2
      · rw [applyRestart_remainingMiles, applyRestart_remainingDrivingHours]
        exact h3
      · rw [htf]
        exact h4
      · rw [applyRestart_remainingDrivingHours]
        exact h5
    · -- restart below one hour
      have htf : totalFuelStops (applyRestart ts).dailyLogs = totalFuelStops ts.dailyLogs := by
        simp [applyRestart_dailyLogs, totalFuelStops_append, totalFuelStops_singleton,
          createRestartLog_countNote _ _ _ (show Note.fuelStop ≠ Note.restart by simp)]
      apply ih _ _ h
      · rw [htf, applyRestart_milesSinceFuel, applyRestart_remainingMiles]
        exact h1
      · rw [applyRestart_milesSinceFuel]
        exact h2
      · rw [applyRestart_remainingMiles, applyRestart_remainingDrivingHours]
        exact h3
      · rw [htf]
        exact h4
      · rw [applyRestart_remainingDrivingHours]
        exact h5
    · -- work day
      cases hbw : buildWorkDay tdh iF ts with
      | none =>
        rw [hbw] at h
        cases h
      | some ts2 =>
        rw [hbw] at h
        simp only at h
        obtain ⟨g1, g2, g3, g4, g5⟩ := buildWorkDay_mileage tdh iF M ts ts2 hbw h1 h2 h3 h4 h5
        by_cases hstop : ts2.dropoffDone = true ∧ ts2.remainingDrivingHours ≤ 0
        · rw [if_pos hstop] at h
          injection h with h
          subst h
          refine ⟨?_, g4⟩
          have hrem : 0 ≤ ts2.remainingMiles := by
            rw [g3]
            have hA : (0:ℚ) ≤ AVG_SPEED_MPH := by
              rw [AVG_SPEED_MPH]
              norm_num
            exact mul_nonneg hA g5
          linarith
        · rw [if_neg hstop] at h
          exact ih _ _ h g1 g2 g3 g4 g5
    · -- loop finished before this iteration
      injection h with h
      subst h
      refine ⟨?_, h4⟩
      have hrem : 0 ≤ ts.remainingMiles := by
        rw [h3]
        have hA : (0:ℚ) ≤ AVG_SPEED_MPH := by
          rw [AVG_SPEED_MPH]
          norm_num
        exact mul_nonneg hA h5
      linarith

end HOS

namespace HOS

/-- C10: across any completed run, the number of emitted fuel-stop ON segments
is at most the reported `num_fuel_stops = floor(total_miles / 1000)`; and when
`total_miles` is an exact positive multiple of 1000 the emitted count is at
most `N - 1 < N`, because a fuel stop is only inserted while remaining trip
miles are strictly positive. -/
theorem calculateTrip_fuel_stops (c0 m now : ℚ) (iF oF : ℕ) (plan : TripPlan)
    (hm : 0 ≤ m)
    (h : calculateTrip c0 m now iF oF = some plan) :
    plan.numFuelStops = ⌊m / FUEL_STOP_MILES⌋ ∧
    (totalFuelStops plan.dailyLogs : ℤ) ≤ plan.numFuelStops ∧
    (∀ N : ℕ, m = FUEL_STOP_MILES * N → 1 ≤ N →
      totalFuelStops plan.dailyLogs ≤ N - 1) := by
  rw [calculateTrip] at h
  cases hgen : generateDailySchedule c0 m (m / AVG_SPEED_MPH) now iF oF with
  | none =>
    rw [hgen] at h
    cases h
  | some ts =>
    rw [hgen] at h
    simp only at h
    injection h with h
    subst h
    have h1000 : (0:ℚ) < FUEL_STOP_MILES := by
      rw [FUEL_STOP_MILES]
      norm_num
    have hA : (0:ℚ) < AVG_SPEED_MPH := by
      rw [AVG_SPEED_MPH]
      norm_num
    obtain ⟨g1, g2⟩ := scheduleLoop_mileage (m / AVG_SPEED_MPH) iF m oF
      (initialTripState c0 m (m / AVG_SPEED_MPH) now) ts hgen
      (by
        rw [show (initialTripState c0 m (m / AVG_SPEED_MPH) now).dailyLogs = [] from rfl]
        rw [show totalFuelStops [] = 0 from rfl]
        rw [show (initialTripState c0 m (m / AVG_SPEED_MPH) now).milesSinceFuel = 0 from rfl]
        rw [show (initialTripState c0 m (m / AVG_SPEED_MPH) now).remainingMiles = m from rfl]
        simp)
      le_rfl
      (by
        rw [show (initialTripState c0 m (m / AVG_SPEED_MPH) now).remainingMiles = m from rfl]
        rw [show (initialTripState c0 m (m / AVG_SPEED_MPH) now).remainingDrivingHours
          = m / AVG_SPEED_MPH from rfl]
        field_simp)
      (Or.inl rfl)
      (by
        rw [show (initialTripState c0 m (m / AVG_SPEED_MPH) now).remainingDrivingHours
          = m / AVG_SPEED_MPH from rfl]
        positivity)
    refine ⟨rfl, ?_, ?_⟩
    · show ((totalFuelStops ts.dailyLogs : ℤ) : ℤ) ≤ ⌊m / FUEL_STOP_MILES⌋
      rw [Int.le_floor]
      rw [le_div_iff h1000]
      push_cast
      linarith
    · intro N hN h1N
      show totalFuelStops ts.dailyLogs ≤ N - 1
      rcases g2 with g2 | g2
      · rw [g2]
        omega
      · rw [hN] at g2
        have : (totalFuelStops ts.dailyLogs : ℚ) < (N : ℚ) := by
          have := (mul_lt_mul_left h1000).1 g2
          exact_mod_cast this
        have : totalFuelStops ts.dailyLogs < N := by exact_mod_cast this
        omega

def w1000 : TripPlan := (calculateTrip 0 1000 0 20 2).getD default

theorem calculateTrip1000 : calculateTrip 0 1000 0 20 2 = some w1000 := by
  rw [show w1000 = (calculateTrip 0 1000 0 20 2).getD default from rfl]
  simp only [calculateTrip, run1000, Option.getD_some]

theorem calculateTrip_fuel_stops_witness :
    (0:ℚ) ≤ 1000 ∧ calculateTrip 0 1000 0 20 2 = some w1000 ∧
    (w1000.numFuelStops = ⌊(1000:ℚ) / FUEL_STOP_MILES⌋ ∧
     (totalFuelStops w1000.dailyLogs : ℤ) ≤ w1000.numFuelStops ∧
     (∀ N : ℕ, (1000:ℚ) = FUEL_STOP_MILES * N → 1 ≤ N →
       totalFuelStops w1000.dailyLogs ≤ N - 1)) :=
  ⟨by norm_num, calculateTrip1000,
    calculateTrip_fuel_stops 0 1000 0 20 2 w1000 (by norm_num) calculateTrip1000⟩

end HOS

namespace HOS

/-! ## The internal cycle counter equals the fold over the emitted day logs -/

theorem sumOnDuty_exact (es : List LogEntry) (h : ∀ e ∈ es, exact2 e.duration) :
    exact2 (sumOnDuty es) := by
  induction es with
  | nil => exact exact2_zero
  | cons e es ih =>
    rw [sumOnDuty_cons]
    refine exact2_add ?_ (ih fun x hx => h x (List.mem_cons_of_mem e hx))
    split_ifs
    · exact h e (List.mem_cons_self e es)
    · exact exact2_zero

theorem sumDriving_exact (es : List LogEntry) (h : ∀ e ∈ es, exact2 e.duration) :
    exact2 (sumDriving es) := by
  induction es with
  | nil => exact exact2_zero
  | cons e es ih =>
    rw [sumDriving_cons]
    refine exact2_add ?_ (ih fun x hx => h x (List.mem_cons_of_mem e hx))
    split_ifs
    · exact h e (List.mem_cons_self e es)
    · exact exact2_zero

theorem pickupAdjusted_durations_exact (ts : TripState) :
    ∀ e ∈ (pickupAdjusted ts).entries, exact2 e.duration := by
  rw [pickupAdjusted_entries]
  split_ifs
  · intro e he
    cases he
  · intro e he
    rw [List.mem_singleton.1 he, createLogEntry_duration]
    exact exact2_round2 _

theorem restAdjusted_durations_exact (tdh : ℚ) (dn : ℕ) (s2 : DayState)
    (h : ∀ e ∈ s2.entries, exact2 e.duration) :
    ∀ e ∈ (restAdjusted tdh dn s2).entries, exact2 e.duration := by
  rw [restAdjusted]
  split
  · intro e he
    rcases List.mem_append.1 he with he | he
    · exact h e he
    · rw [List.mem_singleton.1 he, createLogEntry_duration]
      exact exact2_round2 _
  · exact h

/-- A completed work day appends one non-restart log whose stored on-duty
total is two-decimal-exact and is exactly what the internal counter gains. -/
theorem buildWorkDay_cycle (tdh : ℚ) (iF : ℕ) (ts ts' : TripState)
    (h : buildWorkDay tdh iF ts = some ts') :
    ∃ L : DayLog, ts'.dailyLogs = ts.dailyLogs ++ [L] ∧ L.isRestart = false ∧
      exact2 L.totalOnDutyHours ∧
      ts'.currentCycle = ts.currentCycle + L.totalOnDutyHours := by
  rw [buildWorkDay] at h
  cases hdl : driveLoop (maxDriveOf ts) (maxOnDutyOf ts) iF (pickupAdjusted ts) with
  | none =>
    rw [hdl] at h
    cases h
  | some s2 =>
    rw [hdl] at h
    injection h with h
    subst h
    have hex : ∀ e ∈ (restAdjusted tdh ts.dayNumber s2).entries, exact2 e.duration :=
      restAdjusted_durations_exact tdh ts.dayNumber s2
        (driveLoop_durations_exact (maxDriveOf ts) (maxOnDutyOf ts) iF (pickupAdjusted ts) s2
          hdl (pickupAdjusted_durations_exact ts))
    have hsum : exact2 (sumOnDuty (restAdjusted tdh ts.dayNumber s2).entries) :=
      sumOnDuty_exact _ hex
    refine ⟨mkWorkDayLog ts (restAdjusted tdh ts.dayNumber s2), finishDay_dailyLogs tdh ts s2,
      mkWorkDayLog_isRestart ts _, ?_, ?_⟩
    · rw [mkWorkDayLog_totalOnDutyHours]
      exact exact2_round2 _
    · rw [finishDay_currentCycle, mkWorkDayLog_totalOnDutyHours, hsum]

/-- The simulation's internal cumulative cycle counter is, at every point,
exactly the fold of `_calculate_final_cycle_usage`'s recurrence (without its
final rounding) over the emitted day logs; it is also two-decimal-exact as
soon as the starting cycle usage is. -/
theorem scheduleLoop_cycle_fold (tdh : ℚ) (iF : ℕ) (c : ℚ) :
    ∀ (f : ℕ) (ts ts' : TripState),
    scheduleLoop tdh iF f ts = some ts' →
    foldCycleUsage c ts.dailyLogs = ts.currentCycle →
    exact2 ts.currentCycle →
    foldCycleUsage c ts'.dailyLogs = ts'.currentCycle ∧ exact2 ts'.currentCycle := by
  intro f
  induction f with
  | zero =>
    intro ts ts' h
    simp [scheduleLoop] at h
  | succ f ih =>
    intro ts ts' h h1 h2
    rw [scheduleLoop_succ] at h
    split_ifs at h with hgo hr1 hr2
    · apply ih _ _ h
      · rw [applyRestart_dailyLogs, foldCycleUsage_append, h1,
          foldCycleUsage_restart _ _ (createRestartLog_isRestart _ _),
          applyRestart_currentCycle]
      · rw [applyRestart_currentCycle]
        exact exact2_zero
    · apply ih _ _ h
      · rw [applyRestart_dailyLogs, foldCycleUsage_append, h1,
          foldCycleUsage_restart _ _ (createRestartLog_isRestart _ _),
          applyRestart_currentCycle]
      · rw [applyRestart_currentCycle]
        exact exact2_zero
    · cases hbw : buildWorkDay tdh iF ts with
      | none =>
        rw [hbw] at h
        cases h
      | some ts2 =>
        rw [hbw] at h
        simp only at h
        obtain ⟨L, hL1, hL2, hL3, hL4⟩ := buildWorkDay_cycle tdh iF ts ts2 hbw
        have hnext1 : foldCycleUsage c ts2.dailyLogs = ts2.currentCycle := by
          rw [hL1, foldCycleUsage_append, h1, foldCycleUsage_work _ _ hL2, hL4]
        have hnext2 : exact2 ts2.currentCycle := by
          rw [hL4]
          exact exact2_add h2 hL3
        by_cases hstop : ts2.dropoffDone = true ∧ ts2.remainingDrivingHours ≤ 0
        · rw [if_pos hstop] at h
          injection h with h
          subst h
          exact ⟨hnext1, hnext2⟩
        · rw [if_neg hstop] at h
          exact ih _ _ h hnext1 hnext2
    · injection h with h
      subst h
      exact ⟨h1, h2⟩

/-- C8 (amended): when `current_cycle_used` is itself exactly representable at
two decimals (every entry duration the engine stores already is), the value
re-derived by `_calculate_final_cycle_usage` equals the simulation's internal
cumulative cycle counter at the end of the day loop exactly; without that
restriction only the final `round(.., 2)` can make them differ. -/
theorem cycle_recomputation_agrees (c0 m tdh now : ℚ) (iF oF : ℕ) (ts : TripState)
    (hc0 : exact2 c0)
    (h : generateDailySchedule c0 m tdh now iF oF = some ts) :
    calculateFinalCycleUsage c0 ts.dailyLogs = ts.currentCycle := by
  obtain ⟨h1, h2⟩ := scheduleLoop_cycle_fold tdh iF c0 oF
    (initialTripState c0 m tdh now) ts h rfl hc0
  rw [calculateFinalCycleUsage, h1]
  exact h2

theorem cycle_recomputation_agrees_witness :
    exact2 0 ∧
    generateDailySchedule 0 300 (300 / AVG_SPEED_MPH) 0 12 1 = some st300fin ∧
    calculateFinalCycleUsage 0 st300fin.dailyLogs = st300fin.currentCycle :=
  ⟨exact2_zero, run300,
    cycle_recomputation_agrees 0 300 (300 / AVG_SPEED_MPH) 0 12 1 st300fin exact2_zero run300⟩

end HOS

namespace HOS

theorem append_singleton_split {α : Type} (logs : List α) (L : α) (pre : List α) (r : α)
    (post : List α) (h : logs ++ [L] = pre ++ r :: post) :
    (pre = logs ∧ r = L ∧ post = []) ∨ (∃ mid, logs = pre ++ r :: mid) := by
  rcases List.eq_nil_or_concat post with rfl | ⟨ps, p, rfl⟩
  · left
    have hlen : logs.length = pre.length := by
      have := congrArg List.length h
      simp at this
      omega
    obtain ⟨h1, h2⟩ := List.append_inj h hlen
    have h3 : r = L := by
      simpa using h2.symm
    exact ⟨h1.symm, h3, rfl⟩
  · right
    have h2 : logs ++ [L] = (pre ++ r :: ps) ++ [p] := by
      rw [h]
      simp
    have hlen : logs.length = (pre ++ r :: ps).length := by
      have := congrArg List.length h2
      simp at this
      simp
      omega
    obtain ⟨h3, _⟩ := List.append_inj h2 hlen
    exact ⟨ps, h3⟩

theorem pickupAdjusted_sumOnDuty (ts : TripState) :
    sumOnDuty (pickupAdjusted ts).entries = (pickupAdjusted ts).hoursOnDuty := by
  rw [pickupAdjusted_entries, pickupAdjusted_hoursOnDuty]
  cases h : ts.pickupDone
  · rw [if_neg (by simp), if_neg (by simp), sumOnDuty_singleton, createLogEntry_status,
      createLogEntry_duration, round2_PICKUP_DURATION]
    simp
  · rw [if_pos rfl, if_pos rfl, sumOnDuty_nil]

/-- On a work day that does not finish the trip, the internal cycle counter
grows by at most `max_on_duty_hours + one fuel stop + 1/200 rounding slack`,
hence by at most the available cycle hours plus 101/200. -/
theorem buildWorkDay_onDutyBound (tdh : ℚ) (iF : ℕ) (ts ts' : TripState)
    (h : buildWorkDay tdh iF ts = some ts')
    (hacy : 1 ≤ MAX_CYCLE_HOURS - ts.currentCycle)
    (hdrop : ts.dropoffDone = false)
    (hdrop2 : ts'.dropoffDone = false) :
    ts'.currentCycle ≤ ts.currentCycle + (maxOnDutyOf ts + FUEL_STOP_DURATION + 1/200) := by
  rw [buildWorkDay] at h
  cases hdl : driveLoop (maxDriveOf ts) (maxOnDutyOf ts) iF (pickupAdjusted ts) with
  | none =>
    rw [hdl] at h
    cases h
  | some s2 =>
    rw [hdl] at h
    injection h with h
    subst h
    have hflag2 : s2.dropoffDone = false := by
      rw [finishDay_dropoffDone, restAdjusted_dropoffDone] at hdrop2
      exact hdrop2
    have hflagpa : (pickupAdjusted ts).dropoffDone = false := by
      rw [pickupAdjusted_dropoffDone]
      exact hdrop
    obtain ⟨hmono, hbound⟩ :=
      driveLoop_hoursOnDuty (maxDriveOf ts) (maxOnDutyOf ts) iF (pickupAdjusted ts) s2 hdl
    have hbound2 := hbound (by rw [hflag2, hflagpa])
    obtain ⟨hs1, hs2⟩ := driveLoop_sums (maxDriveOf ts) (maxOnDutyOf ts) iF
      (pickupAdjusted ts) s2 hdl
      (by rw [pickupAdjusted_hoursSinceBreak]; exact exact2_zero)
    rw [pickupAdjusted_sumOnDuty] at hs2
    have hpaod : (pickupAdjusted ts).hoursOnDuty ≤ maxOnDutyOf ts + FUEL_STOP_DURATION := by
      rw [pickupAdjusted_hoursOnDuty]
      have hmaxod : (1:ℚ) ≤ maxOnDutyOf ts := by
        rw [maxOnDutyOf, MAX_ON_DUTY_HOURS]
        exact le_min (by norm_num) hacy
      have hfd : (0:ℚ) ≤ FUEL_STOP_DURATION := by
        rw [FUEL_STOP_DURATION]
        norm_num
      split_ifs with hpk
      · linarith
      · rw [PICKUP_DURATION]
        linarith
    have hmax : max (pickupAdjusted ts).hoursOnDuty (maxOnDutyOf ts + FUEL_STOP_DURATION)
        = maxOnDutyOf ts + FUEL_STOP_DURATION := max_eq_right hpaod
    rw [hmax] at hbound2
    rw [finishDay_currentCycle, restAdjusted_sumOnDuty]
    linarith

/-- Through the whole loop: whenever a restart day is emitted, the running
cycle usage just before it (the fold of the preceding logs) is at most
`MAX_CYCLE_HOURS + 101/200`. -/
theorem scheduleLoop_restart_cap (tdh : ℚ) (iF : ℕ) (c : ℚ) :
    ∀ (f : ℕ) (ts ts' : TripState),
    scheduleLoop tdh iF f ts = some ts' →
    foldCycleUsage c ts.dailyLogs = ts.currentCycle →
    ts.currentCycle ≤ MAX_CYCLE_HOURS + 101/200 →
    ts.dropoffDone = false →
    (∀ pre r post, ts.dailyLogs = pre ++ r :: post → r.isRestart = true →
      foldCycleUsage c pre ≤ MAX_CYCLE_HOURS + 101/200) →
    (∀ pre r post, ts'.dailyLogs = pre ++ r :: post → r.isRestart = true →
      foldCycleUsage c pre ≤ MAX_CYCLE_HOURS + 101/200) := by
  intro f
  induction f with
  | zero =>
    intro ts ts' h
    simp [scheduleLoop] at h
  | succ f ih =>
    intro ts ts' h h1 h2 h3 h4
    rw [scheduleLoop_succ] at h
    split_ifs at h with hgo hr1 hr2
    · -- restart at cap
      have hnewP : ∀ pre r post,
          (applyRestart ts).dailyLogs = pre ++ r :: post → r.isRestart = true →
          foldCycleUsage c pre ≤ MAX_CYCLE_HOURS + 101/200 := by
        intro pre r post hsplit hres
        rw [applyRestart_dailyLogs] at hsplit
        rcases append_singleton_split _ _ _ _ _ hsplit with ⟨rfl, _, _⟩ | ⟨mid, hmid⟩
        · rw [h1]
          exact h2
        · exact h4 pre r mid hmid hres
      apply ih _ _ h
      · rw [applyRestart_dailyLogs, foldCycleUsage_append, h1,
          foldCycleUsage_restart _ _ (createRestartLog_isRestart _ _),
          applyRestart_currentCycle]
      · rw [applyRestart_currentCycle, MAX_CYCLE_HOURS]
        norm_num
      · rw [applyRestart_dropoffDone]
        exact h3
      · exact hnewP
    · -- restart below one hour (identical)
      have hnewP : ∀ pre r post,
          (applyRestart ts).dailyLogs = pre ++ r :: post → r.isRestart = true →
          foldCycleUsage c pre ≤ MAX_CYCLE_HOURS + 101/200 := by
        intro pre r post hsplit hres
        rw [applyRestart_dailyLogs] at hsplit
        rcases append_singleton_split _ _ _ _ _ hsplit with ⟨rfl, _, _⟩ | ⟨mid, hmid⟩
        · rw [h1]
          exact h2
        · exact h4 pre r mid hmid hres
      apply ih _ _ h
      · rw [applyRestart_dailyLogs, foldCycleUsage_append, h1,
          foldCycleUsage_restart _ _ (createRestartLog_isRestart _ _),
          applyRestart_currentCycle]
      · rw [applyRestart_currentCycle, MAX_CYCLE_HOURS]
        norm_num
      · rw [applyRestart_dropoffDone]
        exact h3
      · exact hnewP
    · -- work day
      cases hbw : buildWorkDay tdh iF ts with
      | none =>
        rw [hbw] at h
        cases h
      | some ts2 =>
        rw [hbw] at h
        simp only at h
        obtain ⟨L, hL1, hL2, hL3, hL4⟩ := buildWorkDay_cycle tdh iF ts ts2 hbw
        have hnewP : ∀ pre r post, ts2.dailyLogs = pre ++ r :: post → r.isRestart = true →
            foldCycleUsage c pre ≤ MAX_CYCLE_HOURS + 101/200 := by
          intro pre r post hsplit hres
          rw [hL1] at hsplit
          rcases append_singleton_split _ _ _ _ _ hsplit with ⟨_, rfl, _⟩ | ⟨mid, hmid⟩
          · rw [hL2] at hres
            cases hres
          · exact h4 pre r mid hmid hres
        have hnew1 : foldCycleUsage c ts2.dailyLogs = ts2.currentCycle := by
          rw [hL1, foldCycleUsage_append, h1, foldCycleUsage_work _ _ hL2, hL4]
        by_cases hstop : ts2.dropoffDone = true ∧ ts2.remainingDrivingHours ≤ 0
        · rw [if_pos hstop] at h
          injection h with h
          subst h
          exact hnewP
        · rw [if_neg hstop] at h
          have hdrop2 : ts2.dropoffDone = false := by
            by_contra hcon
            have hh : ts2.dropoffDone = true := by
              simp at hcon
              exact hcon
            have hrdh : ts2.remainingDrivingHours ≤ 0 := by
              rw [buildWorkDay] at hbw
              cases hdl : driveLoop (maxDriveOf ts) (maxOnDutyOf ts) iF
                  (pickupAdjusted ts) with
              | none =>
                rw [hdl] at hbw
                cases hbw
              | some s2 =>
                rw [hdl] at hbw
                injection hbw with hbw
                subst hbw
                obtain ⟨_, _, hflip, _⟩ :=
                  driveLoop_counts (maxDriveOf ts) (maxOnDutyOf ts) iF
                    (pickupAdjusted ts) s2 hdl
                rw [finishDay_dropoffDone, restAdjusted_dropoffDone] at hh
                rw [finishDay_remainingDrivingHours, restAdjusted_remainingDrivingHours]
                exact hflip (by rw [pickupAdjusted_dropoffDone]; exact h3) hh
            exact hstop ⟨hh, hrdh⟩
          have hcap2 : ts2.currentCycle ≤ MAX_CYCLE_HOURS + 101/200 := by
            have hb := buildWorkDay_onDutyBound tdh iF ts ts2 hbw
              (by rw [MAX_CYCLE_HOURS]; rw [MAX_CYCLE_HOURS] at hr2; linarith) h3 hdrop2
            have hmin : maxOnDutyOf ts ≤ MAX_CYCLE_HOURS - ts.currentCycle := by
              rw [maxOnDutyOf]
              exact min_le_right _ _
            rw [FUEL_STOP_DURATION] at hb
            linarith
          exact ih _ _ h hnew1 hcap2 hdrop2 hnewP
    · -- already finished
      injection h with h
      subst h
      exact h4

end HOS

namespace HOS

/-- C6 (amended): for every completed run with a starting cycle usage at most
the 70-hour cap, the running cumulative on-duty total re-derived from the log
sequence is exactly zero immediately after every restart DayLog, and just
before each restart it is at most `MAX_CYCLE_HOURS + 101/200` (= 70.505): the
cap may be overshot, but only by the final day's pickup/fuel on-duty slack
(one half hour of fuel stop plus 1/200 of per-entry rounding) on top of the
at-most-`70 − cycle` duty window.  The original claim's bound of exactly 70 is
refuted separately. -/
theorem c6_amended_cycle_cap (c0 m tdh now : ℚ) (iF oF : ℕ) (ts : TripState)
    (hcap : c0 ≤ MAX_CYCLE_HOURS)
    (h : generateDailySchedule c0 m tdh now iF oF = some ts) :
    ∀ pre r post, ts.dailyLogs = pre ++ r :: post → r.isRestart = true →
      foldCycleUsage c0 pre ≤ MAX_CYCLE_HOURS + 101/200 ∧
      foldCycleUsage c0 (pre ++ [r]) = 0 := by
  intro pre r post hsplit hres
  constructor
  · apply scheduleLoop_restart_cap tdh iF c0 oF
      (initialTripState c0 m tdh now) ts h rfl
      (by rw [initialTripState]; rw [MAX_CYCLE_HOURS] at hcap ⊢; linarith) rfl
      _ pre r post hsplit hres
    intro pre' r' post' habs
    exfalso
    have := congrArg List.length habs
    simp [initialTripState] at this
    omega
  · rw [foldCycleUsage_append, foldCycleUsage_restart _ _ hres]

theorem c6_amended_cycle_cap_witness :
    foldCycleUsage 68 (st68x100fin.dailyLogs.take 1) ≤ MAX_CYCLE_HOURS + 101/200 ∧
    foldCycleUsage 68 (st68x100fin.dailyLogs.take 2) = 0 := by
  have hsplit : st68x100fin.dailyLogs = st68x100fin.dailyLogs.take 1 ++
      st68x100fin.dailyLogs.getD 1 default :: st68x100fin.dailyLogs.drop 2 := by
    decide
  have hres : (st68x100fin.dailyLogs.getD 1 default).isRestart = true := by
    decide
  have hmain := c6_amended_cycle_cap 68 100 (100 / AVG_SPEED_MPH) 0 6 3 st68x100fin
    (by rw [MAX_CYCLE_HOURS]; norm_num) run68x100 _ _ _ hsplit hres
  refine ⟨hmain.1, ?_⟩
  have htake : st68x100fin.dailyLogs.take 2 = st68x100fin.dailyLogs.take 1 ++
      [st68x100fin.dailyLogs.getD 1 default] := by decide
  rw [htake]
  exact hmain.2

end HOS

namespace HOS

theorem pickupAdjusted_sumDriving (ts : TripState) :
    sumDriving (pickupAdjusted ts).entries = 0 := by
  rw [pickupAdjusted_entries]
  cases h : ts.pickupDone
  · rw [if_neg (by simp), sumDriving_singleton, createLogEntry_status,
      if_neg (by simp)]
  · rw [if_pos rfl, sumDriving_nil]

/-- Every entry the inner loop appends is a driving segment, a half-hour fuel
stop or a one-hour dropoff (breaks are OFF), so the on-duty sum it adds equals
the driving sum it adds plus the fuel-stop and dropoff contributions. -/
theorem driveLoop_onDuty_decomp (maxD maxOD : ℚ) : ∀ (f : ℕ) (s s' : DayState),
    driveLoop maxD maxOD f s = some s' →
    ∃ a b : ℕ,
      countNote Note.fuelStop s'.entries = countNote Note.fuelStop s.entries + a ∧
      countNote Note.dropoff s'.entries = countNote Note.dropoff s.entries + b ∧
      sumOnDuty s'.entries = sumOnDuty s.entries
        + (sumDriving s'.entries - sumDriving s.entries)
        + FUEL_STOP_DURATION * (a : ℚ) + DROPOFF_DURATION * (b : ℚ) := by
  intro f
  induction f with
  | zero =>
    intro s s' h
    simp [driveLoop] at h
  | succ f ih =>
    intro s s' h
    rw [driveLoop_succ] at h
    split_ifs at h with hc hb hf he hdp
    · -- break: an OFF entry, no counts, no on-duty change
      obtain ⟨a, b, h1, h2, h3⟩ := ih _ _ h
      simp only [afterBreak_entries, countNote_append, countNote_singleton,
        sumOnDuty_append, sumOnDuty_singleton, sumDriving_append, sumDriving_singleton,
        createLogEntry_note, createLogEntry_status, reduceCtorEq, if_false, or_self,
        add_zero] at h1 h2 h3
      exact ⟨a, b, by omega, by omega, by linarith⟩
    · -- fuel stop: one ON entry of exactly FUEL_STOP_DURATION
      obtain ⟨a, b, h1, h2, h3⟩ := ih _ _ h
      simp only [afterFuel_entries, countNote_append, countNote_singleton,
        sumOnDuty_append, sumOnDuty_singleton, sumDriving_append, sumDriving_singleton,
        createLogEntry_note, createLogEntry_status, createLogEntry_duration,
        round2_FUEL_STOP_DURATION, reduceCtorEq, eq_self_iff_true, if_true, if_false,
        or_false, or_true, or_self, add_zero] at h1 h2 h3
      refine ⟨a + 1, b, by omega, by omega, ?_⟩
      push_cast
      linarith
    · -- epsilon exit
      obtain rfl : s = s' := by injection h
      refine ⟨0, 0, by omega, by omega, ?_⟩
      push_cast
      ring
    · -- dropoff: the driving segment plus a one-hour ON dropoff entry
      obtain rfl : afterDrop (afterDrive maxD maxOD s) = s' := by injection h
      refine ⟨0, 1, ?_, ?_, ?_⟩
      · rw [afterDrop_entries, afterDrive_entries, countNote_append, countNote_append,
          countNote_singleton, countNote_singleton, createLogEntry_note, createLogEntry_note]
        simp
      · rw [afterDrop_entries, afterDrive_entries, countNote_append, countNote_append,
          countNote_singleton, countNote_singleton, createLogEntry_note, createLogEntry_note]
        simp
      · rw [afterDrop_entries, afterDrive_entries]
        rw [sumOnDuty_append, sumOnDuty_append, sumOnDuty_singleton, sumOnDuty_singleton,
          sumDriving_append, sumDriving_append, sumDriving_singleton, sumDriving_singleton,
          createLogEntry_status, createLogEntry_status, createLogEntry_duration,
          createLogEntry_duration, round2_DROPOFF_DURATION]
        simp only [reduceCtorEq, if_false, if_true, or_false, or_true, add_zero]
        push_cast
        ring
    · -- driving segment, loop continues
      obtain ⟨a, b, h1, h2, h3⟩ := ih _ _ h
      simp only [afterDrive_entries, countNote_append, countNote_singleton,
        sumOnDuty_append, sumOnDuty_singleton, sumDriving_append, sumDriving_singleton,
        createLogEntry_note, createLogEntry_status, createLogEntry_duration,
        reduceCtorEq, if_false, if_true, or_false, or_true, or_self, true_or,
        eq_self_iff_true, add_zero] at h1 h2 h3
      exact ⟨a, b, by omega, by omega, by linarith⟩
    · -- loop guard false
      obtain rfl : s = s' := by injection h
      refine ⟨0, 0, by omega, by omega, ?_⟩
      push_cast
      ring

/-- Every log a work day appends respects the daily 11-hour driving cap and
the 14-hour duty-window cap. -/
theorem buildWorkDay_caps (tdh : ℚ) (iF : ℕ) (ts ts' : TripState)
    (h : buildWorkDay tdh iF ts = some ts') :
    ∀ l ∈ ts'.dailyLogs, l ∈ ts.dailyLogs ∨
      (l.totalDrivingHours ≤ MAX_DRIVING_HOURS ∧ l.totalOnDutyHours ≤ MAX_ON_DUTY_HOURS) := by
  rw [buildWorkDay] at h
  cases hdl : driveLoop (maxDriveOf ts) (maxOnDutyOf ts) iF (pickupAdjusted ts) with
  | none =>
    rw [hdl] at h
    cases h
  | some s2 =>
    rw [hdl] at h
    injection h with h
    subst h
    intro l hl
    rw [finishDay_dailyLogs] at hl
    rcases List.mem_append.1 hl with hin | hone
    · exact Or.inl hin
    · right
      rw [List.mem_singleton.1 hone]
      rw [mkWorkDayLog_totalDrivingHours, mkWorkDayLog_totalOnDutyHours]
      have hexpa := pickupAdjusted_durations_exact ts
      have hexs2 := driveLoop_durations_exact (maxDriveOf ts) (maxOnDutyOf ts) iF
        (pickupAdjusted ts) s2 hdl hexpa
      have hexs3 := restAdjusted_durations_exact tdh ts.dayNumber s2 hexs2
      have hDex := sumDriving_exact _ hexs3
      have hODex := sumOnDuty_exact _ hexs3
      -- driving cap
      obtain ⟨hs1, _⟩ := driveLoop_sums (maxDriveOf ts) (maxOnDutyOf ts) iF
        (pickupAdjusted ts) s2 hdl
        (by rw [pickupAdjusted_hoursSinceBreak]; exact exact2_zero)
      rw [pickupAdjusted_sumDriving, pickupAdjusted_hoursDriven] at hs1
      obtain ⟨_, hdrv⟩ := driveLoop_hoursDriven (maxDriveOf ts) (maxOnDutyOf ts) iF
        (pickupAdjusted ts) s2 hdl
      rw [pickupAdjusted_hoursDriven] at hdrv
      have hmd : maxDriveOf ts ≤ MAX_DRIVING_HOURS := by
        rw [maxDriveOf]
        exact le_trans (min_le_left _ _) (min_le_left _ _)
      have hmax11 : max (0:ℚ) (maxDriveOf ts) ≤ MAX_DRIVING_HOURS := by
        apply max_le _ hmd
        rw [MAX_DRIVING_HOURS]
        norm_num
      have hsd3 : sumDriving (restAdjusted tdh ts.dayNumber s2).entries
          = sumDriving s2.entries := restAdjusted_sumDriving tdh ts.dayNumber s2
      have hDle : sumDriving (restAdjusted tdh ts.dayNumber s2).entries
          ≤ MAX_DRIVING_HOURS := by
        apply exact2_le_of_le_add hDex (by rw [MAX_DRIVING_HOURS]; exact exact2_num 11)
        rw [hsd3]
        linarith
      have hDround : round2 (sumDriving (restAdjusted tdh ts.dayNumber s2).entries)
          = sumDriving (restAdjusted tdh ts.dayNumber s2).entries := hDex
      constructor
      · rw [hDround]
        exact hDle
      -- on-duty cap
      · obtain ⟨a, b, hfa, hba, hsum⟩ := driveLoop_onDuty_decomp (maxDriveOf ts)
          (maxOnDutyOf ts) iF (pickupAdjusted ts) s2 hdl
        have hale : a ≤ 1 := by
          have := driveLoop_fuel_le_one (maxDriveOf ts) (maxOnDutyOf ts) hmd iF
            (pickupAdjusted ts) s2 hdl
            (by rw [pickupAdjusted_hoursDriven, MAX_DRIVING_HOURS]; norm_num)
            (by rw [pickupAdjusted_hoursDriven])
          omega
        have hble : b ≤ 1 := by
          obtain ⟨_, hflipf, _, hdone⟩ := driveLoop_counts (maxDriveOf ts)
            (maxOnDutyOf ts) iF (pickupAdjusted ts) s2 hdl
          cases hpd : (pickupAdjusted ts).dropoffDone
          · have := hflipf hpd
            split_ifs at this <;> omega
          · obtain ⟨_, hcnt⟩ := hdone hpd
            omega
        have hpaod : sumOnDuty (pickupAdjusted ts).entries ≤ PICKUP_DURATION := by
          rw [pickupAdjusted_sumOnDuty, pickupAdjusted_hoursOnDuty]
          split_ifs
          · rw [PICKUP_DURATION]
            norm_num
          · exact le_refl _
        have hsd2le : sumDriving s2.entries ≤ MAX_DRIVING_HOURS + 1/200 := by
          linarith
        have haq : (a : ℚ) ≤ 1 := by exact_mod_cast hale
        have hbq : (b : ℚ) ≤ 1 := by exact_mod_cast hble
        have haq0 : (0:ℚ) ≤ (a : ℚ) := Nat.cast_nonneg a
        have hbq0 : (0:ℚ) ≤ (b : ℚ) := Nat.cast_nonneg b
        have hOD3 : sumOnDuty (restAdjusted tdh ts.dayNumber s2).entries
            = sumOnDuty s2.entries := restAdjusted_sumOnDuty tdh ts.dayNumber s2
        have hsdpa0 : (0:ℚ) ≤ sumDriving (pickupAdjusted ts).entries := by
          rw [pickupAdjusted_sumDriving]
        have hODle : sumOnDuty (restAdjusted tdh ts.dayNumber s2).entries
            ≤ MAX_ON_DUTY_HOURS := by
          rw [hOD3, hsum, pickupAdjusted_sumDriving]
          rw [MAX_ON_DUTY_HOURS]
          rw [MAX_DRIVING_HOURS] at hsd2le
          rw [PICKUP_DURATION] at hpaod
          rw [FUEL_STOP_DURATION, DROPOFF_DURATION]
          nlinarith
        have hODround : round2 (sumOnDuty (restAdjusted tdh ts.dayNumber s2).entries)
            = sumOnDuty (restAdjusted tdh ts.dayNumber s2).entries := hODex
        rw [hODround]
        exact hODle

end HOS

namespace HOS

/-- Through the whole loop, every emitted log is either a restart day or
respects both daily caps. -/
theorem scheduleLoop_caps (tdh : ℚ) (iF : ℕ) : ∀ (f : ℕ) (ts ts' : TripState),
    scheduleLoop tdh iF f ts = some ts' →
    ∀ l ∈ ts'.dailyLogs, l ∈ ts.dailyLogs ∨ l.isRestart = true ∨
      (l.totalDrivingHours ≤ MAX_DRIVING_HOURS ∧ l.totalOnDutyHours ≤ MAX_ON_DUTY_HOURS) := by
  intro f
  induction f with
  | zero =>
    intro ts ts' h
    simp [scheduleLoop] at h
  | succ f ih =>
    intro ts ts' h
    rw [scheduleLoop_succ] at h
    split_ifs at h with hgo hr1 hr2
    · intro l hl
      rcases ih _ _ h l hl with hin | hrest
      · rw [applyRestart_dailyLogs] at hin
        rcases List.mem_append.1 hin with hin2 | hone
        · exact Or.inl hin2
        · right
          left
          rw [List.mem_singleton.1 hone]
          exact createRestartLog_isRestart _ _
      · exact Or.inr hrest
    · intro l hl
      rcases ih _ _ h l hl with hin | hrest
      · rw [applyRestart_dailyLogs] at hin
        rcases List.mem_append.1 hin with hin2 | hone
        · exact Or.inl hin2
        · right
          left
          rw [List.mem_singleton.1 hone]
          exact createRestartLog_isRestart _ _
      · exact Or.inr hrest
    · cases hbw : buildWorkDay tdh iF ts with
      | none =>
        rw [hbw] at h
        cases h
      | some ts2 =>
        rw [hbw] at h
        simp only at h
        by_cases hstop : ts2.dropoffDone = true ∧ ts2.remainingDrivingHours ≤ 0
        · rw [if_pos hstop] at h
          injection h with h
          subst h
          intro l hl
          rcases buildWorkDay_caps tdh iF ts ts2 hbw l hl with hin | hcaps
          · exact Or.inl hin
          · exact Or.inr (Or.inr hcaps)
        · rw [if_neg hstop] at h
          intro l hl
          rcases ih _ _ h l hl with hin | hrest
          · rcases buildWorkDay_caps tdh iF ts ts2 hbw l hin with hin2 | hcaps
            · exact Or.inl hin2
            · exact Or.inr (Or.inr hcaps)
          · exact Or.inr hrest
    · injection h with h
      subst h
      intro l hl
      exact Or.inl hl

/-- C3: in every completed run, every non-restart DayLog's stored
`total_driving_hours` is at most the 11-hour daily driving cap and its
`total_on_duty_hours` is at most the 14-hour duty-window cap (the dropoff day
included): the raw driven hours never exceed `max_drive_hours ≤ 11`, the
stored driving total is a two-decimal-exact sum that trails the raw counter by
less than 1/200, and the on-duty total adds at most one 1-hour pickup, one
half-hour fuel stop and one 1-hour dropoff on top of it, for a worst case of
13.505 ≤ 14. -/
theorem daylog_caps (c0 m tdh now : ℚ) (iF oF : ℕ) (ts : TripState)
    (h : generateDailySchedule c0 m tdh now iF oF = some ts) :
    ∀ l ∈ ts.dailyLogs, l.isRestart = false →
      l.totalDrivingHours ≤ MAX_DRIVING_HOURS ∧ l.totalOnDutyHours ≤ MAX_ON_DUTY_HOURS := by
  intro l hl hres
  rcases scheduleLoop_caps tdh iF oF (initialTripState c0 m tdh now) ts h l hl with
    hin | hr | hcaps
  · simp [initialTripState] at hin
  · rw [hres] at hr
    cases hr
  · exact hcaps

theorem daylog_caps_witness :
    (st300fin.dailyLogs.getD 0 default).isRestart = false ∧
    (st300fin.dailyLogs.getD 0 default).totalDrivingHours ≤ MAX_DRIVING_HOURS ∧
    (st300fin.dailyLogs.getD 0 default).totalOnDutyHours ≤ MAX_ON_DUTY_HOURS := by
  have hres : (st300fin.dailyLogs.getD 0 default).isRestart = false := by
    decide
  refine ⟨hres, ?_⟩
  exact daylog_caps 0 300 (300 / AVG_SPEED_MPH) 0 12 1 st300fin run300
    (st300fin.dailyLogs.getD 0 default) (by decide) hres

end HOS

namespace HOS

theorem flatEntries_append (a b : List DayLog) :
    flatEntries (a ++ b) = flatEntries a ++ flatEntries b := by
  simp [flatEntries]

theorem flatEntries_singleton (l : DayLog) : flatEntries [l] = l.entries := by
  simp [flatEntries]

theorem flatEntries_nil : flatEntries [] = [] := rfl

/-- A work day appends the pickup entry exactly when the pickup flag was still
unset, and appends the dropoff entry exactly when the dropoff flag flips. -/
theorem buildWorkDay_marks (tdh : ℚ) (iF : ℕ) (ts ts' : TripState)
    (h : buildWorkDay tdh iF ts = some ts') :
    ts'.pickupDone = true ∧
    countNote Note.pickup (flatEntries ts'.dailyLogs)
      = countNote Note.pickup (flatEntries ts.dailyLogs)
        + (if ts.pickupDone then 0 else 1) ∧
    (ts.dropoffDone = false →
      countNote Note.dropoff (flatEntries ts'.dailyLogs)
        = countNote Note.dropoff (flatEntries ts.dailyLogs)
          + (if ts'.dropoffDone then 1 else 0)) ∧
    (ts.dropoffDone = true → ts'.dropoffDone = true ∧
      countNote Note.dropoff (flatEntries ts'.dailyLogs)
        = countNote Note.dropoff (flatEntries ts.dailyLogs)) := by
  rw [buildWorkDay] at h
  cases hdl : driveLoop (maxDriveOf ts) (maxOnDutyOf ts) iF (pickupAdjusted ts) with
  | none =>
    rw [hdl] at h
    cases h
  | some s2 =>
    rw [hdl] at h
    injection h with h
    subst h
    obtain ⟨hpk, hflipf, _, hdone⟩ := driveLoop_counts (maxDriveOf ts) (maxOnDutyOf ts)
      iF (pickupAdjusted ts) s2 hdl
    have hflat : flatEntries (finishDay tdh ts s2).dailyLogs
        = flatEntries ts.dailyLogs ++ (restAdjusted tdh ts.dayNumber s2).entries := by
      rw [finishDay_dailyLogs, flatEntries_append, flatEntries_singleton, mkWorkDayLog_entries]
    refine ⟨finishDay_pickupDone tdh ts s2, ?_, ?_, ?_⟩
    · rw [hflat, countNote_append, restAdjusted_countNote _ _ _ _ (by simp), hpk,
        pickupAdjusted_countNote_pickup]
    · intro hd
      rw [hflat, countNote_append, restAdjusted_countNote _ _ _ _ (by simp),
        hflipf (by rw [pickupAdjusted_dropoffDone]; exact hd),
        pickupAdjusted_countNote _ _ (by simp),
        finishDay_dropoffDone, restAdjusted_dropoffDone]
      omega
    · intro hd
      obtain ⟨hflag, hcnt⟩ := hdone (by rw [pickupAdjusted_dropoffDone]; exact hd)
      refine ⟨by rw [finishDay_dropoffDone, restAdjusted_dropoffDone]; exact hflag, ?_⟩
      rw [hflat, countNote_append, restAdjusted_countNote _ _ _ _ (by simp), hcnt,
        pickupAdjusted_countNote _ _ (by simp)]
      omega

/-- Through the whole loop: the plan holds exactly one pickup entry once the
pickup flag is set (zero before), exactly one dropoff entry once the dropoff
flag is set (zero before), and the dropoff flag implies the pickup flag. -/
theorem scheduleLoop_marks (tdh : ℚ) (iF : ℕ) : ∀ (f : ℕ) (ts ts' : TripState),
    scheduleLoop tdh iF f ts = some ts' →
    countNote Note.pickup (flatEntries ts.dailyLogs) = (if ts.pickupDone then 1 else 0) →
    countNote Note.dropoff (flatEntries ts.dailyLogs) = (if ts.dropoffDone then 1 else 0) →
    (ts.dropoffDone = true → ts.pickupDone = true) →
    countNote Note.pickup (flatEntries ts'.dailyLogs) = (if ts'.pickupDone then 1 else 0) ∧
    countNote Note.dropoff (flatEntries ts'.dailyLogs) = (if ts'.dropoffDone then 1 else 0) ∧
    (ts'.dropoffDone = true → ts'.pickupDone = true) := by
  intro f
  induction f with
  | zero =>
    intro ts ts' h
    simp [scheduleLoop] at h
  | succ f ih =>
    intro ts ts' h h1 h2 h3
    rw [scheduleLoop_succ] at h
    have hrstep : countNote Note.pickup (flatEntries (applyRestart ts).dailyLogs)
          = (if (applyRestart ts).pickupDone then 1 else 0) ∧
        countNote Note.dropoff (flatEntries (applyRestart ts).dailyLogs)
          = (if (applyRestart ts).dropoffDone then 1 else 0) := by
      rw [applyRestart_dailyLogs, flatEntries_append, flatEntries_singleton,
        countNote_append, countNote_append, createRestartLog_countNote _ _ _ (by simp),
        createRestartLog_countNote _ _ _ (by simp), applyRestart_pickupDone,
        applyRestart_dropoffDone, h1, h2]
      omega
    split_ifs at h with hgo hr1 hr2
    · exact ih _ _ h hrstep.1 hrstep.2
        (by rw [applyRestart_dropoffDone, applyRestart_pickupDone]; exact h3)
    · exact ih _ _ h hrstep.1 hrstep.2
        (by rw [applyRestart_dropoffDone, applyRestart_pickupDone]; exact h3)
    · cases hbw : buildWorkDay tdh iF ts with
      | none =>
        rw [hbw] at h
        cases h
      | some ts2 =>
        rw [hbw] at h
        simp only at h
        obtain ⟨hpk2, hcp, hcdF, hcdT⟩ := buildWorkDay_marks tdh iF ts ts2 hbw
        have hnew1 : countNote Note.pickup (flatEntries ts2.dailyLogs)
            = (if ts2.pickupDone then 1 else 0) := by
          rw [hcp, h1]
          cases hp : ts.pickupDone <;> simp [hp, hpk2]
        have hnew2 : countNote Note.dropoff (flatEntries ts2.dailyLogs)
            = (if ts2.dropoffDone then 1 else 0) := by
          cases hd : ts.dropoffDone
          · rw [hcdF hd, h2, hd]
            simp
          · obtain ⟨hflag, hcnt⟩ := hcdT hd
            rw [hcnt, h2, hd, hflag]
        have hnew3 : ts2.dropoffDone = true → ts2.pickupDone = true := fun _ => hpk2
        by_cases hstop : ts2.dropoffDone = true ∧ ts2.remainingDrivingHours ≤ 0
        · rw [if_pos hstop] at h
          injection h with h
          subst h
          exact ⟨hnew1, hnew2, hnew3⟩
        · rw [if_neg hstop] at h
          exact ih _ _ h hnew1 hnew2 hnew3
    · injection h with h
      subst h
      exact ⟨h1, h2, h3⟩

/-- Entries appended by the inner loop, in order: no pickup is ever added, and
when the dropoff flag flips the appended block ends with the trip-ending
driving segment immediately followed by the dropoff entry (nothing of the
inner loop comes after the dropoff). -/
theorem driveLoop_shape (maxD maxOD : ℚ) : ∀ (f : ℕ) (s s' : DayState),
    driveLoop maxD maxOD f s = some s' →
    s.dropoffDone = false →
    ∃ t, s'.entries = s.entries ++ t ∧ countNote Note.pickup t = 0 ∧
      ((s'.dropoffDone = false ∧ countNote Note.dropoff t = 0) ∨
       (s'.dropoffDone = true ∧ ∃ t0 drv dp, t = t0 ++ [drv, dp] ∧
         drv.note = Note.driving ∧ dp.note = Note.dropoff ∧
         countNote Note.dropoff t0 = 0)) := by
  intro f
  induction f with
  | zero =>
    intro s s' h
    simp [driveLoop] at h
  | succ f ih =>
    intro s s' h hdrop
    rw [driveLoop_succ] at h
    split_ifs at h with hc hb hf he hdp
    · -- break
      obtain ⟨t, ht, htp, hts⟩ := ih _ _ h (by rw [afterBreak_dropoffDone]; exact hdrop)
      rw [afterBreak_entries] at ht
      refine ⟨createLogEntry Status.OFF s.time REQUIRED_BREAK_DURATION Note.breakRest :: t,
        ?_, ?_, ?_⟩
      · rw [ht, List.append_assoc]
        rfl
      · rw [countNote_cons, createLogEntry_note, htp]
        simp
      · rcases hts with ⟨hflag, htd⟩ | ⟨hflag, t0, drv, dp, ht0, hdrv, hdp2, htd0⟩
        · left
          refine ⟨hflag, ?_⟩
          rw [countNote_cons, createLogEntry_note, htd]
          simp
        · right
          refine ⟨hflag,
            createLogEntry Status.OFF s.time REQUIRED_BREAK_DURATION Note.breakRest :: t0,
            drv, dp, ?_, hdrv, hdp2, ?_⟩
          · rw [ht0]
            rfl
          · rw [countNote_cons, createLogEntry_note, htd0]
            simp
    · -- fuel stop
      obtain ⟨t, ht, htp, hts⟩ := ih _ _ h (by rw [afterFuel_dropoffDone]; exact hdrop)
      rw [afterFuel_entries] at ht
      refine ⟨createLogEntry Status.ON s.time FUEL_STOP_DURATION Note.fuelStop :: t,
        ?_, ?_, ?_⟩
      · rw [ht, List.append_assoc]
        rfl
      · rw [countNote_cons, createLogEntry_note, htp]
        simp
      · rcases hts with ⟨hflag, htd⟩ | ⟨hflag, t0, drv, dp, ht0, hdrv, hdp2, htd0⟩
        · left
          refine ⟨hflag, ?_⟩
          rw [countNote_cons, createLogEntry_note, htd]
          simp
        · right
          refine ⟨hflag,
            createLogEntry Status.ON s.time FUEL_STOP_DURATION Note.fuelStop :: t0,
            drv, dp, ?_, hdrv, hdp2, ?_⟩
          · rw [ht0]
            rfl
          · rw [countNote_cons, createLogEntry_note, htd0]
            simp
    · -- epsilon exit
      obtain rfl : s = s' := by injection h
      exact ⟨[], by simp, rfl, Or.inl ⟨hdrop, rfl⟩⟩
    · -- dropoff: the driving segment immediately followed by the dropoff entry
      obtain rfl : afterDrop (afterDrive maxD maxOD s) = s' := by injection h
      refine ⟨[createLogEntry Status.D s.time (driveDur maxD maxOD s) Note.driving,
        createLogEntry Status.ON (afterDrive maxD maxOD s).time DROPOFF_DURATION Note.dropoff],
        ?_, ?_, ?_⟩
      · rw [afterDrop_entries, afterDrive_entries, List.append_assoc]
        rfl
      · simp [countNote_cons, countNote_nil, createLogEntry_note]
      · right
        exact ⟨afterDrop_dropoffDone _, [], _, _, rfl, createLogEntry_note _ _ _ _,
          createLogEntry_note _ _ _ _, rfl⟩
    · -- driving segment, loop continues
      obtain ⟨t, ht, htp, hts⟩ := ih _ _ h (by rw [afterDrive_dropoffDone]; exact hdrop)
      rw [afterDrive_entries] at ht
      refine ⟨createLogEntry Status.D s.time (driveDur maxD maxOD s) Note.driving :: t,
        ?_, ?_, ?_⟩
      · rw [ht, List.append_assoc]
        rfl
      · rw [countNote_cons, createLogEntry_note, htp]
        simp
      · rcases hts with ⟨hflag, htd⟩ | ⟨hflag, t0, drv, dp, ht0, hdrv, hdp2, htd0⟩
        · left
          refine ⟨hflag, ?_⟩
          rw [countNote_cons, createLogEntry_note, htd]
          simp
        · right
          refine ⟨hflag,
            createLogEntry Status.D s.time (driveDur maxD maxOD s) Note.driving :: t0,
            drv, dp, ?_, hdrv, hdp2, ?_⟩
          · rw [ht0]
            rfl
          · rw [countNote_cons, createLogEntry_note, htd0]
            simp
    · -- loop guard false
      obtain rfl : s = s' := by injection h
      exact ⟨[], by simp, rfl, Or.inl ⟨hdrop, rfl⟩⟩

/-- The end-of-day rest appends at most one entry, and it is neither a pickup,
a dropoff nor a driving segment. -/
theorem restAdjusted_entries_shape (tdh : ℚ) (dn : ℕ) (s2 : DayState) :
    ∃ r, (restAdjusted tdh dn s2).entries = s2.entries ++ r ∧
      countNote Note.pickup r = 0 ∧ countNote Note.dropoff r = 0 ∧
      countNote Note.driving r = 0 := by
  rw [restAdjusted]
  split
  · refine ⟨[createLogEntry Status.SB s2.time RESET_OFF_DUTY_HOURS Note.dailyRest],
      rfl, ?_, ?_, ?_⟩
    all_goals simp [countNote_singleton, createLogEntry_note]
  · exact ⟨[], by simp, rfl, rfl, rfl⟩

/-- A work day appends, in order: the pickup entry (exactly when the pickup
flag was unset), the inner-loop block, and at most one daily-rest entry; when
the day finishes the trip, the inner-loop block ends with the trip-ending
driving segment immediately followed by the dropoff entry. -/
theorem buildWorkDay_shape (tdh : ℚ) (iF : ℕ) (ts ts' : TripState)
    (h : buildWorkDay tdh iF ts = some ts') (hdrop : ts.dropoffDone = false) :
    ∃ front t r,
      flatEntries ts'.dailyLogs = flatEntries ts.dailyLogs ++ (front ++ (t ++ r)) ∧
      (ts.pickupDone = true → front = []) ∧
      (ts.pickupDone = false → ∃ pk, front = [pk] ∧ pk.note = Note.pickup) ∧
      countNote Note.pickup t = 0 ∧
      countNote Note.pickup r = 0 ∧ countNote Note.dropoff r = 0 ∧
      countNote Note.driving r = 0 ∧
      ts'.pickupDone = true ∧
      ((ts'.dropoffDone = false ∧ countNote Note.dropoff t = 0) ∨
       (ts'.dropoffDone = true ∧ ts'.remainingDrivingHours ≤ 0 ∧
         ∃ t0 drv dp, t = t0 ++ [drv, dp] ∧ drv.note = Note.driving ∧
           dp.note = Note.dropoff ∧ countNote Note.dropoff t0 = 0)) := by
  rw [buildWorkDay] at h
  cases hdl : driveLoop (maxDriveOf ts) (maxOnDutyOf ts) iF (pickupAdjusted ts) with
  | none =>
    rw [hdl] at h
    cases h
  | some s2 =>
    rw [hdl] at h
    injection h with h
    subst h
    obtain ⟨t, ht, htp, hts⟩ := driveLoop_shape (maxDriveOf ts) (maxOnDutyOf ts) iF
      (pickupAdjusted ts) s2 hdl (by rw [pickupAdjusted_dropoffDone]; exact hdrop)
    obtain ⟨r, hr, hrp, hrd, hrv⟩ := restAdjusted_entries_shape tdh ts.dayNumber s2
    refine ⟨(pickupAdjusted ts).entries, t, r, ?_, ?_, ?_, htp, hrp, hrd, hrv,
      finishDay_pickupDone tdh ts s2, ?_⟩
    · rw [finishDay_dailyLogs, flatEntries_append, flatEntries_singleton,
        mkWorkDayLog_entries, hr, ht]
      simp [List.append_assoc]
    · intro hpk
      rw [pickupAdjusted_entries, if_pos hpk]
    · intro hpk
      rw [pickupAdjusted_entries, if_neg (by simp [hpk])]
      exact ⟨_, rfl, createLogEntry_note _ _ _ _⟩
    · rcases hts with ⟨hflag, htd⟩ | ⟨hflag, t0, drv, dp, ht0, hdrv, hdp2, htd0⟩
      · left
        refine ⟨?_, htd⟩
        rw [finishDay_dropoffDone, restAdjusted_dropoffDone]
        exact hflag
      · right
        refine ⟨?_, ?_, t0, drv, dp, ht0, hdrv, hdp2, htd0⟩
        · rw [finishDay_dropoffDone, restAdjusted_dropoffDone]
          exact hflag
        · rw [finishDay_remainingDrivingHours, restAdjusted_remainingDrivingHours]
          obtain ⟨_, _, hflip, _⟩ := driveLoop_counts (maxDriveOf ts) (maxOnDutyOf ts)
            iF (pickupAdjusted ts) s2 hdl
          exact hflip (by rw [pickupAdjusted_dropoffDone]; exact hdrop) hflag

/-- An entry list where the (unique) pickup has appeared, with no driving, no
pickup and no dropoff before it and no further pickup or dropoff after it. -/
def pickupStarted (es : List LogEntry) : Prop :=
  ∃ pre1 pk mid, es = pre1 ++ pk :: mid ∧ pk.note = Note.pickup ∧
    countNote Note.pickup pre1 = 0 ∧ countNote Note.driving pre1 = 0 ∧
    countNote Note.dropoff pre1 = 0 ∧
    countNote Note.pickup mid = 0 ∧ countNote Note.dropoff mid = 0

/-- An entry list of the shape the original claim describes, minus the day-1
placement: one pickup that precedes every driving segment (nothing before it
is a pickup, a driving segment or a dropoff), and one dropoff that sits
immediately after a driving segment with no driving segment — and no further
pickup or dropoff — anywhere after it, so that driving segment is the last of
the whole plan. -/
def orderedPlan (es : List LogEntry) : Prop :=
  ∃ pre1 pk mid drv dp post,
    es = pre1 ++ pk :: (mid ++ drv :: dp :: post) ∧
    pk.note = Note.pickup ∧ drv.note = Note.driving ∧ dp.note = Note.dropoff ∧
    countNote Note.pickup pre1 = 0 ∧ countNote Note.driving pre1 = 0 ∧
    countNote Note.dropoff pre1 = 0 ∧
    countNote Note.pickup mid = 0 ∧ countNote Note.dropoff mid = 0 ∧
    countNote Note.pickup post = 0 ∧ countNote Note.driving post = 0 ∧
    countNote Note.dropoff post = 0

/-- The loop invariant behind the amended C5: before the first work day the
plan has no pickup, no driving and no dropoff; after it (but before the
dropoff) it is `pickupStarted`; once the dropoff flag is set it is an
`orderedPlan` and the remaining driving hours are exhausted. -/
def c5Inv (ts : TripState) : Prop :=
  (ts.pickupDone = false ∧ ts.dropoffDone = false ∧
    countNote Note.pickup (flatEntries ts.dailyLogs) = 0 ∧
    countNote Note.driving (flatEntries ts.dailyLogs) = 0 ∧
    countNote Note.dropoff (flatEntries ts.dailyLogs) = 0) ∨
  (ts.pickupDone = true ∧ ts.dropoffDone = false ∧
    pickupStarted (flatEntries ts.dailyLogs)) ∨
  (ts.dropoffDone = true ∧ ts.remainingDrivingHours ≤ 0 ∧ ts.pickupDone = true ∧
    orderedPlan (flatEntries ts.dailyLogs))

theorem c5Inv_restart (ts : TripState) (h : c5Inv ts) : c5Inv (applyRestart ts) := by
  have hflat : flatEntries (applyRestart ts).dailyLogs
      = flatEntries ts.dailyLogs ++ (createRestartLog ts.dayNumber ts.time).entries := by
    rw [applyRestart_dailyLogs, flatEntries_append, flatEntries_singleton]
  rcases h with ⟨h1, h2, h3, h4, h5⟩ | ⟨h1, h2, hP⟩ | ⟨h1, h2, h3, hP⟩
  · left
    refine ⟨by rw [applyRestart_pickupDone]; exact h1,
      by rw [applyRestart_dropoffDone]; exact h2, ?_, ?_, ?_⟩
    · rw [hflat, countNote_append, createRestartLog_countNote _ _ _ (by simp)]
      omega
    · rw [hflat, countNote_append, createRestartLog_countNote _ _ _ (by simp)]
      omega
    · rw [hflat, countNote_append, createRestartLog_countNote _ _ _ (by simp)]
      omega
  · right
    left
    refine ⟨by rw [applyRestart_pickupDone]; exact h1,
      by rw [applyRestart_dropoffDone]; exact h2, ?_⟩
    obtain ⟨pre1, pk, mid, hes, hpk, c1, c2, c3, c4, c5⟩ := hP
    refine ⟨pre1, pk, mid ++ (createRestartLog ts.dayNumber ts.time).entries, ?_,
      hpk, c1, c2, c3, ?_, ?_⟩
    · rw [hflat, hes]
      simp [List.append_assoc]
    · rw [countNote_append, c4, createRestartLog_countNote _ _ _ (by simp)]
    · rw [countNote_append, c5, createRestartLog_countNote _ _ _ (by simp)]
  · right
    right
    refine ⟨by rw [applyRestart_dropoffDone]; exact h1,
      by rw [applyRestart_remainingDrivingHours]; exact h2,
      by rw [applyRestart_pickupDone]; exact h3, ?_⟩
    obtain ⟨pre1, pk, mid, drv, dp, post, hes, hpk, hdrv, hdp, c1, c2, c3, c4, c5,
      c6, c7, c8⟩ := hP
    refine ⟨pre1, pk, mid, drv, dp, post ++ (createRestartLog ts.dayNumber ts.time).entries,
      ?_, hpk, hdrv, hdp, c1, c2, c3, c4, c5, ?_, ?_, ?_⟩
    · rw [hflat, hes]
      simp [List.append_assoc]
    · rw [countNote_append, c6, createRestartLog_countNote _ _ _ (by simp)]
    · rw [countNote_append, c7, createRestartLog_countNote _ _ _ (by simp)]
    · rw [countNote_append, c8, createRestartLog_countNote _ _ _ (by simp)]

theorem c5Inv_work (tdh : ℚ) (iF : ℕ) (ts ts2 : TripState) (h : c5Inv ts)
    (hbw : buildWorkDay tdh iF ts = some ts2) : c5Inv ts2 := by
  rcases h with ⟨h1, h2, h3, h4, h5⟩ | ⟨h1, h2, hP⟩ | ⟨h1, h2, h3, hP⟩
  · -- first work day: the pickup opens the day
    obtain ⟨front, t, r, hflat, hfT, hfF, htp, hrp, hrd, hrv, hpk2, hcase⟩ :=
      buildWorkDay_shape tdh iF ts ts2 hbw h2
    obtain ⟨pk, hfront, hpknote⟩ := hfF h1
    rcases hcase with ⟨hflag, htd⟩ | ⟨hflag, hrdh, t0, drv, dp, ht0, hdrv, hdp2, htd0⟩
    · right
      left
      refine ⟨hpk2, hflag, flatEntries ts.dailyLogs, pk, t ++ r, ?_, hpknote,
        h3, h4, h5, ?_, ?_⟩
      · rw [hflat, hfront]
        simp [List.append_assoc]
      · rw [countNote_append, htp, hrp]
      · rw [countNote_append, htd, hrd]
    · right
      right
      have htp0 : countNote Note.pickup t0 = 0 := by
        rw [ht0, countNote_append] at htp
        omega
      refine ⟨hflag, hrdh, hpk2, flatEntries ts.dailyLogs, pk, t0, drv, dp, r, ?_,
        hpknote, hdrv, hdp2, h3, h4, h5, htp0, htd0, hrp, hrv, hrd⟩
      rw [hflat, hfront, ht0]
      simp [List.append_assoc]
  · -- later work day before the dropoff
    obtain ⟨front, t, r, hflat, hfT, hfF, htp, hrp, hrd, hrv, hpk2, hcase⟩ :=
      buildWorkDay_shape tdh iF ts ts2 hbw h2
    have hfront := hfT h1
    obtain ⟨pre1, pk, mid, hes, hpknote, c1, c2, c3, c4, c5⟩ := hP
    rcases hcase with ⟨hflag, htd⟩ | ⟨hflag, hrdh, t0, drv, dp, ht0, hdrv, hdp2, htd0⟩
    · right
      left
      refine ⟨hpk2, hflag, pre1, pk, mid ++ (t ++ r), ?_, hpknote, c1, c2, c3, ?_, ?_⟩
      · rw [hflat, hfront, hes]
        simp [List.append_assoc]
      · rw [countNote_append, countNote_append, c4, htp, hrp]
      · rw [countNote_append, countNote_append, c5, htd, hrd]
    · right
      right
      have htp0 : countNote Note.pickup t0 = 0 := by
        rw [ht0, countNote_append] at htp
        omega
      refine ⟨hflag, hrdh, hpk2, pre1, pk, mid ++ t0, drv, dp, r, ?_, hpknote, hdrv,
        hdp2, c1, c2, c3, ?_, ?_, hrp, hrv, hrd⟩
      · rw [hflat, hfront, hes, ht0]
        simp [List.append_assoc]
      · rw [countNote_append, c4, htp0]
      · rw [countNote_append, c5, htd0]
  · -- work day after the dropoff: no driving hours remain, so the inner loop
    -- adds nothing and the day appends at most a rest entry
    rw [buildWorkDay] at hbw
    cases hdl : driveLoop (maxDriveOf ts) (maxOnDutyOf ts) iF (pickupAdjusted ts) with
    | none =>
      rw [hdl] at hbw
      cases hbw
    | some s2 =>
      rw [hdl] at hbw
      injection hbw with hbw
      subst hbw
      have hs2 : s2 = pickupAdjusted ts := by
        apply driveLoop_of_not_cond _ _ _ _ _ _ hdl
        intro hcc
        have hrdh := hcc.2.2
        rw [pickupAdjusted_remainingDrivingHours] at hrdh
        linarith
      obtain ⟨r, hr, hrp, hrd, hrv⟩ := restAdjusted_entries_shape tdh ts.dayNumber s2
      have hpa : (pickupAdjusted ts).entries = [] := by
        rw [pickupAdjusted_entries, if_pos h3]
      right
      right
      refine ⟨?_, ?_, finishDay_pickupDone tdh ts s2, ?_⟩
      · rw [finishDay_dropoffDone, restAdjusted_dropoffDone, hs2, pickupAdjusted_dropoffDone]
        exact h1
      · rw [finishDay_remainingDrivingHours, restAdjusted_remainingDrivingHours, hs2,
          pickupAdjusted_remainingDrivingHours]
        exact h2
      · obtain ⟨pre1, pk, mid, drv, dp, post, hes, hpk, hdrv, hdp, c1, c2, c3, c4, c5,
          c6, c7, c8⟩ := hP
        refine ⟨pre1, pk, mid, drv, dp, post ++ r, ?_, hpk, hdrv, hdp, c1, c2, c3,
          c4, c5, ?_, ?_, ?_⟩
        · rw [finishDay_dailyLogs, flatEntries_append, flatEntries_singleton,
            mkWorkDayLog_entries, hr, hs2, hpa, hes]
          simp [List.append_assoc]
        · rw [countNote_append, c6, hrp]
        · rw [countNote_append, c7, hrv]
        · rw [countNote_append, c8, hrd]

theorem scheduleLoop_c5Inv (tdh : ℚ) (iF : ℕ) : ∀ (f : ℕ) (ts ts' : TripState),
    scheduleLoop tdh iF f ts = some ts' → c5Inv ts → c5Inv ts' := by
  intro f
  induction f with
  | zero =>
    intro ts ts' h
    simp [scheduleLoop] at h
  | succ f ih =>
    intro ts ts' h hInv
    rw [scheduleLoop_succ] at h
    split_ifs at h with hgo hr1 hr2
    · exact ih _ _ h (c5Inv_restart ts hInv)
    · exact ih _ _ h (c5Inv_restart ts hInv)
    · cases hbw : buildWorkDay tdh iF ts with
      | none =>
        rw [hbw] at h
        cases h
      | some ts2 =>
        rw [hbw] at h
        simp only at h
        have hInv2 := c5Inv_work tdh iF ts ts2 hInv hbw
        by_cases hstop : ts2.dropoffDone = true ∧ ts2.remainingDrivingHours ≤ 0
        · rw [if_pos hstop] at h
          injection h with h
          subst h
          exact hInv2
        · rw [if_neg hstop] at h
          exact ih _ _ h hInv2
    · injection h with h
      subst h
      exact hInv

/-- C5 (amended): in every completed run that delivers the load (final dropoff
flag set), the plan contains exactly one pickup entry and exactly one dropoff
entry, the pickup precedes every driving segment (no driving, pickup or
dropoff entry occurs before it), and the dropoff sits immediately after a
driving segment with no driving segment anywhere after it — i.e. immediately
after the LAST driving segment of the plan.  The original claim's placement
of the pickup on day 1 is refuted separately: a restart day may precede the
first work day, pushing the pickup to day 2. -/
theorem c5_amended_unique_pickup_dropoff (c0 m tdh now : ℚ) (iF oF : ℕ) (ts : TripState)
    (h : generateDailySchedule c0 m tdh now iF oF = some ts)
    (hdone : ts.dropoffDone = true) :
    countNote Note.pickup (flatEntries ts.dailyLogs) = 1 ∧
    countNote Note.dropoff (flatEntries ts.dailyLogs) = 1 ∧
    orderedPlan (flatEntries ts.dailyLogs) := by
  obtain ⟨h1, h2, h3⟩ := scheduleLoop_marks tdh iF oF (initialTripState c0 m tdh now) ts h
    rfl rfl (fun hh => hh)
  have hInv : c5Inv ts := scheduleLoop_c5Inv tdh iF oF (initialTripState c0 m tdh now) ts h
    (Or.inl ⟨rfl, rfl, rfl, rfl, rfl⟩)
  refine ⟨by rw [h1, h3 hdone]; simp, by rw [h2, hdone]; simp, ?_⟩
  rcases hInv with ⟨_, hd2, _⟩ | ⟨_, hd2, _⟩ | ⟨_, _, _, hP⟩
  · rw [hdone] at hd2
    cases hd2
  · rw [hdone] at hd2
    cases hd2
  · exact hP

theorem c5_amended_unique_pickup_dropoff_witness :
    st300fin.dropoffDone = true ∧
    countNote Note.pickup (flatEntries st300fin.dailyLogs) = 1 ∧
    countNote Note.dropoff (flatEntries st300fin.dailyLogs) = 1 ∧
    orderedPlan (flatEntries st300fin.dailyLogs) := by
  have hd : st300fin.dropoffDone = true := by decide
  exact ⟨hd, c5_amended_unique_pickup_dropoff 0 300 (300 / AVG_SPEED_MPH) 0 12 1
    st300fin run300 hd⟩

end HOS
